import Mathlib

/-!
Epidemic network viewer: `simulation/static/simulation/js/main.js`.

A shallow embedding of the session controller and of the 3D highlight state
machine of `main.js`.

Conventions of the embedding.

* The module-level globals of `main.js` are the fields of `State`; every
  function of the source becomes a function on `State`.
* Node ids are the numeric ids the service assigns (`Nat`).  A link endpoint is
  either such a raw id or an embedded node object (`Endpoint`).
* Decimal constants of the source (opacities, scales, emissive intensities) are
  kept exactly, in hundredths (`Centi`): `0.08` is `8`, `1.0` is `100`,
  `1.6` is `160`.  The source never computes with them.
* Colours are the 24-bit hex values of the source.
* An object that the source compares by reference (a line of `edgeObjects`
  stored in a `Set`) carries its identity in a field `ref`.
* Node objects are shared by reference between `graphData.nodes`, the
  `userData.node` of a sphere and `hoveredNode`; such a reference is a
  `NodeRef`.
* `nodeObjects` and `edgeObjects` hold JS arrays or d3 selections, depending on
  the function that assigned them last (`ObjectsKind`); a method call that the
  object does not have throws a `TypeError`.
* Page elements that only display text (buttons, status toast, info panel) are
  not part of the state; the statistics panel is (`Display`), and so is the set
  of timers of the page (`Timers`).
* An `await fetch(...)` either throws or yields the parsed body (`Fetch`).
-/

set_option autoImplicit false

namespace EpidemicViewer

/-! ## Data model -/

/-- Server-assigned numeric node id. -/
abbrev NodeId := Nat

/-- A decimal constant of the source, in hundredths. -/
abbrev Centi := Nat

/-- A node of `graphData.nodes`: `{id, degree}` from the service, the flag
`infected` (absent, hence falsy, until first written), and the coordinates the
2D force simulation stores on the node. -/
structure Node where
  id : NodeId
  degree : Nat
  infected : Bool
  x : Option Rat
  y : Option Rat
deriving DecidableEq, Repr

/-- A link endpoint as it is found in `graphData.links`: a raw id, or the node
object itself once the 2D force simulation has replaced the id. -/
inductive Endpoint where
  | id (n : NodeId)
  | node (n : Node)
deriving DecidableEq, Repr

/-- A link `{source, target}`. -/
structure Link where
  source : Endpoint
  target : Endpoint
deriving DecidableEq, Repr

/-- The object `graphData`. -/
structure Graph where
  nodes : List Node
  links : List Link
deriving DecidableEq, Repr

/-- The expression `endpoint.id || endpoint` (lines 334, 556, 669).  A number
has no property `id`, so a raw id evaluates to itself; for a node object the
result is its id unless that id is falsy (`0`), in which case `||` yields the
object. -/
def endpointId : Endpoint → Endpoint
  | .id n => .id n
  | .node nd => if nd.id = 0 then .node nd else .id nd.id

/-! ## Colours (lines 24-30 and the literals of `highlightNeighbors3D`) -/

def healthyColor : Nat := 0x48bb78
def infectedColor : Nat := 0xf56565
def edgeColor : Nat := 0x353d4f

/-! ## Scene objects -/

/-- The fields of a `THREE.MeshPhongMaterial` that `main.js` reads or writes. -/
structure MeshPhongMaterial where
  color : Nat
  emissive : Nat
  emissiveIntensity : Centi
  shininess : Nat
  specular : Nat
  opacity : Centi
  transparent : Bool
deriving DecidableEq, Repr

/-- The scale vector of a mesh. -/
structure Vector3 where
  x : Centi
  y : Centi
  z : Centi
deriving DecidableEq, Repr

/-- A reference to a node object, as a sphere (`userData.node`, line 365) and
`hoveredNode` (line 609) hold one.  The object is either an element of the
array `graphData.nodes` that `graphData` names now (`current`, its position in
that array), so that a write to the element is seen through the reference, or
an object of a graph that `graphData` named earlier (`stale`).  Once `graphData`
names another graph, no function of `main.js` writes to a node object that a
sphere or `hoveredNode` still refers to, so such an object is kept by value. -/
inductive NodeRef where
  | current (i : Nat)
  | stale (node : Node)
deriving DecidableEq, Repr

/-- The object a reference leads to, `g` being the graph `graphData` names. -/
def NodeRef.deref (g : Graph) : NodeRef → Option Node
  | .current i => g.nodes.get? i
  | .stale nd => some nd

/-- What becomes of a reference when `graphData` is assigned another graph: the
object it leads to stays the same, and is from then on an object of an earlier
graph.  (A reference always leads to an object; the case without one does not
arise and leaves the reference as it is.) -/
def NodeRef.retire (old : Option Graph) : NodeRef → NodeRef
  | .current i =>
    match old with
    | some g =>
      match g.nodes.get? i with
      | some nd => .stale nd
      | none => .current i
    | none => .current i
  | .stale nd => .stale nd

/-- The record `sphere.userData = { nodeId, node }`; `node` is a reference to
the node object the sphere was created for. -/
structure NodeUserData where
  nodeId : NodeId
  node : NodeRef
deriving DecidableEq, Repr

/-- A sphere of `nodeObjects`. -/
structure NodeObj where
  material : MeshPhongMaterial
  scale : Vector3
  userData : NodeUserData
deriving DecidableEq, Repr

/-- The fields of a `THREE.LineBasicMaterial` that `main.js` reads or writes. -/
structure LineBasicMaterial where
  color : Nat
  opacity : Centi
  transparent : Bool
deriving DecidableEq, Repr

/-- The record `line.userData = { source, target }` (normalised endpoints). -/
structure EdgeUserData where
  source : Endpoint
  target : Endpoint
deriving DecidableEq, Repr

/-- A line of `edgeObjects`; `ref` is the identity of the object. -/
structure EdgeObj where
  ref : Nat
  material : LineBasicMaterial
  userData : EdgeUserData
deriving DecidableEq, Repr

/-- The call `new THREE.MeshPhongMaterial({color, shininess: 80, specular:
0xbbbbbb})` of line 357.  The fields the call does not pass take the defaults of
the three.js constructor: `emissive` black, `emissiveIntensity` 1, `opacity` 1,
`transparent` false. -/
def newNodeMaterial (color : Nat) : MeshPhongMaterial :=
  { color := color, emissive := 0x000000, emissiveIntensity := 100,
    shininess := 80, specular := 0xbbbbbb, opacity := 100, transparent := false }

/-- The call `new THREE.LineBasicMaterial({ color: edgeColor, opacity: 0.3,
transparent: true })` of line 331. -/
def edgeMaterial : LineBasicMaterial :=
  { color := edgeColor, opacity := 30, transparent := true }

/-! ## Page environment -/

/-- A call of the timer interface of the page. `activeBefore` is the number of
intervals that were live when `setInterval` was called. -/
inductive TimerCall where
  | setInterval (handle : Nat) (activeBefore : Nat)
  | clearInterval (handle : Option Nat)
deriving DecidableEq, Repr

/-- The interval timers of the page: the handles that are live, the next fresh
handle, and the calls made so far. -/
structure Timers where
  active : List Nat
  next : Nat
  calls : List TimerCall
deriving DecidableEq, Repr

/-- The call `setInterval(simulationStep, 1000)`: a fresh handle becomes live. -/
def Timers.setInterval (t : Timers) : Nat × Timers :=
  (t.next,
   { active := t.active ++ [t.next], next := t.next + 1,
     calls := t.calls ++ [TimerCall.setInterval t.next t.active.length] })

/-- The call `clearInterval(handle)`: the handle, if it names a live interval,
stops being live; `clearInterval(null)` does nothing. -/
def Timers.clearInterval (t : Timers) (handle : Option Nat) : Timers :=
  { t with
    active := match handle with
      | none => t.active
      | some h => t.active.filter (fun k => k != h)
    calls := t.calls ++ [TimerCall.clearInterval handle] }

/-- The object `chartData`. -/
structure ChartData where
  timeSteps : List Nat
  infected : List Nat
  healthy : List Nat
deriving DecidableEq, Repr

/-- The numbers shown by the statistics panel (`timeStep`, `totalNodes`,
`infectedCount`, `healthyCount`). -/
structure Display where
  timeStep : Nat
  totalNodes : Nat
  infectedCount : Nat
  healthyCount : Nat
deriving DecidableEq, Repr

/-- The value of `currentVizType`: `'2d'` or `'3d'`. -/
inductive VizType where
  | twoD
  | threeD
deriving DecidableEq, Repr

/-- What the globals `nodeObjects` and `edgeObjects` hold.  Both start as the
array `[]` (lines 9-10); `renderGraph3D` assigns them arrays of three.js objects
(lines 330 and 351), `renderGraph2D` assigns them d3 selections (lines 474-475).
An array has `forEach` and `length` but no `attr`; a d3 selection has `attr`
but neither `forEach` nor `length`. -/
inductive ObjectsKind where
  | array
  | selection
deriving DecidableEq, Repr

/-- The globals of `main.js` (lines 2-34) together with the page environment.
`nodeObjects` and `edgeObjects` are the three.js meshes and lines when
`objectsKind` is `array`; when it is `selection` the two globals hold d3
selections, whose SVG elements are not modelled.  `hoveredNode` is the
reference `userData.node` of the sphere under the pointer.  `infectionChart`
records whether a chart exists. -/
structure State where
  graphData : Option Graph
  objectsKind : ObjectsKind
  nodeObjects : List NodeObj
  edgeObjects : List EdgeObj
  hoveredNode : Option NodeRef
  autoPlayInterval : Option Nat
  isAutoPlaying : Bool
  infectionChart : Bool
  chartData : ChartData
  currentVizType : VizType
  highlightedNode : Option NodeId
  highlightedNeighbors : List Endpoint
  highlightedEdges : List Nat
  timers : Timers
  display : Display
deriving DecidableEq, Repr

/-- The state of a freshly loaded page (lines 2-34). -/
def State.init : State :=
  { graphData := none, objectsKind := ObjectsKind.array,
    nodeObjects := [], edgeObjects := [], hoveredNode := none,
    autoPlayInterval := none, isAutoPlaying := false, infectionChart := false,
    chartData := { timeSteps := [], infected := [], healthy := [] },
    currentVizType := VizType.twoD, highlightedNode := none,
    highlightedNeighbors := [], highlightedEdges := [],
    timers := { active := [], next := 1, calls := [] },
    display := { timeStep := 0, totalNodes := 0, infectedCount := 0, healthyCount := 0 } }

/-! ## Service responses -/

/-- The field `status` of a response body: `'success'` or anything else. -/
inductive Status where
  | success
  | error
deriving DecidableEq, Repr

/-- One entry `{infected}` of an infection snapshot. -/
structure NodeState where
  infected : Bool
deriving DecidableEq, Repr

/-- An infection snapshot: a mapping from node id to `{infected}`.  It may omit
ids of the graph and may contain ids that are not in the graph. -/
abbrev InfectionState := List (NodeId × NodeState)

/-- The object `statistics` (the rate only feeds formatted text). -/
structure Statistics where
  time_step : Nat
  total_nodes : Nat
  infected_count : Nat
  healthy_count : Nat
deriving DecidableEq, Repr

/-- The object `step_result`. -/
structure StepResult where
  is_outbreak_over : Bool
deriving DecidableEq, Repr

/-- A parsed response body of the simulation service. -/
structure ApiResponse where
  status : Status
  infection_state : InfectionState
  statistics : Statistics
  step_result : StepResult
deriving DecidableEq, Repr

/-- The outcome of `await fetch(...)` followed by `await response.json()`:
either an exception (transport failure) or the parsed body. -/
inductive Fetch where
  | failed
  | response (data : ApiResponse)
deriving DecidableEq, Repr

/-! ## Session controller -/

/-- The test `timeStep > chartData.timeSteps[chartData.timeSteps.length - 1]` of
line 969; on an empty array the right-hand side is `undefined` and the
comparison is false. -/
def afterLast (timeStep : Nat) (timeSteps : List Nat) : Bool :=
  match timeSteps.getLast? with
  | some last => decide (timeStep > last)
  | none => false

/-- The function `updateChartData(stats)` (lines 963-986).  `Array.shift` on an
empty array does nothing, as `List.drop 1`. -/
def updateChartData (s : State) (stats : Statistics) : State :=
  if !s.infectionChart then s
  else
    let timeStep := stats.time_step
    if s.chartData.timeSteps.length = 0 ∨ afterLast timeStep s.chartData.timeSteps then
      let pushed : ChartData :=
        { timeSteps := s.chartData.timeSteps ++ [timeStep],
          infected := s.chartData.infected ++ [stats.infected_count],
          healthy := s.chartData.healthy ++ [stats.healthy_count] }
      let limited : ChartData :=
        if pushed.timeSteps.length > 50 then
          { timeSteps := pushed.timeSteps.drop 1,
            infected := pushed.infected.drop 1,
            healthy := pushed.healthy.drop 1 }
        else pushed
      { s with chartData := limited }
    else s

/-- The function `updateStats(stats)` (lines 790-802): writes the statistics
panel, then calls `updateChartData`. -/
def updateStats (s : State) (stats : Statistics) : State :=
  updateChartData
    { s with display :=
        { timeStep := stats.time_step, totalNodes := stats.total_nodes,
          infectedCount := stats.infected_count, healthyCount := stats.healthy_count } }
    stats

/-- The body of the first loop of the 3D branch of `updateGraph` (lines
762-766): the sphere takes the infection colour of the node object
`obj.userData.node` and a black emissive colour.  `g` is the graph `graphData`
names. -/
def recolorNode (g : Graph) (obj : NodeObj) : NodeObj :=
  match obj.userData.node.deref g with
  | some node =>
    { obj with material :=
        { obj.material with
          color := if node.infected then infectedColor else healthyColor
          emissive := 0x000000 } }
  | none => obj

/-- The body of the second loop of `updateGraph` (lines 769-771). -/
def recolorEdge (edge : EdgeObj) : EdgeObj :=
  { edge with material := { edge.material with color := edgeColor } }

/-- The function `updateGraph()` (lines 747-773); `none` when it throws.  The
guards `!nodeObjects || !edgeObjects` never fire, both globals always hold an
object.  The 2D branch calls `nodeObjects.attr(...)` (lines 754-755), which throws
when `nodeObjects` is an array and otherwise only rewrites SVG attributes; the
3D branch calls `nodeObjects.forEach(...)` (line 762), which throws when
`nodeObjects` is a d3 selection.  Either exception is raised before anything is
written. -/
def updateGraph (s : State) : Option State :=
  match s.graphData with
  | none => some s
  | some g =>
    match s.currentVizType, s.objectsKind with
    | VizType.twoD, ObjectsKind.selection => some s
    | VizType.twoD, ObjectsKind.array => none
    | VizType.threeD, ObjectsKind.array =>
      some { s with
        nodeObjects := s.nodeObjects.map (recolorNode g)
        edgeObjects := s.edgeObjects.map recolorEdge }
    | VizType.threeD, ObjectsKind.selection => none

/-- The body of the loop of `updateInfectionState` (lines 779-784). -/
def applyNodeState (infectionState : InfectionState) (node : Node) : Node :=
  match infectionState.lookup node.id with
  | some state => { node with infected := state.infected }
  | none => node

/-- How a call ended: it returned, or an exception left it; in both cases with
the globals as the call left them. -/
inductive Outcome where
  | returned (s : State)
  | threw (s : State)
deriving DecidableEq, Repr

/-- The globals at the end of the call. -/
def Outcome.state : Outcome → State
  | .returned s => s
  | .threw s => s

/-- The function `updateInfectionState(infectionState)` (lines 776-787).  The
flags are written before `updateGraph()` is called (line 786), so they stay
written when that call throws. -/
def updateInfectionState (s : State) (infectionState : InfectionState) : Outcome :=
  match s.graphData with
  | none => Outcome.returned s
  | some g =>
    let updated : Graph := { g with nodes := g.nodes.map (applyNodeState infectionState) }
    let s1 := { s with graphData := some updated }
    match updateGraph s1 with
    | some s2 => Outcome.returned s2
    | none => Outcome.threw s1

/-- The function `toggleAutoPlay()` (lines 194-209). -/
def toggleAutoPlay (s : State) : State :=
  let s1 := { s with isAutoPlaying := !s.isAutoPlaying }
  if s1.isAutoPlaying then
    let r := s1.timers.setInterval
    { s1 with autoPlayInterval := some r.1, timers := r.2 }
  else
    { s1 with timers := s1.timers.clearInterval s1.autoPlayInterval }

/-- The function `startSimulation()` (lines 131-165), run from the call to the
end of its continuation, for a given outcome of the request.  An exception of
`updateInfectionState` (line 150) is caught at line 162, whose handler only
shows a message: lines 151-158 are then skipped. -/
def startSimulation (s : State) (r : Fetch) : State :=
  match r with
  | Fetch.failed => s
  | Fetch.response data =>
    match data.status with
    | Status.success =>
      match updateInfectionState s data.infection_state with
      | Outcome.returned s1 => toggleAutoPlay (updateStats s1 data.statistics)
      | Outcome.threw s1 => s1
    | Status.error => s

/-- The function `simulationStep()` (lines 168-191).  An exception of
`updateInfectionState` (line 178) is caught at line 188, whose handler only
logs it: lines 179-186 are then skipped. -/
def simulationStep (s : State) (r : Fetch) : State :=
  match r with
  | Fetch.failed => s
  | Fetch.response data =>
    match data.status with
    | Status.success =>
      match updateInfectionState s data.infection_state with
      | Outcome.returned s0 =>
        let s1 := updateStats s0 data.statistics
        if data.step_result.is_outbreak_over then
          if s1.isAutoPlaying then toggleAutoPlay s1 else s1
        else s1
      | Outcome.threw s0 => s0
    | Status.error => s

/-- The function `infectNode(nodeId)` (lines 212-229).  An exception of
`updateInfectionState` (line 223) is caught at line 226, whose handler only
logs it: line 224 is then skipped. -/
def infectNode (s : State) (_nodeId : NodeId) (r : Fetch) : State :=
  match r with
  | Fetch.failed => s
  | Fetch.response data =>
    match data.status with
    | Status.success =>
      match updateInfectionState s data.infection_state with
      | Outcome.returned s1 => updateStats s1 data.statistics
      | Outcome.threw s1 => s1
    | Status.error => s

/-- The part of `resetSimulation()` that runs before the request is sent (lines
233-235). -/
def resetSimulation_begin (s : State) : State :=
  if s.isAutoPlaying then toggleAutoPlay s else s

/-- The loop of lines 242-244: every node gets `infected = false`. -/
def clearInfected (g : Graph) : Graph :=
  { g with nodes := g.nodes.map (fun node => { node with infected := false }) }

/-- The part of `resetSimulation()` that runs once `await fetch` has returned
(lines 237-269).  The response is not inspected.  An exception of
`updateGraph()` (line 245) is caught at line 267, whose handler only shows a
message: lines 246-265 are then skipped, the flags of lines 242-244 stay
cleared. -/
def resetSimulation_complete (s : State) (r : Fetch) : State :=
  match r with
  | Fetch.failed => s
  | Fetch.response _ =>
    match s.graphData with
    | some g =>
      let cleared := clearInfected g
      let s0 := { s with graphData := some cleared }
      match updateGraph s0 with
      | some s1 =>
        let s2 := updateStats s1
          { total_nodes := cleared.nodes.length, infected_count := 0,
            healthy_count := cleared.nodes.length, time_step := 0 }
        { s2 with chartData :=
            { timeSteps := [0], infected := [0], healthy := [cleared.nodes.length] } }
      | none => s0
    | none => s

/-- The function `resetSimulation()` (lines 232-270). -/
def resetSimulation (s : State) (r : Fetch) : State :=
  resetSimulation_complete (resetSimulation_begin s) r

/-! ## 3D rendering and highlighting -/

/-- The lookup `positions[endpoint]` in `calculatePositions3D` and
`renderGraph3D`: `positions` has one entry per node, keyed by `node.id`, so the
lookup yields an object exactly when the normalised endpoint is the id of a
node; otherwise it yields `undefined` and the next property access throws. -/
def hasPosition (data : Graph) (endpoint : Endpoint) : Bool :=
  match endpoint with
  | .id n => data.nodes.any (fun node => node.id == n)
  | .node _ => false

/-- Whether every link of the graph can be drawn, i.e. neither
`calculatePositions3D` (lines 558-563) nor the edge loop of `renderGraph3D`
(lines 336-341) throws. -/
def linksResolve (data : Graph) : Bool :=
  data.links.all (fun link =>
    hasPosition data (endpointId link.source) && hasPosition data (endpointId link.target))

/-- The line created for the `i`-th link (lines 333-348). -/
def newEdgeObj (i : Nat) (link : Link) : EdgeObj :=
  { ref := i, material := edgeMaterial,
    userData := { source := endpointId link.source, target := endpointId link.target } }

/-- The lines created by the edge loop, numbered from `i`. -/
def newEdgeObjs : Nat → List Link → List EdgeObj
  | _, [] => []
  | i, link :: rest => newEdgeObj i link :: newEdgeObjs (i + 1) rest

/-- The sphere created for the `i`-th node (lines 352-368). -/
def newNodeObj (i : Nat) (node : Node) : NodeObj :=
  { material := newNodeMaterial (if node.infected then infectedColor else healthyColor),
    scale := { x := 100, y := 100, z := 100 },
    userData := { nodeId := node.id, node := NodeRef.current i } }

/-- The spheres created by the node loop, numbered from `i`. -/
def newNodeObjs : Nat → List Node → List NodeObj
  | _, [] => []
  | i, node :: rest => newNodeObj i node :: newNodeObjs (i + 1) rest

/-- The function `renderGraph3D(data)` (lines 273-392) as far as `edgeObjects`
and `nodeObjects` are concerned (camera, lights and mesh positions are not
modelled); `data` is `graphData`.  When a link endpoint has no position the
`try` block is left (from `calculatePositions3D`, line 327) before either
global is assigned, and both keep their previous value. -/
def renderGraph3D (s : State) (data : Graph) : State :=
  if linksResolve data then
    { s with
      objectsKind := ObjectsKind.array
      edgeObjects := newEdgeObjs 0 data.links
      nodeObjects := newNodeObjs 0 data.nodes }
  else s

/-- The body of the loop that resets a sphere (lines 636-647). -/
def resetNode (g : Graph) (obj : NodeObj) : NodeObj :=
  match g.nodes.find? (fun n => n.id == obj.userData.nodeId) with
  | some nodeData =>
    { obj with
      material :=
        { obj.material with
          color := if nodeData.infected then infectedColor else healthyColor
          emissive := 0x000000
          emissiveIntensity := 0
          shininess := 80
          opacity := 100 }
      scale := { x := 100, y := 100, z := 100 } }
  | none => obj

/-- The body of the loop that resets a line (lines 650-653). -/
def resetEdge (edge : EdgeObj) : EdgeObj :=
  { edge with material := { edge.material with color := edgeColor, opacity := 30 } }

/-- The method `Set.prototype.add`: a set keeps insertion order and holds a
value once. -/
def setAdd {α : Type} [DecidableEq α] (set : List α) (a : α) : List α :=
  if a ∈ set then set else set ++ [a]

/-- The locals `neighbors`, `edgesToHighlight` and `neighborIds` of
`highlightNeighbors3D` (lines 663-665); an edge object is held by its `ref`. -/
structure Scan where
  neighbors : List Endpoint
  edgesToHighlight : List Nat
  neighborIds : List Endpoint
deriving DecidableEq, Repr

/-- The value of `neighborId` after lines 671-674 (`none` is `null`). -/
def neighborOf (nodeId : NodeId) (link : Link) : Option Endpoint :=
  let sourceId := endpointId link.source
  let targetId := endpointId link.target
  if sourceId = Endpoint.id nodeId then some targetId
  else if targetId = Endpoint.id nodeId then some sourceId
  else none

/-- The predicate of `edgeObjects.find` (lines 679-682). -/
def edgeMatches (sourceId targetId : Endpoint) (e : EdgeObj) : Bool :=
  (e.userData.source == sourceId && e.userData.target == targetId) ||
  (e.userData.source == targetId && e.userData.target == sourceId)

/-- The body of the loop over `graphData.links` (lines 668-685). -/
def scanLink (nodeId : NodeId) (edgeObjects : List EdgeObj) (acc : Scan) (link : Link) : Scan :=
  match neighborOf nodeId link with
  | none => acc
  | some neighborId =>
    { neighbors := setAdd acc.neighbors neighborId
      neighborIds := acc.neighborIds ++ [neighborId]
      edgesToHighlight :=
        match edgeObjects.find? (edgeMatches (endpointId link.source) (endpointId link.target)) with
        | some edgeObj => setAdd acc.edgesToHighlight edgeObj.ref
        | none => acc.edgesToHighlight }

/-- The loop over `graphData.links` (lines 668-685). -/
def scanLinks (nodeId : NodeId) (edgeObjects : List EdgeObj) (links : List Link) : Scan :=
  links.foldl (scanLink nodeId edgeObjects)
    { neighbors := [], edgesToHighlight := [], neighborIds := [] }

/-- The body of the loop that fades spheres (lines 696-701). -/
def fadeNode (nodeId : NodeId) (neighbors : List Endpoint) (obj : NodeObj) : NodeObj :=
  if obj.userData.nodeId ≠ nodeId ∧ Endpoint.id obj.userData.nodeId ∉ neighbors then
    { obj with material := { obj.material with opacity := 8, transparent := true } }
  else obj

/-- The body of the loop that fades lines (lines 702-706). -/
def fadeEdge (edgesToHighlight : List Nat) (obj : EdgeObj) : EdgeObj :=
  if obj.ref ∉ edgesToHighlight then
    { obj with material := { obj.material with opacity := 8 } }
  else obj

/-- The idiom `const o = list.find(p); if (o) { mutate o }`: the first element
that satisfies `p` is changed in place. -/
def updateFirst {α : Type} (p : α → Bool) (f : α → α) : List α → List α
  | [] => []
  | a :: rest => if p a then f a :: rest else a :: updateFirst p f rest

/-- The assignments to the central sphere (lines 711-717). -/
def markCentral (obj : NodeObj) : NodeObj :=
  { obj with
    material :=
      { obj.material with
        color := 0x006400
        emissive := 0x00ff00
        emissiveIntensity := 120
        shininess := 120
        opacity := 100
        transparent := true }
    scale := { x := 160, y := 160, z := 160 } }

/-- The assignments to a neighbour sphere (lines 724-729). -/
def markNeighbor (obj : NodeObj) : NodeObj :=
  { obj with
    material :=
      { obj.material with
        color := 0xffff00
        emissive := 0xffff00
        emissiveIntensity := 100
        opacity := 100
        transparent := true }
    scale := { x := 130, y := 130, z := 130 } }

/-- The body of `neighbors.forEach` (lines 721-731): the first sphere whose
`nodeId` is strictly equal to the neighbour value is marked. -/
def highlightNeighbor (nodeObjects : List NodeObj) (neighborId : Endpoint) : List NodeObj :=
  updateFirst (fun o => Endpoint.id o.userData.nodeId == neighborId) markNeighbor nodeObjects

/-- The body of `edgesToHighlight.forEach` (lines 734-737), applied to the line
objects that are in the set. -/
def markEdge (edgesToHighlight : List Nat) (edge : EdgeObj) : EdgeObj :=
  if edge.ref ∈ edgesToHighlight then
    { edge with material := { edge.material with color := 0xffd700, opacity := 95 } }
  else edge

/-- The first half of `highlightNeighbors3D` (lines 634-659): every sphere and
line is reset and the tracking variables are cleared. -/
def resetHighlight (g : Graph) (s : State) : State :=
  { s with
    nodeObjects := s.nodeObjects.map (resetNode g)
    edgeObjects := s.edgeObjects.map resetEdge
    highlightedNode := none
    highlightedNeighbors := []
    highlightedEdges := [] }

/-- The second half of `highlightNeighbors3D` (lines 662-743), entered when
`highlight` is true. -/
def applyHighlight (g : Graph) (nodeId : NodeId) (s : State) : State :=
  let scan := scanLinks nodeId s.edgeObjects g.links
  let faded := s.nodeObjects.map (fadeNode nodeId scan.neighbors)
  let fadedEdges := s.edgeObjects.map (fadeEdge scan.edgesToHighlight)
  let central := updateFirst (fun o => o.userData.nodeId == nodeId) markCentral faded
  let withNeighbors := scan.neighbors.foldl highlightNeighbor central
  { s with
    nodeObjects := withNeighbors
    edgeObjects := fadedEdges.map (markEdge scan.edgesToHighlight)
    highlightedNode := some nodeId
    highlightedNeighbors := scan.neighbors
    highlightedEdges := scan.edgesToHighlight }

/-- The function `highlightNeighbors3D(node, highlight)` (lines 631-744).  With
`graphData` still `null` the function throws (`none`) as soon as it reads
`graphData.nodes` or `graphData.links`, that is unless there is no sphere and
`highlight` is false.  Its only callers are in `onMouseMove`, past the guard of
line 594 (`!nodeObjects.length`), so that `nodeObjects` and `edgeObjects` are
arrays whenever it runs. -/
def highlightNeighbors3D (s : State) (node : Node) (highlight : Bool) : Option State :=
  match s.graphData with
  | none =>
    if s.nodeObjects.isEmpty && !highlight then
      some { s with
        edgeObjects := s.edgeObjects.map resetEdge
        highlightedNode := none
        highlightedNeighbors := []
        highlightedEdges := [] }
    else none
  | some g =>
    let cleared := resetHighlight g s
    if highlight then some (applyHighlight g node.id cleared) else some cleared

/-! ## Well-formedness of graphs and observations used by the theorems -/

/-- Node ids are unique. -/
def uniqueIds (g : Graph) : Prop := (g.nodes.map (fun n => n.id)).Nodup

instance (g : Graph) : Decidable (uniqueIds g) := by
  unfold uniqueIds; infer_instance

/-- Every link endpoint is the raw id of a node of the graph. -/
def rawIdLinks (g : Graph) : Prop :=
  ∀ l ∈ g.links, hasPosition g l.source = true ∧ hasPosition g l.target = true

instance (g : Graph) : Decidable (rawIdLinks g) := by
  unfold rawIdLinks; infer_instance

/-- Two links join the same pair of nodes (in either direction). -/
def sameEnds (l l' : Link) : Prop :=
  (l.source = l'.source ∧ l.target = l'.target) ∨
  (l.source = l'.target ∧ l.target = l'.source)

instance (l l' : Link) : Decidable (sameEnds l l') := by
  unfold sameEnds; infer_instance

/-- No two links of the graph join the same pair of nodes. -/
def noParallelLinks (g : Graph) : Prop := g.links.Pairwise (fun l l' => ¬ sameEnds l l')

instance (g : Graph) : Decidable (noParallelLinks g) := by
  unfold noParallelLinks; infer_instance

/-- No link joins a node to itself. -/
def noSelfLoops (g : Graph) : Prop := ∀ l ∈ g.links, l.source ≠ l.target

instance (g : Graph) : Decidable (noSelfLoops g) := by
  unfold noSelfLoops; infer_instance

/-- The size of the set that `highlightNeighbors3D(n, true)` stores in
`highlightedNeighbors` (0 if the call throws). -/
def neighborSetSize (s : State) (n : Node) : Nat :=
  match highlightNeighbors3D s n true with
  | some s' => s'.highlightedNeighbors.length
  | none => 0

/-- The link is incident to the node with the given id. -/
def incident (nodeId : NodeId) (l : Link) : Prop :=
  l.source = Endpoint.id nodeId ∨ l.target = Endpoint.id nodeId

instance (nodeId : NodeId) (l : Link) : Decidable (incident nodeId l) := by
  unfold incident; infer_instance

/-! ## Loading and example graphs -/

/-- The assignment `graphData = data.graph` of line 83.  The spheres and
`hoveredNode` keep the node objects they refer to, which now belong to an
earlier graph. -/
def setGraphData (s : State) (g : Graph) : State :=
  { s with
    graphData := some g
    hoveredNode := s.hoveredNode.map (NodeRef.retire s.graphData)
    nodeObjects := s.nodeObjects.map (fun o =>
      { o with userData := { o.userData with node := o.userData.node.retire s.graphData } }) }

/-- The assignment of line 64 with `'3d'` selected, then (the request having
succeeded) `graphData = data.graph` and `renderGraph3D(graphData)` (lines
83-87). -/
def loadGraph3D (s : State) (g : Graph) : State :=
  renderGraph3D (setGraphData { s with currentVizType := VizType.threeD } g) g

/-- A run of `initializeNetwork()` (lines 57-128) whose request throws or
is answered with a status other than `'success'`: line 64 has assigned the
selected view type to `currentVizType`, and nothing else is written (lines
121-127).  This is also the state while the request is in flight. -/
def selectVizType (s : State) (vizType : VizType) : State :=
  { s with currentVizType := vizType }

/-- The objects held by `nodeObjects` and `edgeObjects` are of the kind the
branch of `updateGraph` for the current view type works on. -/
def viewConsistent (s : State) : Prop :=
  (s.currentVizType = VizType.threeD ∧ s.objectsKind = ObjectsKind.array) ∨
  (s.currentVizType = VizType.twoD ∧ s.objectsKind = ObjectsKind.selection)

instance (s : State) : Decidable (viewConsistent s) := by
  unfold viewConsistent; infer_instance

/-- A healthy node `{id: i, degree: 1}` as the service sends it. -/
def exampleNode (i : Nat) : Node :=
  { id := i, degree := 1, infected := false, x := none, y := none }

/-- A link `{source: a, target: b}` holding raw ids. -/
def rawLink (a b : Nat) : Link := { source := Endpoint.id a, target := Endpoint.id b }

/-- The star with centre 0 and leaves 1, 2, 3, 4. -/
def starGraph : Graph :=
  { nodes := [exampleNode 0, exampleNode 1, exampleNode 2, exampleNode 3, exampleNode 4],
    links := [rawLink 0 1, rawLink 0 2, rawLink 0 3, rawLink 0 4] }

/-- Two nodes joined by two links. -/
def parallelGraph : Graph :=
  { nodes := [exampleNode 0, exampleNode 1], links := [rawLink 0 1, rawLink 0 1] }

/-- One node with a link to itself. -/
def loopGraph : Graph :=
  { nodes := [exampleNode 0], links := [rawLink 0 0] }

/-- The scene shows the graph `g`: `graphData` is `g`, and the spheres and lines
are the objects `renderGraph3D` creates for `g` (same `userData`, same identity),
whatever their current material and scale. -/
def showsGraph (s : State) (g : Graph) : Prop :=
  s.graphData = some g ∧
  s.nodeObjects.map (fun o => o.userData) = (newNodeObjs 0 g.nodes).map (fun o => o.userData) ∧
  s.edgeObjects.map (fun e => (e.ref, e.userData))
    = (newEdgeObjs 0 g.links).map (fun e => (e.ref, e.userData))

instance (s : State) (g : Graph) : Decidable (showsGraph s g) := by
  unfold showsGraph; infer_instance

/-- The visual attributes of a sphere other than the `transparent` flag: colour,
emissive colour, emissive intensity, shininess, opacity and scale. -/
def NodeObj.appearance (o : NodeObj) : Nat × Nat × Centi × Nat × Centi × Vector3 :=
  (o.material.color, o.material.emissive, o.material.emissiveIntensity,
   o.material.shininess, o.material.opacity, o.scale)

/-- Two spheres stand for the same node and look the same, the `transparent`
flag and the specular colour apart. -/
def sameLook (o1 o2 : NodeObj) : Prop :=
  o1.userData = o2.userData ∧ o1.appearance = o2.appearance

/-- An event of a session: a call of `toggleAutoPlay` (button or key `p`), or
the run of one of the asynchronous functions with the outcome of its request.
`resetBegin` and `resetComplete` are the two halves of `resetSimulation`, for
runs in which other events arrive while its request is in flight. -/
inductive Call where
  | toggleAutoPlay
  | startSimulation (r : Fetch)
  | simulationStep (r : Fetch)
  | infectNode (nodeId : NodeId) (r : Fetch)
  | resetSimulation (r : Fetch)
  | resetBegin
  | resetComplete (r : Fetch)
deriving DecidableEq, Repr

/-- The effect of one event on the state. -/
def runCall (s : State) (c : Call) : State :=
  match c with
  | Call.toggleAutoPlay => toggleAutoPlay s
  | Call.startSimulation r => startSimulation s r
  | Call.simulationStep r => simulationStep s r
  | Call.infectNode nodeId r => infectNode s nodeId r
  | Call.resetSimulation r => resetSimulation s r
  | Call.resetBegin => resetSimulation_begin s
  | Call.resetComplete r => resetSimulation_complete s r

/-- The state after a sequence of events. -/
def runCalls (s : State) (calls : List Call) : State :=
  calls.foldl runCall s

/-- A successful response carrying the given snapshot and statistics. -/
def successResponse (snap : InfectionState) (stats : Statistics) (over : Bool) : ApiResponse :=
  { status := Status.success, infection_state := snap, statistics := stats,
    step_result := { is_outbreak_over := over } }

/-- A response whose status is not `'success'`. -/
def errorResponse : ApiResponse :=
  { status := Status.error, infection_state := [],
    statistics := { time_step := 0, total_nodes := 0, infected_count := 0, healthy_count := 0 },
    step_result := { is_outbreak_over := false } }

/-- The star, loaded in the 3D view with a chart, after a successful start that
infected node 2 (auto-play is then running). -/
def startedStar : State :=
  startSimulation
    { loadGraph3D State.init starGraph with
      infectionChart := true
      chartData := { timeSteps := [0], infected := [0], healthy := [5] } }
    (Fetch.response (successResponse [(2, { infected := true })]
      { time_step := 0, total_nodes := 5, infected_count := 1, healthy_count := 4 } false))

/-- The same session after one successful step at time step 1 that infected
node 1 (the outbreak is not over). -/
def steppedStar : State :=
  simulationStep startedStar
    (Fetch.response (successResponse [(1, { infected := true })]
      { time_step := 1, total_nodes := 5, infected_count := 2, healthy_count := 3 } false))

/-- The auto-play flag, the stored handle and the timers of the page agree: an
interval is live exactly when `isAutoPlaying` is true, it is then the only one
and `autoPlayInterval` is its handle, and no `setInterval` call so far was made
while another interval was live. -/
def timersConsistent (s : State) : Prop :=
  (s.isAutoPlaying = true → ∃ h, s.autoPlayInterval = some h ∧ s.timers.active = [h]) ∧
  (s.isAutoPlaying = false → s.timers.active = []) ∧
  (∀ h k, TimerCall.setInterval h k ∈ s.timers.calls → k = 0)

/-! ## Pointer click in the 3D view -/

/-- The node object `hoveredNode` refers to, read through the reference (so
that `infected` is the flag the object has now); `none` when `hoveredNode` is
`null`.  The object is an element of `graphData.nodes` only as long as
`graphData` names the graph the hovered sphere was created for. -/
def State.hovered (s : State) : Option Node :=
  match s.hoveredNode with
  | none => none
  | some (NodeRef.stale nd) => some nd
  | some (NodeRef.current i) =>
    match s.graphData with
    | some g => g.nodes.get? i
    | none => none

/-- The synchronous part of `onMouseClick(event)` (lines 623-628): the argument
of the call `infectNode(hoveredNode.id)` when the call is made, `none` when the
handler returns without making it.  No global is written. -/
def onMouseClick_request (s : State) : Option NodeId :=
  match s.hovered with
  | none => none
  | some hoveredNode =>
    if s.currentVizType ≠ VizType.threeD ∨ hoveredNode.infected = true ∨
        s.isAutoPlaying = true then none
    else some hoveredNode.id

/-- The handler `onMouseClick(event)` (lines 623-628) run to the end of the
`infectNode` continuation it may start, for a given outcome of the request. -/
def onMouseClick (s : State) (r : Fetch) : State :=
  match onMouseClick_request s with
  | some nodeId => infectNode s nodeId r
  | none => s

/-- The started star with the pointer over the sphere of node 3 (line 609) and
auto-play stopped by the user. -/
def hoveringStar : State :=
  { toggleAutoPlay startedStar with hoveredNode := some (NodeRef.current 3) }

/-- The star loaded in the 3D view, node 3 infected by a click on its sphere
(`infectNode(3)` answered with success), the pointer still over that sphere. -/
def hoveringInfected : State :=
  infectNode { loadGraph3D State.init starGraph with hoveredNode := some (NodeRef.current 3) } 3
    (Fetch.response (successResponse [(3, { infected := true })]
      { time_step := 0, total_nodes := 5, infected_count := 1, healthy_count := 4 } false))

/-- The same page after the network has been generated again in the 3D view
(the service sends the star with every node healthy) without the pointer having
moved: `hoveredNode` still refers to the infected node object of the graph
loaded before. -/
def hoveringReloaded : State := loadGraph3D hoveringInfected starGraph

/-! ## 3D layout (`calculatePositions3D`)

Numbers of the layout are elements of a field `K` (exact arithmetic; the reals
for the claims, the rationals for evaluation).  `Math.sqrt`, `Math.sin` and
`Math.cos` are parameters of the functions that call them, and the angles drawn
with `Math.random()` are an input. -/

section Layout

variable {K : Type} [Field K] [DecidableEq K]

/-- An entry of the object `positions` (lines 533-540). -/
@[ext]
structure Position (K : Type) where
  x : K
  y : K
  z : K
  vx : K
  vy : K
  vz : K

/-- The object `positions`: the entry stored under a node id, `none` when the
object has no such key. -/
abbrev Positions (K : Type) := NodeId → Option (Position K)

/-- The lookup `positions[endpoint]` for a normalised endpoint; an object used
as key names no entry. -/
def Positions.at (positions : Positions K) (endpoint : Endpoint) : Option (Position K) :=
  match endpoint with
  | Endpoint.id n => positions n
  | Endpoint.node _ => none

/-- An in-place change of the entry stored under `endpoint`. -/
def Positions.modify (positions : Positions K) (endpoint : Endpoint)
    (f : Position K → Position K) : Positions K :=
  match endpoint with
  | Endpoint.id n => fun k => if k = n then (positions k).map f else positions k
  | Endpoint.node _ => positions

/-- The entry built for a node from its two sampled angles (lines 529-540). -/
def seedPosition (sin cos : K → K) (theta phi : K) : Position K :=
  let radius : K := 120
  { x := radius * sin phi * cos theta
    y := radius * sin phi * sin theta
    z := radius * cos phi
    vx := 0, vy := 0, vz := 0 }

/-- The first loop (lines 530-541); `angles i` are the `theta` and `phi` drawn
for the `i`-th node. -/
def seedPositions (sin cos : K → K) (angles : Nat → K × K) :
    Nat → List Node → Positions K → Positions K
  | _, [], positions => positions
  | i, node :: rest, positions =>
    seedPositions sin cos angles (i + 1) rest
      (fun k => if k = node.id then some (seedPosition sin cos (angles i).1 (angles i).2)
        else positions k)

/-- The loop "Reset forces" (lines 547-552). -/
def resetForces (nodes : List Node) (positions : Positions K) : Positions K :=
  nodes.foldl
    (fun acc node => acc.modify (Endpoint.id node.id) (fun pos => { pos with vx := 0, vy := 0, vz := 0 }))
    positions

/-- The constant `dist` of line 564: `Math.sqrt(dx * dx + dy * dy + dz * dz) || 1`. -/
def springDist (sqrt : K → K) (dx dy dz : K) : K :=
  if sqrt (dx * dx + dy * dy + dz * dz) = 0 then 1 else sqrt (dx * dx + dy * dy + dz * dz)

/-- The constants `fx`, `fy`, `fz` of lines 566-569 for a link from `source` to
`target`. -/
def springForce (sqrt : K → K) (source target : Position K) : K × K × K :=
  let dx := target.x - source.x
  let dy := target.y - source.y
  let dz := target.z - source.z
  let dist := springDist sqrt dx dy dz
  let force := dist * 0.015
  ((dx / dist) * force, (dy / dist) * force, (dz / dist) * force)

/-- The body of the loop "Spring forces along edges" (lines 555-577); `none`
when an endpoint has no entry and the property read throws. -/
def springLink (sqrt : K → K) (positions : Positions K) (link : Link) : Option (Positions K) :=
  let sid := endpointId link.source
  let tid := endpointId link.target
  match positions.at sid, positions.at tid with
  | some source, some target =>
    let f := springForce sqrt source target
    let pulled := positions.modify sid
      (fun pos => { pos with vx := pos.vx + f.1, vy := pos.vy + f.2.1, vz := pos.vz + f.2.2 })
    some (pulled.modify tid
      (fun pos => { pos with vx := pos.vx - f.1, vy := pos.vy - f.2.1, vz := pos.vz - f.2.2 }))
  | _, _ => none

/-- The loop "Spring forces along edges" (lines 555-577). -/
def springForces (sqrt : K → K) (links : List Link) (positions : Positions K) :
    Option (Positions K) :=
  links.foldlM (springLink sqrt) positions

/-- The constant `iterations` of line 544. -/
def iterations : Nat := 12

/-- The constant `damping` of line 580 in iteration `iter`. -/
def damping (iter : Nat) : K :=
  0.4 * (1 - (iter : K) / (iterations : K))

/-- The loop "Apply forces with damping" (lines 581-586). -/
def applyForces (nodes : List Node) (damp : K) (positions : Positions K) : Positions K :=
  nodes.foldl
    (fun acc node => acc.modify (Endpoint.id node.id)
      (fun pos => { pos with
        x := pos.x + pos.vx * damp, y := pos.y + pos.vy * damp, z := pos.z + pos.vz * damp }))
    positions

/-- The body of the loop over `iter` (lines 546-586). -/
def relaxStep (sqrt : K → K) (data : Graph) (positions : Positions K) (iter : Nat) :
    Option (Positions K) :=
  match springForces sqrt data.links (resetForces data.nodes positions) with
  | some pulled => some (applyForces data.nodes (damping iter) pulled)
  | none => none

/-- The function `calculatePositions3D(data)` (lines 523-590). -/
def calculatePositions3D (sin cos sqrt : K → K) (angles : Nat → K × K) (data : Graph) :
    Option (Positions K) :=
  (List.range iterations).foldlM (relaxStep sqrt data)
    (seedPositions sin cos angles 0 data.nodes (fun _ => none))

/-- The pull of one link on node `k` in the coordinate `c`: (other endpoint −
itself), once for each end of the link that is `k`; positions are read from
`positions`. -/
def pullOfLink (c : Position K → K) (positions : Positions K) (k : NodeId) (link : Link) : K :=
  match (positions.at (endpointId link.source)).map c,
      (positions.at (endpointId link.target)).map c with
  | some cs, some ct =>
    (if endpointId link.source = Endpoint.id k then ct - cs else 0) +
    (if endpointId link.target = Endpoint.id k then cs - ct else 0)
  | _, _ => 0

/-- The sum over the links of the pull on node `k` in the coordinate `c`. -/
def pull (c : Position K → K) (positions : Positions K) (links : List Link) (k : NodeId) : K :=
  (links.map (pullOfLink c positions k)).sum

/-- Every link endpoint has an entry in `positions`. -/
def linksPlaced (positions : Positions K) (links : List Link) : Prop :=
  ∀ link ∈ links, (positions.at (endpointId link.source)).isSome = true ∧
    (positions.at (endpointId link.target)).isSome = true

end Layout

instance {K : Type} (positions : Positions K) (links : List Link) :
    Decidable (linksPlaced positions links) := by
  unfold linksPlaced; infer_instance

/-- Rational positions for the nodes of the star: node `k` sits at `(k, 0, 0)`
with a stale accumulator. -/
def linePositions : Positions Rat :=
  fun k => if k < 5 then some ⟨k, 0, 0, 7, 7, 7⟩ else none

/-- The three series of `chartData` have the same length, at most 50, and the
time steps are strictly increasing. -/
def chartInvariant (c : ChartData) : Prop :=
  c.infected.length = c.timeSteps.length ∧ c.healthy.length = c.timeSteps.length ∧
  c.timeSteps.length ≤ 50 ∧ c.timeSteps.Pairwise (fun a b => a < b)

instance (c : ChartData) : Decidable (chartInvariant c) := by
  unfold chartInvariant; infer_instance

/-- The statistics object `{time_step, total_nodes: 5, infected_count,
healthy_count: 5 - infected_count}`. -/
def starStats (timeStep infected : Nat) : Statistics :=
  { time_step := timeStep, total_nodes := 5, infected_count := infected,
    healthy_count := 5 - infected }

/-- A link `{source, target}` holding the node objects themselves, as the 2D
force simulation leaves it. -/
def embeddedLink (source target : Node) : Link :=
  { source := Endpoint.node source, target := Endpoint.node target }

/-- The star with its links holding node objects. -/
def embeddedStar : Graph :=
  { nodes := starGraph.nodes,
    links := [embeddedLink (exampleNode 0) (exampleNode 1),
      embeddedLink (exampleNode 0) (exampleNode 2),
      embeddedLink (exampleNode 0) (exampleNode 3),
      embeddedLink (exampleNode 0) (exampleNode 4)] }

/-! ## 2D highlighting (`highlightNeighbors2D`) -/

/-- The property read `endpoint.id`: the id of a node object; `none`
(`undefined`) for a raw id, a number having no property `id`. -/
def Endpoint.dotId : Endpoint → Option NodeId
  | Endpoint.id _ => none
  | Endpoint.node nd => some nd.id

/-- The locals `neighborIds`, `linkedEdges` and `neighborIdsList` of
`highlightNeighbors2D` (lines 487-489).  A value of the first and the third is
what `link.source.id` or `link.target.id` evaluated to; a link object of the
second is held by its position in `graphData.links`. -/
structure Highlight2D where
  neighborIds : List (Option NodeId)
  linkedEdges : List Nat
  neighborIdsList : List (Option NodeId)
deriving DecidableEq, Repr

/-- The value added for a link (lines 493-501): `link.target.id` when the source
is the selected node, else `link.source.id` when the target is, else nothing. -/
def neighborOf2D (selectedId : NodeId) (link : Link) : Option (Option NodeId) :=
  if link.source.dotId = some selectedId then some link.target.dotId
  else if link.target.dotId = some selectedId then some link.source.dotId
  else none

/-- The loop over `graphData.links` (lines 492-502); `i` is the position of the
first link of the list in `graphData.links`. -/
def scanLinks2D (selectedId : NodeId) : Nat → List Link → Highlight2D → Highlight2D
  | _, [], acc => acc
  | i, link :: rest, acc =>
    scanLinks2D selectedId (i + 1) rest
      (match neighborOf2D selectedId link with
        | some neighborId =>
          { neighborIds := setAdd acc.neighborIds neighborId
            neighborIdsList := acc.neighborIdsList ++ [neighborId]
            linkedEdges := setAdd acc.linkedEdges i }
        | none => acc)

/-- The sets `highlightNeighbors2D(selectedNode, true)` derives (lines 487-502). -/
def highlightNeighbors2D (graphData : Graph) (selectedNode : Node) : Highlight2D :=
  scanLinks2D selectedNode.id 0 graphData.links
    { neighborIds := [some selectedNode.id], linkedEdges := [], neighborIdsList := [] }

/-- The class `dimmed` of the circle of the node with id `d` (line 512). -/
def dimmedNode2D (h : Highlight2D) (d : NodeId) : Prop := some d ∉ h.neighborIds

/-- The class `dimmed` of the line of the `i`-th link (line 513). -/
def dimmedEdge2D (h : Highlight2D) (i : Nat) : Prop := i ∉ h.linkedEdges

/-- The condition under which `highlightNeighbors3D` fades the sphere of the
node with id `d` (line 697). -/
def dimmedNode3D (nodeId : NodeId) (neighbors : List Endpoint) (d : NodeId) : Prop :=
  d ≠ nodeId ∧ Endpoint.id d ∉ neighbors

/-- The condition under which `highlightNeighbors3D` fades the line object with
identity `i` (line 703). -/
def dimmedEdge3D (edgesToHighlight : List Nat) (i : Nat) : Prop := i ∉ edgesToHighlight

/-- The number a normalised endpoint value is, if it is one. -/
def Endpoint.asId : Endpoint → Option NodeId
  | Endpoint.id n => some n
  | Endpoint.node _ => none

/-- The 2D link list `links2` is the 3D link list `links3` with every raw id
replaced by a node object carrying that id. -/
def embedsLinks (links2 links3 : List Link) : Prop :=
  List.Forall₂
    (fun l2 l3 => ∃ a b : Node, l2 = embeddedLink a b ∧ l3 = rawLink a.id b.id)
    links2 links3

/-- The positions, counted from `k`, of the links incident to the node. -/
def incidentIndices (nodeId : NodeId) : Nat → List Link → List Nat
  | _, [] => []
  | k, link :: rest =>
    (if incident nodeId link then [k] else []) ++ incidentIndices nodeId (k + 1) rest

/-- The graph of two parallel links with its links holding node objects. -/
def embeddedParallel : Graph :=
  { nodes := parallelGraph.nodes,
    links := [embeddedLink (exampleNode 0) (exampleNode 1),
      embeddedLink (exampleNode 0) (exampleNode 1)] }

/-! # Theorems -/

/-! ## Neighbour sets -/

theorem endpointId_of_hasPosition {g : Graph} {e : Endpoint} (h : hasPosition g e = true) :
    endpointId e = e ∧ ∃ n, e = Endpoint.id n ∧ n ∈ g.nodes.map (fun nd => nd.id) := by
  cases e with
  | id n =>
    refine ⟨rfl, n, rfl, ?_⟩
    simp only [hasPosition, List.any_eq_true, beq_iff_eq] at h
    obtain ⟨nd, hnd, hid⟩ := h
    exact List.mem_map.mpr ⟨nd, hnd, hid⟩
  | node nd => simp [hasPosition] at h

theorem scanLinks_fold_neighbors (nodeId : NodeId) (eo : List EdgeObj) (links : List Link) (acc : Scan) :
    (links.foldl (scanLink nodeId eo) acc).neighbors
      = (links.filterMap (neighborOf nodeId)).foldl setAdd acc.neighbors := by
  induction links generalizing acc with
  | nil => rfl
  | cons l rest ih =>
    rw [List.foldl_cons, ih]
    cases h : neighborOf nodeId l with
    | none => simp [scanLink, h, List.filterMap_cons]
    | some v => simp [scanLink, h, List.filterMap_cons]

theorem foldl_setAdd_of_nodup {α : Type} [DecidableEq α] (acc l : List α) (h : (acc ++ l).Nodup) :
    l.foldl setAdd acc = acc ++ l := by
  induction l generalizing acc with
  | nil => simp
  | cons a rest ih =>
    have ha : a ∉ acc := by
      intro hmem
      have := List.nodup_append.mp h
      exact this.2.2 hmem (List.mem_cons_self a rest) 
    rw [List.foldl_cons]
    have : setAdd acc a = acc ++ [a] := by simp [setAdd, ha]
    rw [this, ih]
    · simp
    · simpa using h

theorem neighborOf_raw {nodeId : NodeId} {l : Link} {v : Endpoint}
    (hs : endpointId l.source = l.source) (ht : endpointId l.target = l.target)
    (h : neighborOf nodeId l = some v) :
    (l.source = Endpoint.id nodeId ∧ l.target = v) ∨ (l.target = Endpoint.id nodeId ∧ l.source = v) := by
  unfold neighborOf at h
  simp only [hs, ht] at h
  split_ifs at h with h1 h2
  · left; exact ⟨h1, by simpa using h⟩
  · right; exact ⟨h2, by simpa using h⟩

theorem neighborOf_isSome_iff {nodeId : NodeId} {l : Link}
    (hs : endpointId l.source = l.source) (ht : endpointId l.target = l.target) :
    (neighborOf nodeId l).isSome = true ↔ incident nodeId l := by
  unfold neighborOf incident
  simp only [hs, ht]
  split_ifs with h1 h2 <;> simp [h1, *]

theorem neighborIds_nodup {g : Graph} (hraw : rawIdLinks g) (hpar : noParallelLinks g)
    (nodeId : NodeId) : (g.links.filterMap (neighborOf nodeId)).Nodup := by
  unfold noParallelLinks at hpar
  have hpar' : g.links.Pairwise (fun l l' => (l ∈ g.links ∧ l' ∈ g.links) ∧ ¬ sameEnds l l') := by
    rw [List.pairwise_and_iff]
    exact ⟨List.pairwise_of_forall_mem_list (fun a ha b hb => ⟨ha, hb⟩), hpar⟩ 
  refine List.Pairwise.filterMap (neighborOf nodeId) ?_ hpar'
  intro l l' hll v hv v' hv' hvv
  obtain ⟨⟨hl, hl'⟩, hne⟩ := hll
  have e1 := endpointId_of_hasPosition (hraw l hl).1
  have e2 := endpointId_of_hasPosition (hraw l hl).2
  have e3 := endpointId_of_hasPosition (hraw l' hl').1
  have e4 := endpointId_of_hasPosition (hraw l' hl').2
  have c1 := neighborOf_raw e1.1 e2.1 (Option.mem_def.mp hv)
  have c2 := neighborOf_raw e3.1 e4.1 (Option.mem_def.mp hv')
  apply hne
  unfold sameEnds
  subst hvv
  rcases c1 with ⟨a, b⟩ | ⟨a, b⟩ <;> rcases c2 with ⟨c, d⟩ | ⟨c, d⟩
  · left; exact ⟨a.trans c.symm, b.trans d.symm⟩
  · right; exact ⟨a.trans c.symm, b.trans d.symm⟩
  · right; exact ⟨b.trans d.symm, a.trans c.symm⟩
  · left; exact ⟨b.trans d.symm, a.trans c.symm⟩

theorem filterMap_length_eq_countP {g : Graph} (hraw : rawIdLinks g) (nodeId : NodeId) :
    (g.links.filterMap (neighborOf nodeId)).length = g.links.countP (fun l => decide (incident nodeId l)) := by
  unfold rawIdLinks at hraw
  generalize g.links = links at hraw
  induction links with
  | nil => rfl
  | cons l rest ih =>
    have hl := hraw l (List.mem_cons_self _ _)
    have e1 := (endpointId_of_hasPosition hl.1).1
    have e2 := (endpointId_of_hasPosition hl.2).1
    have ih' := ih (fun l' hl' => hraw l' (List.mem_cons_of_mem _ hl'))
    have hiff := @neighborOf_isSome_iff nodeId l e1 e2
    rw [List.filterMap_cons, List.countP_cons]
    cases h : neighborOf nodeId l with
    | none =>
      have : ¬ incident nodeId l := by
        intro hi; have := hiff.mpr hi; simp [h] at this
      simp [this, ih']
    | some v =>
      have : incident nodeId l := hiff.mp (by simp [h])
      simp [this, ih']

theorem countP_eq_sum_ite {β : Type} (q : β → Bool) (ys : List β) :
    ys.countP q = (ys.map (fun y => if q y = true then 1 else 0)).sum := by
  induction ys with
  | nil => rfl
  | cons y ys ih =>
    rw [List.countP_cons, List.map_cons, List.sum_cons, ih]
    omega

theorem sum_countP_swap {α β : Type} (p : α → β → Bool) (xs : List α) (ys : List β) :
    (xs.map (fun x => ys.countP (fun y => p x y))).sum
      = (ys.map (fun y => xs.countP (fun x => p x y))).sum := by
  induction xs with
  | nil => simp
  | cons x rest ih =>
    simp only [List.map_cons, List.sum_cons, ih, List.countP_cons]
    rw [List.sum_map_add, countP_eq_sum_ite]
    omega

theorem countP_or_eq {a b : Nat} (hab : a ≠ b) (ids : List Nat) :
    ids.countP (fun i => decide (i = a ∨ i = b)) = ids.count a + ids.count b := by
  induction ids with
  | nil => rfl
  | cons i rest ih =>
    rw [List.countP_cons, List.count_cons, List.count_cons, ih]
    by_cases h1 : i = a
    · have : i ≠ b := fun h => hab (h1.symm.trans h)
      simp [h1, hab]; omega
    · by_cases h2 : i = b
      · simp [h2, Ne.symm hab]; omega
      · simp [h1, h2]

theorem countP_incident_nodes {g : Graph} (hu : uniqueIds g) (hraw : rawIdLinks g)
    (hloop : noSelfLoops g) {l : Link} (hl : l ∈ g.links) :
    g.nodes.countP (fun n => decide (incident n.id l)) = 2 := by
  obtain ⟨_, a, ha, hma⟩ := endpointId_of_hasPosition (hraw l hl).1
  obtain ⟨_, b, hb, hmb⟩ := endpointId_of_hasPosition (hraw l hl).2
  have hab : a ≠ b := by
    intro h; apply hloop l hl; rw [ha, hb, h]
  have h1 : g.nodes.countP (fun n => decide (incident n.id l))
      = (g.nodes.map (fun n => n.id)).countP (fun i => decide (i = a ∨ i = b)) := by
    rw [List.countP_map]
    congr 1
    funext n
    simp only [incident, ha, hb, Function.comp, Endpoint.id.injEq]
    congr 1
    apply propext
    constructor
    · rintro (h | h)
      · left; exact h.symm
      · right; exact h.symm
    · rintro (h | h)
      · left; exact h.symm
      · right; exact h.symm
  rw [h1, countP_or_eq hab, List.count_eq_one_of_mem hu hma, List.count_eq_one_of_mem hu hmb]

theorem highlight_neighbors_eq (s : State) (g : Graph) (hg : s.graphData = some g) (n : Node) :
    ∃ s', highlightNeighbors3D s n true = some s' ∧
      s'.highlightedNeighbors = (g.links.filterMap (neighborOf n.id)).foldl setAdd [] := by
  refine ⟨applyHighlight g n.id (resetHighlight g s), by simp [highlightNeighbors3D, hg], ?_⟩
  simp only [applyHighlight, scanLinks]
  rw [scanLinks_fold_neighbors]

/-- C1 (as amended): in a graph with unique node ids whose links hold raw ids of
nodes of the graph, with no self-loop and no two links joining the same pair,
`highlightNeighbors3D(n, true)` never throws, and the sizes of the sets it
stores in `highlightedNeighbors`, summed over every node `n`, give twice the
number of links. -/
theorem neighborSetSize_sum_simple (s : State) (g : Graph) (hg : s.graphData = some g)
    (hu : uniqueIds g) (hraw : rawIdLinks g) (hloop : noSelfLoops g) (hpar : noParallelLinks g) :
    (∀ n, (highlightNeighbors3D s n true).isSome = true) ∧
    (g.nodes.map (neighborSetSize s)).sum = 2 * g.links.length := by
  constructor
  · intro n
    obtain ⟨s', h, _⟩ := highlight_neighbors_eq s g hg n
    simp [h]
  · have hsize : ∀ n, neighborSetSize s n = g.links.countP (fun l => decide (incident n.id l)) := by
      intro n
      obtain ⟨s', h, hnb⟩ := highlight_neighbors_eq s g hg n
      unfold neighborSetSize
      rw [h]
      simp only [hnb]
      rw [foldl_setAdd_of_nodup [] _ (by simpa using neighborIds_nodup hraw hpar n.id)]
      simpa using filterMap_length_eq_countP hraw n.id
    have : g.nodes.map (neighborSetSize s)
        = g.nodes.map (fun n => g.links.countP (fun l => decide (incident n.id l))) :=
      List.map_congr_left (fun n _ => hsize n)
    rw [this, sum_countP_swap (fun (n : Node) (l : Link) => decide (incident n.id l))]
    have hconst : g.links.map (fun l => g.nodes.countP (fun n => decide (incident n.id l)))
        = g.links.map (fun _ => 2) :=
      List.map_congr_left (fun l hl => countP_incident_nodes hu hraw hloop hl)
    rw [hconst]
    simp [Nat.mul_comm]

/-- Witness for C1: the star has 4 links and the neighbour-set sizes sum to 8. -/
theorem neighborSetSize_sum_simple_star :
    (starGraph.nodes.map (neighborSetSize (loadGraph3D State.init starGraph))).sum = 8 :=
  (neighborSetSize_sum_simple (loadGraph3D State.init starGraph) starGraph
    (by decide) (by decide) (by decide) (by decide) (by decide)).2

/-- Counterexample to C1 as stated: with two links joining nodes 0 and 1 the
neighbour sets `{1}` and `{0}` have total size 2, not 4; with a self-loop on
node 0 the neighbour set `{0}` has size 1, not 2. -/
theorem neighborSetSize_sum_multigraph :
    (uniqueIds parallelGraph ∧ rawIdLinks parallelGraph ∧
      (parallelGraph.nodes.map (neighborSetSize (loadGraph3D State.init parallelGraph))).sum
        ≠ 2 * parallelGraph.links.length) ∧
    (uniqueIds loopGraph ∧ rawIdLinks loopGraph ∧
      (loopGraph.nodes.map (neighborSetSize (loadGraph3D State.init loopGraph))).sum
        ≠ 2 * loopGraph.links.length) := by
  decide

/-! ## Focus on a node of a simple graph -/

theorem mem_foldl_setAdd {α : Type} [DecidableEq α] (l acc : List α) (v : α) :
    v ∈ l.foldl setAdd acc ↔ v ∈ acc ∨ v ∈ l := by
  induction l generalizing acc with
  | nil => simp
  | cons a rest ih =>
    rw [List.foldl_cons, ih]
    unfold setAdd
    split_ifs with h
    · constructor
      · rintro (h1 | h1)
        · exact Or.inl h1
        · exact Or.inr (List.mem_cons_of_mem _ h1)
      · rintro (h1 | h1)
        · exact Or.inl h1
        · rcases List.mem_cons.mp h1 with h2 | h2
          · exact Or.inl (h2 ▸ h)
          · exact Or.inr h2
    · simp only [List.mem_append, List.mem_singleton, List.mem_cons]
      tauto

theorem nodup_foldl_setAdd {α : Type} [DecidableEq α] (l acc : List α) (h : acc.Nodup) :
    (l.foldl setAdd acc).Nodup := by
  induction l generalizing acc with
  | nil => simpa
  | cons a rest ih =>
    rw [List.foldl_cons]
    apply ih
    unfold setAdd
    split_ifs with h1
    · exact h
    · rw [List.nodup_append]
      refine ⟨h, List.nodup_singleton a, ?_⟩
      intro x hx hx'
      rw [List.mem_singleton] at hx'
      exact h1 (hx' ▸ hx)

theorem mem_neighborIds_iff {g : Graph} (hraw : rawIdLinks g) (nodeId : NodeId) (v : Endpoint) :
    v ∈ g.links.filterMap (neighborOf nodeId) ↔
      ∃ l ∈ g.links, (l.source = Endpoint.id nodeId ∧ l.target = v) ∨
        (l.target = Endpoint.id nodeId ∧ l.source = v) := by
  rw [List.mem_filterMap]
  constructor
  · rintro ⟨l, hl, h⟩
    exact ⟨l, hl, neighborOf_raw (endpointId_of_hasPosition (hraw l hl).1).1
      (endpointId_of_hasPosition (hraw l hl).2).1 h⟩
  · rintro ⟨l, hl, h⟩
    refine ⟨l, hl, ?_⟩
    have e1 := (endpointId_of_hasPosition (hraw l hl).1).1
    have e2 := (endpointId_of_hasPosition (hraw l hl).2).1
    unfold neighborOf
    simp only [e1, e2]
    rcases h with ⟨h1, h2⟩ | ⟨h1, h2⟩
    · simp [h1, h2]
    · by_cases hs : l.source = Endpoint.id nodeId
      · simp [hs, h1, ← h2]
      · rw [if_neg hs, if_pos h1, h2]

theorem scanLinks_fold_edges (nodeId : NodeId) (eo : List EdgeObj) (links : List Link) (acc : Scan) :
    (links.foldl (scanLink nodeId eo) acc).edgesToHighlight
      = (links.filterMap (fun l =>
          if (neighborOf nodeId l).isSome then
            (eo.find? (edgeMatches (endpointId l.source) (endpointId l.target))).map (fun e => e.ref)
          else none)).foldl setAdd acc.edgesToHighlight := by
  induction links generalizing acc with
  | nil => rfl
  | cons l rest ih =>
    rw [List.foldl_cons, ih, List.filterMap_cons]
    cases h : neighborOf nodeId l with
    | none => simp [scanLink, h]
    | some v =>
      cases h2 : eo.find? (edgeMatches (endpointId l.source) (endpointId l.target)) with
      | none => simp [scanLink, h, h2]
      | some e => simp [scanLink, h, h2]

theorem find_ref_congr (a b : Endpoint) {E E' : List EdgeObj}
    (h : E.map (fun e => (e.ref, e.userData)) = E'.map (fun e => (e.ref, e.userData))) :
    (E.find? (edgeMatches a b)).map (fun e => e.ref)
      = (E'.find? (edgeMatches a b)).map (fun e => e.ref) := by
  induction E generalizing E' with
  | nil =>
    cases E' with
    | nil => rfl
    | cons e' r' => simp at h
  | cons e r ih =>
    cases E' with
    | nil => simp at h
    | cons e' r' =>
      simp only [List.map_cons, List.cons.injEq, Prod.mk.injEq] at h
      obtain ⟨⟨hr, hu⟩, ht⟩ := h
      have hm : edgeMatches a b e = edgeMatches a b e' := by simp [edgeMatches, hu]
      rw [List.find?_cons, List.find?_cons, hm]
      cases edgeMatches a b e' with
      | true => simp [hr]
      | false => exact ih ht

theorem sameEnds_of_edgeMatches {l0 l : Link} (i : Nat)
    (h0s : endpointId l0.source = l0.source) (h0t : endpointId l0.target = l0.target)
    (hs : endpointId l.source = l.source) (ht : endpointId l.target = l.target)
    (h : edgeMatches (endpointId l.source) (endpointId l.target) (newEdgeObj i l0) = true) :
    sameEnds l0 l := by
  simp only [edgeMatches, newEdgeObj, h0s, h0t, hs, ht, Bool.or_eq_true, Bool.and_eq_true,
    beq_iff_eq] at h
  exact h

theorem find_newEdgeObjs {links : List Link} {l : Link} (hl : l ∈ links)
    (hraw : ∀ l0 ∈ links, endpointId l0.source = l0.source ∧ endpointId l0.target = l0.target)
    (huniq : ∀ l0 ∈ links, sameEnds l0 l → l0 = l) (k : Nat) :
    (newEdgeObjs k links).find? (edgeMatches (endpointId l.source) (endpointId l.target))
      = some (newEdgeObj (k + links.indexOf l) l) := by
  induction links generalizing k with
  | nil => cases hl
  | cons l0 rest ih =>
    rw [newEdgeObjs, List.find?_cons]
    by_cases h : l0 = l
    · subst h
      have : edgeMatches (endpointId l0.source) (endpointId l0.target) (newEdgeObj k l0) = true := by
        simp [edgeMatches, newEdgeObj]
      rw [this]
      simp
    · have hne : edgeMatches (endpointId l.source) (endpointId l.target) (newEdgeObj k l0) = false := by
        rw [Bool.eq_false_iff]
        intro hm
        have hl0 := hraw l0 (List.mem_cons_self _ _)
        have hl' := hraw l hl
        exact h (huniq l0 (List.mem_cons_self _ _)
          (sameEnds_of_edgeMatches k hl0.1 hl0.2 hl'.1 hl'.2 hm))
      rw [hne]
      have hl' : l ∈ rest := by
        rcases List.mem_cons.mp hl with h1 | h1
        · exact absurd h1.symm h
        · exact h1
      rw [ih hl' (fun l1 h1 => hraw l1 (List.mem_cons_of_mem _ h1))
        (fun l1 h1 => huniq l1 (List.mem_cons_of_mem _ h1)) (k + 1)]
      rw [List.indexOf_cons_ne _ h]
      have : k + 1 + List.indexOf l rest = k + (List.indexOf l rest).succ := by omega
      rw [this]

theorem sameEnds_symm {l l' : Link} (h : sameEnds l l') : sameEnds l' l := by
  rcases h with ⟨a, b⟩ | ⟨a, b⟩
  · exact Or.inl ⟨a.symm, b.symm⟩
  · exact Or.inr ⟨b.symm, a.symm⟩

theorem eq_of_sameEnds {g : Graph} (hpar : noParallelLinks g) {l0 l : Link}
    (h0 : l0 ∈ g.links) (hl : l ∈ g.links) (h : sameEnds l0 l) : l0 = l := by
  by_contra hne
  have hsym : Symmetric (fun l l' : Link => ¬ sameEnds l l') :=
    fun a b hab hba => hab (sameEnds_symm hba)
  exact List.Pairwise.forall hsym hpar h0 hl hne h

theorem links_nodup {g : Graph} (hpar : noParallelLinks g) : g.links.Nodup := by
  unfold noParallelLinks at hpar
  refine List.Pairwise.imp ?_ hpar
  intro a b h hab
  exact h (hab ▸ Or.inl ⟨rfl, rfl⟩)

theorem scan_edges_eq {g : Graph} (hraw : rawIdLinks g) (hpar : noParallelLinks g)
    (nodeId : NodeId) {E : List EdgeObj}
    (hE : E.map (fun e => (e.ref, e.userData))
      = (newEdgeObjs 0 g.links).map (fun e => (e.ref, e.userData))) :
    (scanLinks nodeId E g.links).edgesToHighlight
      = (g.links.filter (fun l => decide (incident nodeId l))).map (fun l => g.links.indexOf l) := by
  have hrawId : ∀ l0 ∈ g.links,
      endpointId l0.source = l0.source ∧ endpointId l0.target = l0.target :=
    fun l0 h0 => ⟨(endpointId_of_hasPosition (hraw l0 h0).1).1,
      (endpointId_of_hasPosition (hraw l0 h0).2).1⟩
  unfold scanLinks
  rw [scanLinks_fold_edges]
  have hfm : g.links.filterMap (fun l =>
        if (neighborOf nodeId l).isSome then
          (E.find? (edgeMatches (endpointId l.source) (endpointId l.target))).map (fun e => e.ref)
        else none)
      = g.links.filterMap (fun l =>
        if incident nodeId l then some (g.links.indexOf l) else none) := by
    apply List.filterMap_congr
    intro l hl
    have hiff := @neighborOf_isSome_iff nodeId l (hrawId l hl).1 (hrawId l hl).2
    by_cases hi : incident nodeId l
    · rw [if_pos (hiff.mpr hi), if_pos hi, find_ref_congr _ _ hE,
        find_newEdgeObjs hl hrawId (fun l0 h0 hs => eq_of_sameEnds hpar h0 hl hs) 0]
      simp [newEdgeObj]
    · have : ¬ (neighborOf nodeId l).isSome = true := fun h => hi (hiff.mp h)
      rw [if_neg this, if_neg hi]
  rw [hfm]
  have hfm2 : g.links.filterMap (fun l =>
        if incident nodeId l then some (g.links.indexOf l) else none)
      = (g.links.filter (fun l => decide (incident nodeId l))).map (fun l => g.links.indexOf l) := by
    rw [← List.filterMap_eq_filter, List.map_filterMap]
    apply List.filterMap_congr
    intro l _
    by_cases hi : incident nodeId l <;> simp [hi, Option.guard]
  rw [hfm2]
  apply foldl_setAdd_of_nodup
  simp only [List.nil_append]
  have hnd := (links_nodup hpar).filter (fun l => decide (incident nodeId l))
  refine List.Nodup.map_on ?_ hnd
  intro a ha b hb hab
  exact (List.indexOf_inj (List.mem_of_mem_filter ha) (List.mem_of_mem_filter hb)).mp hab

theorem mem_incident_refs {links : List Link} (hnd : links.Nodup) (nodeId : NodeId) (i : Nat) :
    i ∈ (links.filter (fun l => decide (incident nodeId l))).map (fun l => links.indexOf l) ↔
      ∃ l, links.get? i = some l ∧ incident nodeId l := by
  simp only [List.mem_map, List.mem_filter, decide_eq_true_eq]
  constructor
  · rintro ⟨l, ⟨hl, hi⟩, rfl⟩
    exact ⟨l, by rw [List.get?_eq_getElem?]; exact List.getElem?_indexOf hl, hi⟩ 
  · rintro ⟨l, hget, hi⟩
    rw [List.get?_eq_getElem?] at hget
    obtain ⟨hlt, hgl⟩ := List.getElem?_eq_some.mp hget
    subst hgl
    exact ⟨_, ⟨List.getElem_mem hlt, hi⟩, List.indexOf_getElem hnd i hlt⟩

theorem updateFirst_forall {α : Type} (Q : α → Prop) (p : α → Bool) (f : α → α) (l : List α)
    (hl : ∀ o ∈ l, Q o) (hf : ∀ o, Q o → p o = true → Q (f o)) :
    ∀ o ∈ updateFirst p f l, Q o := by
  induction l with
  | nil => intro o ho; cases ho
  | cons a rest ih =>
    intro o ho
    unfold updateFirst at ho
    split_ifs at ho with hp
    · rcases List.mem_cons.mp ho with h | h
      · exact h ▸ hf a (hl a (List.mem_cons_self _ _)) hp
      · exact hl o (List.mem_cons_of_mem _ h)
    · rcases List.mem_cons.mp ho with h | h
      · exact h ▸ hl a (List.mem_cons_self _ _)
      · exact ih (fun o' ho' => hl o' (List.mem_cons_of_mem _ ho')) o h

theorem updateFirst_map {α β : Type} (proj : α → β) (p : α → Bool) (f : α → α) (l : List α)
    (hf : ∀ o, proj (f o) = proj o) : (updateFirst p f l).map proj = l.map proj := by
  induction l with
  | nil => rfl
  | cons a rest ih =>
    unfold updateFirst
    split_ifs with hp
    · simp [hf]
    · simp [ih]

theorem foldl_highlightNeighbor_forall (Q : NodeObj → Prop) (nbs : List Endpoint)
    (hf : ∀ v ∈ nbs, ∀ o, Q o → Endpoint.id o.userData.nodeId = v → Q (markNeighbor o))
    (l : List NodeObj) (hl : ∀ o ∈ l, Q o) :
    ∀ o ∈ nbs.foldl highlightNeighbor l, Q o := by
  induction nbs generalizing l with
  | nil => simpa using hl
  | cons v rest ih =>
    rw [List.foldl_cons]
    apply ih (fun v' hv' => hf v' (List.mem_cons_of_mem _ hv'))
    unfold highlightNeighbor
    apply updateFirst_forall Q _ _ l hl
    intro o hq hp
    exact hf v (List.mem_cons_self _ _) o hq (by simpa using hp)

theorem foldl_highlightNeighbor_userData (nbs : List Endpoint) (l : List NodeObj) :
    (nbs.foldl highlightNeighbor l).map (fun o => o.userData) = l.map (fun o => o.userData) := by
  induction nbs generalizing l with
  | nil => rfl
  | cons v rest ih =>
    rw [List.foldl_cons, ih]
    exact updateFirst_map (fun o : NodeObj => o.userData) _ markNeighbor _ (fun o => rfl)

theorem applyHighlight_userData (g : Graph) (nodeId : NodeId) (s : State) :
    (applyHighlight g nodeId s).nodeObjects.map (fun o => o.userData)
      = s.nodeObjects.map (fun o => o.userData) := by
  simp only [applyHighlight]
  rw [foldl_highlightNeighbor_userData,
    updateFirst_map (fun o : NodeObj => o.userData) _ markCentral _ (fun o => rfl), List.map_map]
  apply List.map_congr_left
  intro o _
  simp only [Function.comp, fadeNode]
  split_ifs <;> rfl

theorem resetNode_userData (g : Graph) (o : NodeObj) : (resetNode g o).userData = o.userData := by
  unfold resetNode
  split <;> rfl

theorem resetHighlight_userData (g : Graph) (s : State) :
    (resetHighlight g s).nodeObjects.map (fun o => o.userData)
      = s.nodeObjects.map (fun o => o.userData) := by
  simp only [resetHighlight, List.map_map]
  exact List.map_congr_left (fun o _ => resetNode_userData g o)

theorem resetHighlight_edgeKeys (g : Graph) (s : State) :
    (resetHighlight g s).edgeObjects.map (fun e => (e.ref, e.userData))
      = s.edgeObjects.map (fun e => (e.ref, e.userData)) := by
  simp only [resetHighlight, List.map_map]
  exact List.map_congr_left (fun o _ => rfl)

theorem newNodeObjs_nodeId (nodes : List Node) (k : Nat) :
    ∀ u ∈ (newNodeObjs k nodes).map (fun o => o.userData),
      ∃ nd ∈ nodes, nd.id = u.nodeId := by
  induction nodes generalizing k with
  | nil => intro u hu; simp [newNodeObjs] at hu
  | cons nd rest ih =>
    intro u hu
    simp only [newNodeObjs, List.map_cons, List.mem_cons] at hu
    rcases hu with h | h
    · exact ⟨nd, List.mem_cons_self _ _, by rw [h]; rfl⟩
    · obtain ⟨nd', h1, h2⟩ := ih (k + 1) u h
      exact ⟨nd', List.mem_cons_of_mem _ h1, h2⟩

theorem nodeData_found {s : State} {g : Graph} (hs : showsGraph s g) :
    ∀ o ∈ s.nodeObjects, ∃ nd, g.nodes.find? (fun n => n.id == o.userData.nodeId) = some nd := by
  intro o ho
  have hmem : o.userData ∈ s.nodeObjects.map (fun o => o.userData) :=
    List.mem_map.mpr ⟨o, ho, rfl⟩
  rw [hs.2.1] at hmem
  obtain ⟨nd, hnd, hid⟩ := newNodeObjs_nodeId g.nodes 0 _ hmem
  cases hf : g.nodes.find? (fun n => n.id == o.userData.nodeId) with
  | some nd' => exact ⟨nd', rfl⟩
  | none =>
    rw [List.find?_eq_none] at hf
    exact absurd (by simpa using hid) (hf nd hnd)

theorem resetNode_opacity {s : State} {g : Graph} (hs : showsGraph s g) :
    ∀ o ∈ (resetHighlight g s).nodeObjects, o.material.opacity = 100 := by
  intro o ho
  simp only [resetHighlight, List.mem_map] at ho
  obtain ⟨o0, ho0, rfl⟩ := ho
  obtain ⟨nd, hnd⟩ := nodeData_found hs o0 ho0
  simp [resetNode, hnd]

theorem applyHighlight_opacity (g : Graph) (nodeId : NodeId) (s : State)
    (h100 : ∀ o ∈ s.nodeObjects, o.material.opacity = 100) :
    ∀ o ∈ (applyHighlight g nodeId s).nodeObjects,
      (o.material.opacity = 8 ↔
        (o.userData.nodeId ≠ nodeId ∧
          Endpoint.id o.userData.nodeId ∉ (applyHighlight g nodeId s).highlightedNeighbors)) ∧
      (o.material.opacity = 8 ∨ o.material.opacity = 100) := by
  simp only [applyHighlight]
  generalize (scanLinks nodeId s.edgeObjects g.links).neighbors = nbs
  let dim : NodeObj → Prop := fun o =>
    o.userData.nodeId ≠ nodeId ∧ Endpoint.id o.userData.nodeId ∉ nbs
  let Q : NodeObj → Prop := fun o =>
    (dim o → o.material.opacity = 8) ∧ (¬ dim o → o.material.opacity = 100)
  have hQ : ∀ o ∈ nbs.foldl highlightNeighbor
      (updateFirst (fun o => o.userData.nodeId == nodeId) markCentral
        (s.nodeObjects.map (fadeNode nodeId nbs))), Q o := by
    apply foldl_highlightNeighbor_forall Q nbs
    · intro v hv o _ hov
      refine ⟨fun hd => absurd (hov ▸ hv) hd.2, fun _ => rfl⟩
    · apply updateFirst_forall Q
      · intro o ho
        obtain ⟨o0, ho0, rfl⟩ := List.mem_map.mp ho
        have h0 := h100 o0 ho0
        by_cases hd : o0.userData.nodeId ≠ nodeId ∧ Endpoint.id o0.userData.nodeId ∉ nbs
        · have : fadeNode nodeId nbs o0
              = { o0 with material := { o0.material with opacity := 8, transparent := true } } := by
            simp only [fadeNode]; rw [if_pos hd]
          rw [this]
          exact ⟨fun _ => rfl, fun hnd => absurd hd hnd⟩
        · have : fadeNode nodeId nbs o0 = o0 := by
            simp only [fadeNode]; rw [if_neg hd]
          rw [this]
          exact ⟨fun hd' => absurd hd' hd, fun _ => h0⟩
      · intro o _ hp
        have : o.userData.nodeId = nodeId := by simpa using hp
        exact ⟨fun hd => absurd this hd.1, fun _ => rfl⟩
  intro o ho
  have hq := hQ o ho
  by_cases hd : dim o
  · exact ⟨⟨fun _ => hd, fun _ => hq.1 hd⟩, Or.inl (hq.1 hd)⟩
  · refine ⟨⟨fun h8 => ?_, fun hd' => absurd hd' hd⟩, Or.inr (hq.2 hd)⟩
    have h100' := hq.2 hd
    rw [h8] at h100'
    exact absurd h100' (by decide)

/-- C2: in a scene showing a graph whose links hold raw ids of its nodes, no two
joining the same pair, `highlightNeighbors3D(n, true)` stores in
`highlightedNeighbors` exactly the ids joined to `n` by a link (each once), in
`highlightedEdges` exactly the lines of the links incident to `n` (each once,
the line of the `i`-th link having `ref = i`), and leaves opacity `0.08` on
exactly the spheres that are neither `n` nor in that neighbour set (the others
have opacity `1.0`).  On the star, focusing node 0 gives the neighbour set
`{1, 2, 3, 4}` and 4 incident lines. -/
theorem highlight_focus_sets :
    (∀ (s : State) (g : Graph) (n : Node),
      showsGraph s g → rawIdLinks g → noParallelLinks g →
      ∃ s', highlightNeighbors3D s n true = some s' ∧
        s'.highlightedNeighbors.Nodup ∧
        (∀ v, v ∈ s'.highlightedNeighbors ↔
          ∃ l ∈ g.links, (l.source = Endpoint.id n.id ∧ l.target = v) ∨
            (l.target = Endpoint.id n.id ∧ l.source = v)) ∧
        s'.highlightedEdges.Nodup ∧
        (∀ i, i ∈ s'.highlightedEdges ↔ ∃ l, g.links.get? i = some l ∧ incident n.id l) ∧
        s'.highlightedEdges.length = g.links.countP (fun l => decide (incident n.id l)) ∧
        s'.nodeObjects.map (fun o => o.userData) = s.nodeObjects.map (fun o => o.userData) ∧
        (∀ o ∈ s'.nodeObjects,
          (o.material.opacity = 8 ↔
            (o.userData.nodeId ≠ n.id ∧ Endpoint.id o.userData.nodeId ∉ s'.highlightedNeighbors)) ∧
          (o.material.opacity = 8 ∨ o.material.opacity = 100))) ∧
    (∃ s', highlightNeighbors3D (loadGraph3D State.init starGraph) (exampleNode 0) true = some s' ∧
      s'.highlightedNeighbors = [Endpoint.id 1, Endpoint.id 2, Endpoint.id 3, Endpoint.id 4] ∧
      s'.highlightedEdges = [0, 1, 2, 3] ∧ s'.highlightedEdges.length = 4) := by
  constructor
  · intro s g n hs hraw hpar
    refine ⟨applyHighlight g n.id (resetHighlight g s), by simp [highlightNeighbors3D, hs.1], ?_⟩
    have hnb : (applyHighlight g n.id (resetHighlight g s)).highlightedNeighbors
        = (g.links.filterMap (neighborOf n.id)).foldl setAdd [] := by
      simp only [applyHighlight, scanLinks]
      rw [scanLinks_fold_neighbors]
    have hed : (applyHighlight g n.id (resetHighlight g s)).highlightedEdges
        = (g.links.filter (fun l => decide (incident n.id l))).map (fun l => g.links.indexOf l) := by
      simp only [applyHighlight]
      exact scan_edges_eq hraw hpar n.id ((resetHighlight_edgeKeys g s).trans hs.2.2)
    refine ⟨?_, ?_, ?_, ?_, ?_, ?_, ?_⟩
    · rw [hnb]; exact nodup_foldl_setAdd _ _ List.nodup_nil
    · intro v
      rw [hnb, mem_foldl_setAdd, ← mem_neighborIds_iff hraw]
      simp
    · rw [hed, ← hed]
      simp only [applyHighlight, scanLinks]
      rw [scanLinks_fold_edges]
      exact nodup_foldl_setAdd _ _ List.nodup_nil
    · intro i
      rw [hed]
      exact mem_incident_refs (links_nodup hpar) n.id i
    · rw [hed, List.length_map, List.countP_eq_length_filter]
    · rw [applyHighlight_userData, resetHighlight_userData]
    · exact applyHighlight_opacity g n.id _ (resetNode_opacity hs)
  · exact ⟨applyHighlight starGraph 0 (resetHighlight starGraph (loadGraph3D State.init starGraph)),
      by decide, by decide, by decide, by decide⟩

/-- Witness for C2: the hypotheses hold on the star, focused on the leaf 1. -/
theorem highlight_focus_sets_star_leaf :
    ∃ s', highlightNeighbors3D (loadGraph3D State.init starGraph) (exampleNode 1) true = some s' ∧
      s'.highlightedNeighbors.Nodup ∧
      (∀ v, v ∈ s'.highlightedNeighbors ↔
        ∃ l ∈ starGraph.links, (l.source = Endpoint.id 1 ∧ l.target = v) ∨
          (l.target = Endpoint.id 1 ∧ l.source = v)) ∧
      s'.highlightedEdges.Nodup ∧
      (∀ i, i ∈ s'.highlightedEdges ↔ ∃ l, starGraph.links.get? i = some l ∧ incident 1 l) ∧
      s'.highlightedEdges.length = starGraph.links.countP (fun l => decide (incident 1 l)) ∧
      s'.nodeObjects.map (fun o => o.userData)
        = (loadGraph3D State.init starGraph).nodeObjects.map (fun o => o.userData) ∧
      (∀ o ∈ s'.nodeObjects,
        (o.material.opacity = 8 ↔
          (o.userData.nodeId ≠ 1 ∧ Endpoint.id o.userData.nodeId ∉ s'.highlightedNeighbors)) ∧
        (o.material.opacity = 8 ∨ o.material.opacity = 100)) :=
  highlight_focus_sets.1 (loadGraph3D State.init starGraph) starGraph (exampleNode 1)
    (by decide) (by decide) (by decide)

/-! ## Refocusing and unfocusing -/

theorem forall₂_map_of {α : Type} (R : α → α → Prop) (f f' : α → α)
    (hf : ∀ a b, R a b → R (f a) (f' b)) {l1 l2 : List α} (h : List.Forall₂ R l1 l2) :
    List.Forall₂ R (l1.map f) (l2.map f') := by
  induction h with
  | nil => exact List.Forall₂.nil
  | cons hab _ ih => exact List.Forall₂.cons (hf _ _ hab) ih

theorem forall₂_updateFirst {α : Type} (R : α → α → Prop) (p : α → Bool) (f : α → α)
    (hp : ∀ a b, R a b → p a = p b) (hf : ∀ a b, R a b → R (f a) (f b))
    {l1 l2 : List α} (h : List.Forall₂ R l1 l2) :
    List.Forall₂ R (updateFirst p f l1) (updateFirst p f l2) := by
  induction h with
  | nil => exact List.Forall₂.nil
  | @cons a b r1 r2 hab hrest ih =>
    unfold updateFirst
    rw [hp a b hab]
    cases p b with
    | true => exact List.Forall₂.cons (hf _ _ hab) hrest
    | false => exact List.Forall₂.cons hab ih

theorem sameLook_fadeNode (nodeId : NodeId) (nbs : List Endpoint) (a b : NodeObj)
    (h : sameLook a b) : sameLook (fadeNode nodeId nbs a) (fadeNode nodeId nbs b) := by
  obtain ⟨hu, ha⟩ := h
  simp only [NodeObj.appearance, Prod.mk.injEq] at ha
  by_cases hd : b.userData.nodeId ≠ nodeId ∧ Endpoint.id b.userData.nodeId ∉ nbs
  · have hd' : a.userData.nodeId ≠ nodeId ∧ Endpoint.id a.userData.nodeId ∉ nbs := by
      rw [hu]; exact hd
    simp only [fadeNode]
    rw [if_pos hd, if_pos hd']
    exact ⟨hu, by simp [NodeObj.appearance, ha]⟩
  · have hd' : ¬ (a.userData.nodeId ≠ nodeId ∧ Endpoint.id a.userData.nodeId ∉ nbs) := by
      rw [hu]; exact hd
    simp only [fadeNode]
    rw [if_neg hd, if_neg hd']
    exact ⟨hu, by simp [NodeObj.appearance, ha]⟩

theorem sameLook_markCentral (a b : NodeObj) (h : sameLook a b) :
    sameLook (markCentral a) (markCentral b) :=
  ⟨h.1, rfl⟩

theorem sameLook_markNeighbor (a b : NodeObj) (h : sameLook a b) :
    sameLook (markNeighbor a) (markNeighbor b) := by
  obtain ⟨hu, ha⟩ := h
  simp only [NodeObj.appearance, Prod.mk.injEq] at ha
  exact ⟨hu, by simp [NodeObj.appearance, markNeighbor, ha]⟩

theorem sameLook_foldl_highlightNeighbor (nbs : List Endpoint) {l1 l2 : List NodeObj}
    (h : List.Forall₂ sameLook l1 l2) :
    List.Forall₂ sameLook (nbs.foldl highlightNeighbor l1) (nbs.foldl highlightNeighbor l2) := by
  induction nbs generalizing l1 l2 with
  | nil => exact h
  | cons v rest ih =>
    rw [List.foldl_cons, List.foldl_cons]
    apply ih
    unfold highlightNeighbor
    exact forall₂_updateFirst sameLook _ _ (fun a b hab => by rw [hab.1])
      sameLook_markNeighbor h

theorem sameLook_applyHighlight (g : Graph) (nodeId : NodeId) (s1 s2 : State)
    (hE : s1.edgeObjects = s2.edgeObjects)
    (hN : List.Forall₂ sameLook s1.nodeObjects s2.nodeObjects) :
    List.Forall₂ sameLook (applyHighlight g nodeId s1).nodeObjects
        (applyHighlight g nodeId s2).nodeObjects ∧
      (applyHighlight g nodeId s1).edgeObjects = (applyHighlight g nodeId s2).edgeObjects ∧
      (applyHighlight g nodeId s1).highlightedNode = (applyHighlight g nodeId s2).highlightedNode ∧
      (applyHighlight g nodeId s1).highlightedNeighbors
        = (applyHighlight g nodeId s2).highlightedNeighbors ∧
      (applyHighlight g nodeId s1).highlightedEdges
        = (applyHighlight g nodeId s2).highlightedEdges := by
  simp only [applyHighlight, hE, and_self, and_true]
  apply sameLook_foldl_highlightNeighbor
  apply forall₂_updateFirst sameLook _ _ (fun a b hab => by rw [hab.1]) sameLook_markCentral
  exact forall₂_map_of sameLook _ _ (sameLook_fadeNode nodeId _) hN

theorem sameLook_resetNode (g : Graph) (a b : NodeObj) (hu : a.userData = b.userData)
    (hfound : ∃ nd, g.nodes.find? (fun n => n.id == b.userData.nodeId) = some nd) :
    sameLook (resetNode g a) (resetNode g b) := by
  obtain ⟨nd, hnd⟩ := hfound
  have hnd' : g.nodes.find? (fun n => n.id == a.userData.nodeId) = some nd := by rw [hu]; exact hnd
  simp only [resetNode, hnd, hnd']
  exact ⟨hu, rfl⟩

theorem forall₂_of_map_eq {α β : Type} (f : α → β) {l1 l2 : List α}
    (h : l1.map f = l2.map f) : List.Forall₂ (fun a b => f a = f b) l1 l2 := by
  induction l1 generalizing l2 with
  | nil =>
    cases l2 with
    | nil => exact List.Forall₂.nil
    | cons b r => simp at h
  | cons a r ih =>
    cases l2 with
    | nil => simp at h
    | cons b r2 =>
      simp only [List.map_cons, List.cons.injEq] at h
      exact List.Forall₂.cons h.1 (ih h.2)

theorem map_eq_of_forall₂ {α β : Type} (R : α → α → Prop) (f : α → β)
    (hf : ∀ a b, R a b → f a = f b) {l1 l2 : List α} (h : List.Forall₂ R l1 l2) :
    l1.map f = l2.map f := by
  induction h with
  | nil => rfl
  | cons hab _ ih => simp [hf _ _ hab, ih]

theorem forall₂_map_mem {α : Type} (R R' : α → α → Prop) (f f' : α → α) (L : List α)
    (hf : ∀ a b, R a b → b ∈ L → R' (f a) (f' b)) {l1 l2 : List α}
    (h : List.Forall₂ R l1 l2) (hsub : ∀ b ∈ l2, b ∈ L) :
    List.Forall₂ R' (l1.map f) (l2.map f') := by
  induction h with
  | nil => exact List.Forall₂.nil
  | cons hab _ ih =>
    exact List.Forall₂.cons (hf _ _ hab (hsub _ (List.mem_cons_self _ _)))
      (ih (fun b hb => hsub b (List.mem_cons_of_mem _ hb)))

theorem sameLook_resetHighlight (g : Graph) (s1 s2 : State)
    (hu : s1.nodeObjects.map (fun o => o.userData) = s2.nodeObjects.map (fun o => o.userData))
    (hfound : ∀ o ∈ s2.nodeObjects,
      ∃ nd, g.nodes.find? (fun n => n.id == o.userData.nodeId) = some nd) :
    List.Forall₂ sameLook (resetHighlight g s1).nodeObjects (resetHighlight g s2).nodeObjects := by
  simp only [resetHighlight]
  exact forall₂_map_mem _ sameLook (resetNode g) (resetNode g) s2.nodeObjects
    (fun a b hab hb => sameLook_resetNode g a b hab (hfound b hb))
    (forall₂_of_map_eq (fun o : NodeObj => o.userData) hu) (fun b hb => hb)

theorem resetEdge_fadeEdge (hl : List Nat) (e : EdgeObj) :
    resetEdge (fadeEdge hl e) = resetEdge e := by
  unfold fadeEdge
  split_ifs <;> rfl

theorem resetEdge_markEdge (hl : List Nat) (e : EdgeObj) :
    resetEdge (markEdge hl e) = resetEdge e := by
  unfold markEdge
  split_ifs <;> rfl

theorem resetEdge_idem (e : EdgeObj) : resetEdge (resetEdge e) = resetEdge e := rfl

theorem reset_applyHighlight_edges (g : Graph) (nodeId : NodeId) (s : State) :
    (resetHighlight g (applyHighlight g nodeId (resetHighlight g s))).edgeObjects
      = (resetHighlight g s).edgeObjects := by
  simp only [resetHighlight, applyHighlight, List.map_map]
  apply List.map_congr_left
  intro e _
  simp only [Function.comp, resetEdge_markEdge, resetEdge_fadeEdge, resetEdge_idem]

theorem highlight_true_eq {s : State} {g : Graph} (hg : s.graphData = some g) (n : Node) :
    highlightNeighbors3D s n true = some (applyHighlight g n.id (resetHighlight g s)) := by
  simp [highlightNeighbors3D, hg]

theorem highlight_false_eq {s : State} {g : Graph} (hg : s.graphData = some g) (n : Node) :
    highlightNeighbors3D s n false = some (resetHighlight g s) := by
  simp [highlightNeighbors3D, hg]

theorem applyHighlight_graphData (g : Graph) (nodeId : NodeId) (s : State) :
    (applyHighlight g nodeId s).graphData = s.graphData := rfl

theorem resetHighlight_graphData (g : Graph) (s : State) :
    (resetHighlight g s).graphData = s.graphData := rfl

/-- C4: in a scene showing the graph, focusing `m` right after focusing `n`
yields the same `highlightedNode`, `highlightedNeighbors` and `highlightedEdges`
as focusing `m` on the scene as it was before `n` was focused, the same line
objects, and on every sphere the same colour, emissive colour, emissive
intensity, shininess, opacity and scale. -/
theorem refocus_eq_focus (s : State) (g : Graph) (n m : Node) (hs : showsGraph s g) :
    ∃ a b c, highlightNeighbors3D s n true = some a ∧
      highlightNeighbors3D a m true = some b ∧
      highlightNeighbors3D s m true = some c ∧
      b.highlightedNode = c.highlightedNode ∧
      b.highlightedNeighbors = c.highlightedNeighbors ∧
      b.highlightedEdges = c.highlightedEdges ∧
      b.nodeObjects.map (fun o => o.userData) = c.nodeObjects.map (fun o => o.userData) ∧
      b.nodeObjects.map NodeObj.appearance = c.nodeObjects.map NodeObj.appearance ∧
      b.edgeObjects = c.edgeObjects := by
  have hg := hs.1
  have ha := highlight_true_eq hg n
  have hga : (applyHighlight g n.id (resetHighlight g s)).graphData = some g := hg
  have hb := highlight_true_eq hga m
  have hc := highlight_true_eq hg m
  refine ⟨_, _, _, ha, hb, hc, ?_⟩
  have hu : (applyHighlight g n.id (resetHighlight g s)).nodeObjects.map (fun o => o.userData)
      = s.nodeObjects.map (fun o => o.userData) := by
    rw [applyHighlight_userData, resetHighlight_userData]
  have hN := sameLook_resetHighlight g _ s hu (nodeData_found hs)
  have hE := reset_applyHighlight_edges g n.id s
  obtain ⟨h1, h2, h3, h4, h5⟩ := sameLook_applyHighlight g m.id _ _ hE hN
  exact ⟨h3, h4, h5, map_eq_of_forall₂ sameLook _ (fun _ _ h => h.1) h1,
    map_eq_of_forall₂ sameLook _ (fun _ _ h => h.2) h1, h2⟩

/-- Witness for C4: on the star, focus the centre 0 and then the leaf 1. -/
theorem refocus_eq_focus_star :
    ∃ a b c, highlightNeighbors3D (loadGraph3D State.init starGraph) (exampleNode 0) true = some a ∧
      highlightNeighbors3D a (exampleNode 1) true = some b ∧
      highlightNeighbors3D (loadGraph3D State.init starGraph) (exampleNode 1) true = some c ∧
      b.highlightedNode = c.highlightedNode ∧
      b.highlightedNeighbors = c.highlightedNeighbors ∧
      b.highlightedEdges = c.highlightedEdges ∧
      b.nodeObjects.map (fun o => o.userData) = c.nodeObjects.map (fun o => o.userData) ∧
      b.nodeObjects.map NodeObj.appearance = c.nodeObjects.map NodeObj.appearance ∧
      b.edgeObjects = c.edgeObjects :=
  refocus_eq_focus (loadGraph3D State.init starGraph) starGraph (exampleNode 0) (exampleNode 1)
    (by decide)

theorem mem_newNodeObjs {nodes : List Node} {k : Nat} {o : NodeObj}
    (h : o ∈ newNodeObjs k nodes) : ∃ i nd, nd ∈ nodes ∧ o = newNodeObj i nd := by
  induction nodes generalizing k with
  | nil => simp [newNodeObjs] at h
  | cons nd rest ih =>
    simp only [newNodeObjs, List.mem_cons] at h
    rcases h with h | h
    · exact ⟨k, nd, List.mem_cons_self _ _, h⟩
    · obtain ⟨i, nd', h1, h2⟩ := ih h
      exact ⟨i, nd', List.mem_cons_of_mem _ h1, h2⟩

theorem find?_of_uniqueIds {g : Graph} (hu : uniqueIds g) {nd : Node} (hnd : nd ∈ g.nodes) :
    g.nodes.find? (fun n => n.id == nd.id) = some nd := by
  unfold uniqueIds at hu
  generalize g.nodes = nodes at hu hnd
  induction nodes with
  | nil => cases hnd
  | cons a rest ih =>
    rw [List.find?_cons]
    rw [List.map_cons, List.nodup_cons] at hu
    rcases List.mem_cons.mp hnd with h | h
    · subst h; simp
    · have hne : a.id ≠ nd.id := by
        intro heq
        exact hu.1 (heq ▸ List.mem_map.mpr ⟨nd, h, rfl⟩)
      have : (a.id == nd.id) = false := by simpa using hne
      rw [this]
      exact ih hu.2 h

theorem loadGraph3D_objects (s : State) {g : Graph} (hres : linksResolve g = true) :
    (loadGraph3D s g).graphData = some g ∧
    (loadGraph3D s g).nodeObjects = newNodeObjs 0 g.nodes ∧
    (loadGraph3D s g).edgeObjects = newEdgeObjs 0 g.links := by
  simp [loadGraph3D, renderGraph3D, setGraphData, hres]

theorem showsGraph_loadGraph3D (s : State) {g : Graph} (hres : linksResolve g = true) :
    showsGraph (loadGraph3D s g) g := by
  obtain ⟨h1, h2, h3⟩ := loadGraph3D_objects s hres
  exact ⟨h1, by rw [h2], by rw [h3]⟩

theorem resetEdge_newEdgeObjs (k : Nat) (links : List Link) :
    (newEdgeObjs k links).map resetEdge = newEdgeObjs k links := by
  induction links generalizing k with
  | nil => rfl
  | cons l rest ih =>
    simp only [newEdgeObjs, List.map_cons, ih]
    rfl

/-- The attributes that a focus followed by an unfocus gives back: from the
scene `renderGraph3D` builds for a graph with unique node ids, focusing `n` and
then unfocusing it leaves every line object equal to what it was, gives every
sphere the colour, emissive colour, shininess, opacity and scale it had before
the focus, and clears the tracking variables; every sphere's emissive intensity
is then 0. -/
theorem focus_unfocus_restores (s : State) (g : Graph) (n : Node)
    (hres : linksResolve g = true) (hu : uniqueIds g) :
    ∃ a b, highlightNeighbors3D (loadGraph3D s g) n true = some a ∧
      highlightNeighbors3D a n false = some b ∧
      List.Forall₂
        (fun o' o => o'.userData = o.userData ∧
          o'.material.color = o.material.color ∧
          o'.material.emissive = o.material.emissive ∧
          o'.material.shininess = o.material.shininess ∧
          o'.material.opacity = o.material.opacity ∧
          o'.scale = o.scale ∧
          o'.material.emissiveIntensity = 0)
        b.nodeObjects (loadGraph3D s g).nodeObjects ∧
      b.edgeObjects = (loadGraph3D s g).edgeObjects ∧
      b.highlightedNode = none ∧ b.highlightedNeighbors = [] ∧ b.highlightedEdges = [] := by
  have hs := showsGraph_loadGraph3D s hres
  obtain ⟨hg, hN, hE⟩ := loadGraph3D_objects s hres
  have ha := highlight_true_eq hg n
  have hga : (applyHighlight g n.id (resetHighlight g (loadGraph3D s g))).graphData = some g := hg
  have hb := highlight_false_eq hga n
  refine ⟨_, _, ha, hb, ?_, ?_, rfl, rfl, rfl⟩
  · have hud : (applyHighlight g n.id (resetHighlight g (loadGraph3D s g))).nodeObjects.map
          (fun o => o.userData)
        = (loadGraph3D s g).nodeObjects.map (fun o => o.userData) := by
      rw [applyHighlight_userData, resetHighlight_userData]
    have h2 := forall₂_of_map_eq (fun o : NodeObj => o.userData) hud
    have h3 := forall₂_map_mem _
      (fun o' o : NodeObj => o'.userData = o.userData ∧
          o'.material.color = o.material.color ∧
          o'.material.emissive = o.material.emissive ∧
          o'.material.shininess = o.material.shininess ∧
          o'.material.opacity = o.material.opacity ∧
          o'.scale = o.scale ∧
          o'.material.emissiveIntensity = 0)
      (resetNode g) id (newNodeObjs 0 g.nodes) ?_ h2 (fun b hb => hN ▸ hb)
    · simpa [resetHighlight] using h3
    · intro a b hab hbm
      obtain ⟨i, nd, hnd, rfl⟩ := mem_newNodeObjs hbm
      have hfind : g.nodes.find? (fun n => n.id == a.userData.nodeId) = some nd := by
        have : a.userData.nodeId = nd.id := by
          have := congrArg NodeUserData.nodeId hab
          simpa [newNodeObj] using this
        rw [this]
        exact find?_of_uniqueIds hu hnd
      have hr : resetNode g a =
          { a with
            material :=
              { a.material with
                color := if nd.infected then infectedColor else healthyColor
                emissive := 0x000000
                emissiveIntensity := 0
                shininess := 80
                opacity := 100 }
            scale := { x := 100, y := 100, z := 100 } } := by
        simp only [resetNode, hfind]
      rw [hr]
      exact ⟨hab, rfl, rfl, rfl, rfl, rfl, rfl⟩
  · rw [reset_applyHighlight_edges]
    simp only [resetHighlight, hE]
    exact resetEdge_newEdgeObjs 0 g.links

/-- The star, focused on its centre and unfocused. -/
theorem focus_unfocus_restores_star :
    ∃ a b, highlightNeighbors3D (loadGraph3D State.init starGraph) (exampleNode 0) true = some a ∧
      highlightNeighbors3D a (exampleNode 0) false = some b ∧
      List.Forall₂
        (fun o' o => o'.userData = o.userData ∧
          o'.material.color = o.material.color ∧
          o'.material.emissive = o.material.emissive ∧
          o'.material.shininess = o.material.shininess ∧
          o'.material.opacity = o.material.opacity ∧
          o'.scale = o.scale ∧
          o'.material.emissiveIntensity = 0)
        b.nodeObjects (loadGraph3D State.init starGraph).nodeObjects ∧
      b.edgeObjects = (loadGraph3D State.init starGraph).edgeObjects ∧
      b.highlightedNode = none ∧ b.highlightedNeighbors = [] ∧ b.highlightedEdges = [] :=
  focus_unfocus_restores State.init starGraph (exampleNode 0) (by decide) (by decide)

/-- C3: focus followed by unfocus does not give every sphere its attributes
back.  On the star loaded in the 3D view every sphere is built with
`transparent = false` and emissive intensity `1.0` (line 357); after
`highlightNeighbors3D(node 0, true)` and `highlightNeighbors3D(node 0, false)`
every sphere has `transparent = true` and emissive intensity 0: the block that
resets "ALL nodes to their original state" (lines 634-647) never writes
`material.transparent`, which lines 699, 717 and 729 set, and writes
`emissiveIntensity = 0`. -/
theorem focus_unfocus_changes_flags :
    ∃ a b, highlightNeighbors3D (loadGraph3D State.init starGraph) (exampleNode 0) true = some a ∧
      highlightNeighbors3D a (exampleNode 0) false = some b ∧
      (loadGraph3D State.init starGraph).nodeObjects.map
          (fun o => (o.material.transparent, o.material.emissiveIntensity))
        = [(false, 100), (false, 100), (false, 100), (false, 100), (false, 100)] ∧
      b.nodeObjects.map (fun o => (o.material.transparent, o.material.emissiveIntensity))
        = [(true, 0), (true, 0), (true, 0), (true, 0), (true, 0)] :=
  ⟨applyHighlight starGraph 0 (resetHighlight starGraph (loadGraph3D State.init starGraph)),
   resetHighlight starGraph
     (applyHighlight starGraph 0 (resetHighlight starGraph (loadGraph3D State.init starGraph))),
   by decide, by decide, by decide, by decide⟩

/-! ## Infection snapshots -/

theorem updateGraph_graphData {s s' : State} (h : updateGraph s = some s') :
    s'.graphData = s.graphData := by
  unfold updateGraph at h
  split at h
  · cases h; rfl
  · split at h <;> cases h <;> rfl

theorem updateGraph_none_iff (s : State) :
    updateGraph s = none ↔ (∃ g, s.graphData = some g) ∧ ¬ viewConsistent s := by
  unfold updateGraph viewConsistent
  cases hg : s.graphData <;> cases hv : s.currentVizType <;> cases hk : s.objectsKind <;> simp

theorem updateGraph_threeD {s : State} {g : Graph} (hg : s.graphData = some g)
    (hv : s.currentVizType = VizType.threeD) (hk : s.objectsKind = ObjectsKind.array) :
    updateGraph s = some { s with
      nodeObjects := s.nodeObjects.map (recolorNode g)
      edgeObjects := s.edgeObjects.map recolorEdge } := by
  simp only [updateGraph, hg, hv, hk]

theorem updateGraph_of_consistent {s : State} (h : s.graphData = none ∨ viewConsistent s) :
    ∃ s', updateGraph s = some s' := by
  cases hu : updateGraph s with
  | some s' => exact ⟨s', rfl⟩
  | none =>
    obtain ⟨⟨g, hg⟩, hc⟩ := (updateGraph_none_iff s).mp hu
    rcases h with h | h
    · rw [hg] at h; cases h
    · exact absurd h hc

theorem updateInfectionState_graphData (s : State) (g : Graph) (snap : InfectionState)
    (hg : s.graphData = some g) :
    (updateInfectionState s snap).state.graphData
      = some { g with nodes := g.nodes.map (applyNodeState snap) } := by
  simp only [updateInfectionState, hg]
  split
  · rename_i s2 h
    exact updateGraph_graphData h
  · rfl

theorem updateInfectionState_returned {s : State} (snap : InfectionState)
    (h : s.graphData = none ∨ viewConsistent s) :
    updateInfectionState s snap = Outcome.returned (updateInfectionState s snap).state := by
  cases hg : s.graphData with
  | none => simp only [updateInfectionState, hg, Outcome.state]
  | some g =>
    have hc : viewConsistent s := by
      rcases h with h | h
      · rw [hg] at h; cases h
      · exact h
    have hc1 : viewConsistent
        { s with graphData := some { g with nodes := g.nodes.map (applyNodeState snap) } } := hc
    obtain ⟨s', hs'⟩ := updateGraph_of_consistent (Or.inr hc1)
    simp only [updateInfectionState, hg, hs', Outcome.state]

theorem updateInfectionState_threw {s : State} {g : Graph} (snap : InfectionState)
    (hg : s.graphData = some g) (hc : ¬ viewConsistent s) :
    updateInfectionState s snap = Outcome.threw (updateInfectionState s snap).state := by
  have hc1 : ¬ viewConsistent
      { s with graphData := some { g with nodes := g.nodes.map (applyNodeState snap) } } := hc
  have hn := (updateGraph_none_iff _).mpr ⟨⟨_, rfl⟩, hc1⟩
  simp only [updateInfectionState, hg, hn, Outcome.state]

theorem applyNodeState_spec (snap : InfectionState) (nd : Node) :
    (applyNodeState snap nd).id = nd.id ∧ (applyNodeState snap nd).degree = nd.degree ∧
    (applyNodeState snap nd).x = nd.x ∧ (applyNodeState snap nd).y = nd.y ∧
    (∀ st, snap.lookup nd.id = some st → (applyNodeState snap nd).infected = st.infected) ∧
    (snap.lookup nd.id = none → (applyNodeState snap nd).infected = nd.infected) := by
  unfold applyNodeState
  split
  · rename_i st0 h
    refine ⟨rfl, rfl, rfl, rfl, ?_, ?_⟩
    · intro st hst
      rw [h] at hst
      cases hst
      rfl
    · intro hn
      rw [h] at hn
      cases hn
  · rename_i h
    refine ⟨rfl, rfl, rfl, rfl, ?_, ?_⟩
    · intro st hst
      rw [h] at hst
      cases hst
    · intro _
      rfl

theorem forall₂_applyNodeState (snap : InfectionState) (nodes : List Node) :
    List.Forall₂
      (fun node' node =>
        node'.id = node.id ∧ node'.degree = node.degree ∧
        node'.x = node.x ∧ node'.y = node.y ∧
        (∀ st, snap.lookup node.id = some st → node'.infected = st.infected) ∧
        (snap.lookup node.id = none → node'.infected = node.infected))
      (nodes.map (applyNodeState snap)) nodes := by
  induction nodes with
  | nil => exact List.Forall₂.nil
  | cons nd rest ih =>
    rw [List.map_cons]
    exact List.Forall₂.cons (applyNodeState_spec snap nd) ih

/-- C5: `updateInfectionState` on a loaded graph.  In every case the flags are
merged as the claim says: the graph it leaves has the same links and, position
by position, nodes with the same id, degree and coordinates; a node whose id
has an entry in the snapshot takes that entry's `infected` value, every other
node keeps its flag, and ids of the snapshot that name no node have no effect.
The call returns when `nodeObjects` holds the kind of object the current view
type works on; when it does not, the call does not complete: `updateGraph`
(line 786) throws after the flags have been written.  That happens on the star
loaded in the 3D view once line 64 has switched `currentVizType` to `'2d'` for a
request that has not succeeded: the call throws, node 2 being marked
infected. -/
theorem updateInfectionState_lenient :
    (∀ (s : State) (g : Graph) (snap : InfectionState), s.graphData = some g →
      ∃ g', (updateInfectionState s snap).state.graphData = some g' ∧
        g'.links = g.links ∧
        List.Forall₂
          (fun node' node =>
            node'.id = node.id ∧ node'.degree = node.degree ∧
            node'.x = node.x ∧ node'.y = node.y ∧
            (∀ st, snap.lookup node.id = some st → node'.infected = st.infected) ∧
            (snap.lookup node.id = none → node'.infected = node.infected))
          g'.nodes g.nodes) ∧
    (∀ (s : State) (g : Graph) (snap : InfectionState), s.graphData = some g →
      viewConsistent s →
      updateInfectionState s snap = Outcome.returned (updateInfectionState s snap).state) ∧
    (∀ (s : State) (g : Graph) (snap : InfectionState), s.graphData = some g →
      ¬ viewConsistent s →
      updateInfectionState s snap = Outcome.threw (updateInfectionState s snap).state) ∧
    (loadGraph3D State.init starGraph).graphData = some starGraph ∧
    viewConsistent (loadGraph3D State.init starGraph) ∧
    ¬ viewConsistent (selectVizType (loadGraph3D State.init starGraph) VizType.twoD) ∧
    updateInfectionState (selectVizType (loadGraph3D State.init starGraph) VizType.twoD)
        [(2, { infected := true })]
      = Outcome.threw
          (updateInfectionState (selectVizType (loadGraph3D State.init starGraph) VizType.twoD)
            [(2, { infected := true })]).state ∧
    (updateInfectionState (selectVizType (loadGraph3D State.init starGraph) VizType.twoD)
        [(2, { infected := true })]).state.graphData.map
        (fun g => g.nodes.map (fun node => node.infected))
      = some [false, false, true, false, false] := by
  refine ⟨?_, ?_, ?_, by decide, by decide, by decide, by decide, by decide⟩
  · intro s g snap hg
    exact ⟨_, updateInfectionState_graphData s g snap hg, rfl, forall₂_applyNodeState snap g.nodes⟩
  · intro s g snap _ hc
    exact updateInfectionState_returned snap (Or.inr hc)
  · intro s g snap hg hc
    exact updateInfectionState_threw snap hg hc

/-- Instance of C5 on a scene that matches the view type: the star in the 3D
view with a snapshot that omits nodes 0, 1, 3, 4 and mentions the unknown id 9;
the call returns. -/
theorem updateInfectionState_lenient_star :
    updateInfectionState (loadGraph3D State.init starGraph)
        [(2, { infected := true }), (9, { infected := true })]
      = Outcome.returned
          (updateInfectionState (loadGraph3D State.init starGraph)
            [(2, { infected := true }), (9, { infected := true })]).state :=
  updateInfectionState_lenient.2.1 (loadGraph3D State.init starGraph) starGraph
    [(2, { infected := true }), (9, { infected := true })] (by decide) (by decide)

/-! ## Recolouring while a node is focused -/

theorem forall₂_map_self {α : Type} (R : α → α → Prop) (f : α → α) (l : List α)
    (h : ∀ a ∈ l, R (f a) a) : List.Forall₂ R (l.map f) l := by
  induction l with
  | nil => exact List.Forall₂.nil
  | cons a rest ih =>
    exact List.Forall₂.cons (h a (List.mem_cons_self _ _))
      (ih (fun b hb => h b (List.mem_cons_of_mem _ hb)))

theorem newNodeObjs_index (nodes : List Node) (k : Nat) :
    ∀ u ∈ (newNodeObjs k nodes).map (fun o => o.userData),
      ∃ i, u.node = NodeRef.current i ∧ k ≤ i ∧
        ∃ nd, nodes.get? (i - k) = some nd ∧ nd.id = u.nodeId := by
  induction nodes generalizing k with
  | nil => intro u hu; simp [newNodeObjs] at hu
  | cons nd rest ih =>
    intro u hu
    simp only [newNodeObjs, List.map_cons, List.mem_cons] at hu
    rcases hu with h | h
    · subst h
      exact ⟨k, rfl, Nat.le_refl _, nd, by simp, rfl⟩
    · obtain ⟨i, hi, hle, nd', h1, h2⟩ := ih (k + 1) u h
      refine ⟨i, hi, by omega, nd', ?_, h2⟩
      have : i - k = (i - (k + 1)) + 1 := by omega
      rw [this, List.get?_cons_succ]
      exact h1

theorem node_of_sphere {s : State} {g : Graph} (hs : showsGraph s g) :
    ∀ o ∈ s.nodeObjects,
      ∃ i nd, o.userData.node = NodeRef.current i ∧ g.nodes.get? i = some nd ∧
        nd.id = o.userData.nodeId := by
  intro o ho
  have hmem : o.userData ∈ s.nodeObjects.map (fun o => o.userData) :=
    List.mem_map.mpr ⟨o, ho, rfl⟩
  rw [hs.2.1] at hmem
  obtain ⟨i, hi, _, nd, h1, h2⟩ := newNodeObjs_index g.nodes 0 _ hmem
  exact ⟨i, nd, hi, by simpa using h1, h2⟩

theorem showsGraph_highlight {s : State} {g : Graph} (hs : showsGraph s g) (nodeId : NodeId) :
    showsGraph (applyHighlight g nodeId (resetHighlight g s)) g := by
  refine ⟨hs.1, ?_, ?_⟩
  · rw [applyHighlight_userData, resetHighlight_userData]; exact hs.2.1
  · rw [← hs.2.2, ← resetHighlight_edgeKeys g s]
    simp only [applyHighlight, List.map_map]
    apply List.map_congr_left
    intro e _
    simp only [Function.comp, markEdge, fadeEdge]
    split_ifs <;> rfl

theorem recolorNode_spec (g' : Graph) (o : NodeObj) (nd : Node)
    (h : o.userData.node.deref g' = some nd) :
    (recolorNode g' o).userData = o.userData ∧
    (recolorNode g' o).scale = o.scale ∧
    (recolorNode g' o).material.opacity = o.material.opacity ∧
    (recolorNode g' o).material.transparent = o.material.transparent ∧
    (recolorNode g' o).material.emissiveIntensity = o.material.emissiveIntensity ∧
    (recolorNode g' o).material.shininess = o.material.shininess ∧
    (recolorNode g' o).material.emissive = 0 ∧
    (recolorNode g' o).material.color = (if nd.infected then infectedColor else healthyColor) := by
  have hr : recolorNode g' o =
      { o with material :=
          { o.material with
            color := if nd.infected then infectedColor else healthyColor
            emissive := 0x000000 } } := by
    simp only [recolorNode, h]
  rw [hr]
  exact ⟨rfl, rfl, rfl, rfl, rfl, rfl, rfl, rfl⟩

/-- C6 (as amended): with `n` focused in the 3D view of a graph (the scene holds
the spheres and lines of that graph), `updateInfectionState` returns and gives
every sphere the infection colour of its node under the updated flags and a
black emissive colour, and every line the base edge colour; opacity,
`transparent`, scale, emissive intensity and shininess of every sphere and
opacity of every line stay as the focus left them, and the tracking variables
still name `n`, its neighbours and its lines. -/
theorem updateInfectionState_while_focused (s : State) (g : Graph) (n : Node)
    (snap : InfectionState) (hs : showsGraph s g) (hviz : s.currentVizType = VizType.threeD)
    (hkind : s.objectsKind = ObjectsKind.array) :
    ∃ a u, highlightNeighbors3D s n true = some a ∧
      updateInfectionState a snap = Outcome.returned u ∧
      u.graphData = some { g with nodes := g.nodes.map (applyNodeState snap) } ∧
      List.Forall₂
        (fun o' o =>
          o'.userData = o.userData ∧ o'.scale = o.scale ∧
          o'.material.opacity = o.material.opacity ∧
          o'.material.transparent = o.material.transparent ∧
          o'.material.emissiveIntensity = o.material.emissiveIntensity ∧
          o'.material.shininess = o.material.shininess ∧
          o'.material.emissive = 0 ∧
          ∃ i nd, o.userData.node = NodeRef.current i ∧
            (g.nodes.map (applyNodeState snap)).get? i = some nd ∧
            nd.id = o.userData.nodeId ∧
            o'.material.color = (if nd.infected then infectedColor else healthyColor))
        u.nodeObjects a.nodeObjects ∧
      List.Forall₂
        (fun e' e =>
          e'.ref = e.ref ∧ e'.userData = e.userData ∧
          e'.material.opacity = e.material.opacity ∧
          e'.material.transparent = e.material.transparent ∧
          e'.material.color = edgeColor)
        u.edgeObjects a.edgeObjects ∧
      u.highlightedNode = some n.id ∧
      u.highlightedNeighbors = a.highlightedNeighbors ∧
      u.highlightedEdges = a.highlightedEdges := by
  have ha := highlight_true_eq hs.1 n
  have hsa := showsGraph_highlight hs n.id
  generalize hA : applyHighlight g n.id (resetHighlight g s) = a at hsa ha
  have hvizA : a.currentVizType = VizType.threeD := by rw [← hA]; exact hviz
  have hkindA : a.objectsKind = ObjectsKind.array := by rw [← hA]; exact hkind
  have hnodeA : a.highlightedNode = some n.id := by rw [← hA]; rfl
  have hu : updateInfectionState a snap
      = Outcome.returned { a with
          graphData := some { g with nodes := g.nodes.map (applyNodeState snap) }
          nodeObjects := a.nodeObjects.map
            (recolorNode { g with nodes := g.nodes.map (applyNodeState snap) })
          edgeObjects := a.edgeObjects.map recolorEdge } := by
    simp only [updateInfectionState, hsa.1, updateGraph, hvizA, hkindA]
  refine ⟨a, _, ha, hu, rfl, ?_, ?_, hnodeA, rfl, rfl⟩
  · apply forall₂_map_self
    intro o ho
    obtain ⟨i, nd, hi, hget, hid⟩ := node_of_sphere hsa o ho
    have hget' : (g.nodes.map (applyNodeState snap)).get? i
        = some (applyNodeState snap nd) := by
      rw [List.get?_eq_getElem?, List.getElem?_map, ← List.get?_eq_getElem?, hget]
      rfl
    have hderef : o.userData.node.deref { g with nodes := g.nodes.map (applyNodeState snap) }
        = some (applyNodeState snap nd) := by
      rw [hi]
      exact hget'
    obtain ⟨h1, h2, h3, h4, h5, h6, h7, h8⟩ :=
      recolorNode_spec { g with nodes := g.nodes.map (applyNodeState snap) } o _ hderef
    exact ⟨h1, h2, h3, h4, h5, h6, h7, i, _, hi, hget',
      (applyNodeState_spec snap nd).1.trans hid, h8⟩
  · apply forall₂_map_self
    intro e _
    exact ⟨rfl, rfl, rfl, rfl, rfl⟩

/-- Witness for C6 (amended): the star focused on its centre, then a snapshot
that infects node 1. -/
theorem updateInfectionState_while_focused_star :
    ∃ a u, highlightNeighbors3D (loadGraph3D State.init starGraph) (exampleNode 0) true = some a ∧
      updateInfectionState a [(1, { infected := true })] = Outcome.returned u ∧
      u.graphData
        = some { starGraph with
            nodes := starGraph.nodes.map (applyNodeState [(1, { infected := true })]) } ∧
      List.Forall₂
        (fun o' o =>
          o'.userData = o.userData ∧ o'.scale = o.scale ∧
          o'.material.opacity = o.material.opacity ∧
          o'.material.transparent = o.material.transparent ∧
          o'.material.emissiveIntensity = o.material.emissiveIntensity ∧
          o'.material.shininess = o.material.shininess ∧
          o'.material.emissive = 0 ∧
          ∃ i nd, o.userData.node = NodeRef.current i ∧
            (starGraph.nodes.map (applyNodeState [(1, { infected := true })])).get? i
              = some nd ∧
            nd.id = o.userData.nodeId ∧
            o'.material.color = (if nd.infected then infectedColor else healthyColor))
        u.nodeObjects a.nodeObjects ∧
      List.Forall₂
        (fun e' e =>
          e'.ref = e.ref ∧ e'.userData = e.userData ∧
          e'.material.opacity = e.material.opacity ∧
          e'.material.transparent = e.material.transparent ∧
          e'.material.color = edgeColor)
        u.edgeObjects a.edgeObjects ∧
      u.highlightedNode = some 0 ∧
      u.highlightedNeighbors = a.highlightedNeighbors ∧
      u.highlightedEdges = a.highlightedEdges :=
  updateInfectionState_while_focused (loadGraph3D State.init starGraph) starGraph (exampleNode 0)
    [(1, { infected := true })] (by decide) (by decide) (by decide)

/-- Counterexample to C6 as stated: on the star with the centre 0 focused, a
snapshot that infects node 1 leaves the spheres with the plain infection colours
and no glow and the lines with the base edge colour, whereas focusing 0 on the
updated graph gives the centre `0x006400` with glow `0x00ff00`, the neighbours
`0xffff00` and the lines `0xffd700`. -/
theorem updateInfectionState_drops_focus_colors :
    ∃ a b, highlightNeighbors3D (loadGraph3D State.init starGraph) (exampleNode 0) true = some a ∧
      updateInfectionState a [(1, { infected := true })]
        = Outcome.returned (updateInfectionState a [(1, { infected := true })]).state ∧
      updateInfectionState (loadGraph3D State.init starGraph) [(1, { infected := true })]
        = Outcome.returned
            (updateInfectionState (loadGraph3D State.init starGraph)
              [(1, { infected := true })]).state ∧
      highlightNeighbors3D
        (updateInfectionState (loadGraph3D State.init starGraph)
          [(1, { infected := true })]).state
        (exampleNode 0) true = some b ∧
      (updateInfectionState a [(1, { infected := true })]).state.nodeObjects.map
          (fun o => (o.material.color, o.material.emissive))
        = [(0x48bb78, 0), (0xf56565, 0), (0x48bb78, 0), (0x48bb78, 0), (0x48bb78, 0)] ∧
      b.nodeObjects.map (fun o => (o.material.color, o.material.emissive))
        = [(0x006400, 0x00ff00), (0xffff00, 0xffff00), (0xffff00, 0xffff00),
           (0xffff00, 0xffff00), (0xffff00, 0xffff00)] ∧
      (updateInfectionState a [(1, { infected := true })]).state.edgeObjects.map
          (fun e => e.material.color)
        = [0x353d4f, 0x353d4f, 0x353d4f, 0x353d4f] ∧
      b.edgeObjects.map (fun e => e.material.color) = [0xffd700, 0xffd700, 0xffd700, 0xffd700] :=
  ⟨applyHighlight starGraph 0 (resetHighlight starGraph (loadGraph3D State.init starGraph)),
   applyHighlight starGraph 0 (resetHighlight
     { starGraph with nodes := starGraph.nodes.map (applyNodeState [(1, { infected := true })]) }
     (updateInfectionState (loadGraph3D State.init starGraph)
       [(1, { infected := true })]).state),
   by decide, by decide, by decide, by decide, by decide, by decide, by decide, by decide⟩

/-! ## Session controller: reset, auto-play and failed requests -/

theorem updateGraph_frame {s s' : State} (h : updateGraph s = some s') :
    s'.isAutoPlaying = s.isAutoPlaying ∧
    s'.autoPlayInterval = s.autoPlayInterval ∧
    s'.timers = s.timers ∧
    s'.chartData = s.chartData ∧
    s'.infectionChart = s.infectionChart ∧
    s'.display = s.display := by
  unfold updateGraph at h
  split at h
  · cases h; exact ⟨rfl, rfl, rfl, rfl, rfl, rfl⟩
  · split at h <;> cases h <;> exact ⟨rfl, rfl, rfl, rfl, rfl, rfl⟩

theorem updateInfectionState_frame (s : State) (snap : InfectionState) :
    (updateInfectionState s snap).state.isAutoPlaying = s.isAutoPlaying ∧
    (updateInfectionState s snap).state.autoPlayInterval = s.autoPlayInterval ∧
    (updateInfectionState s snap).state.timers = s.timers ∧
    (updateInfectionState s snap).state.chartData = s.chartData ∧
    (updateInfectionState s snap).state.infectionChart = s.infectionChart ∧
    (updateInfectionState s snap).state.display = s.display := by
  unfold updateInfectionState
  split
  · exact ⟨rfl, rfl, rfl, rfl, rfl, rfl⟩
  · dsimp only
    split
    · rename_i s2 h
      have hf := updateGraph_frame h
      exact hf
    · exact ⟨rfl, rfl, rfl, rfl, rfl, rfl⟩

theorem updateChartData_frame (s : State) (stats : Statistics) :
    (updateChartData s stats).isAutoPlaying = s.isAutoPlaying ∧
    (updateChartData s stats).autoPlayInterval = s.autoPlayInterval ∧
    (updateChartData s stats).timers = s.timers ∧
    (updateChartData s stats).graphData = s.graphData ∧
    (updateChartData s stats).display = s.display := by
  unfold updateChartData
  dsimp only
  split_ifs <;> exact ⟨rfl, rfl, rfl, rfl, rfl⟩

theorem updateStats_frame (s : State) (stats : Statistics) :
    (updateStats s stats).isAutoPlaying = s.isAutoPlaying ∧
    (updateStats s stats).autoPlayInterval = s.autoPlayInterval ∧
    (updateStats s stats).timers = s.timers ∧
    (updateStats s stats).graphData = s.graphData ∧
    (updateStats s stats).display =
      { timeStep := stats.time_step, totalNodes := stats.total_nodes,
        infectedCount := stats.infected_count, healthyCount := stats.healthy_count } := by
  unfold updateStats
  obtain ⟨h1, h2, h3, h4, h5⟩ := updateChartData_frame
    { s with display :=
        { timeStep := stats.time_step, totalNodes := stats.total_nodes,
          infectedCount := stats.infected_count, healthyCount := stats.healthy_count } } stats
  exact ⟨h1, h2, h3, h4, h5⟩

theorem resetSimulation_begin_frame (s : State) :
    (resetSimulation_begin s).isAutoPlaying = false ∧
    (resetSimulation_begin s).graphData = s.graphData ∧
    (resetSimulation_begin s).chartData = s.chartData ∧
    (resetSimulation_begin s).display = s.display ∧
    (resetSimulation_begin s).currentVizType = s.currentVizType ∧
    (resetSimulation_begin s).objectsKind = s.objectsKind := by
  unfold resetSimulation_begin
  cases h : s.isAutoPlaying with
  | false => simp [h]
  | true => simp [toggleAutoPlay, h]

theorem resetSimulation_complete_returned (b : State) (g : Graph) (data : ApiResponse)
    (hg : b.graphData = some g) (hc : viewConsistent b) :
    ∃ u, updateGraph { b with graphData := some (clearInfected g) } = some u ∧
      resetSimulation_complete b (Fetch.response data)
        = { updateStats u
              { total_nodes := (clearInfected g).nodes.length, infected_count := 0,
                healthy_count := (clearInfected g).nodes.length, time_step := 0 } with
            chartData :=
              { timeSteps := [0], infected := [0],
                healthy := [(clearInfected g).nodes.length] } } := by
  have hc1 : viewConsistent { b with graphData := some (clearInfected g) } := hc
  obtain ⟨u, hu⟩ := updateGraph_of_consistent (Or.inr hc1)
  refine ⟨u, hu, ?_⟩
  unfold resetSimulation_complete
  simp only [hg, hu]

theorem resetSimulation_complete_threw (b : State) (g : Graph) (data : ApiResponse)
    (hg : b.graphData = some g) (hc : ¬ viewConsistent b) :
    resetSimulation_complete b (Fetch.response data)
      = { b with graphData := some (clearInfected g) } := by
  have hc1 : ¬ viewConsistent { b with graphData := some (clearInfected g) } := hc
  have hn := (updateGraph_none_iff _).mpr ⟨⟨_, rfl⟩, hc1⟩
  unfold resetSimulation_complete
  simp only [hg, hn]

theorem forall₂_clearInfected (g : Graph) :
    List.Forall₂
      (fun node' node => node'.id = node.id ∧ node'.degree = node.degree ∧
        node'.x = node.x ∧ node'.y = node.y ∧ node'.infected = false)
      (clearInfected g).nodes g.nodes := by
  unfold clearInfected
  exact forall₂_map_self _ _ _ (fun nd _ => ⟨rfl, rfl, rfl, rfl, rfl⟩)

/-- C7: a `resetSimulation` whose request completes, with a graph loaded.  In
every state it leaves every node with `infected = false` (ids, degrees,
coordinates and links untouched) and `isAutoPlaying` false.  When `nodeObjects`
holds the kind of object the current view type works on, it also shows time
step 0 and infected count 0 and sets `chartData` to the single point
`timeSteps = [0]`, `infected = [0]`, `healthy = [number of nodes]`.  When it
does not, `updateGraph()` (line 245) throws and the statistics panel and
`chartData` stay as they were: on the star after a start and a step, once line
64 has switched `currentVizType` to `'2d'` for a request that has not
succeeded, the reset leaves time step 1, infected count 2 and two chart
points. -/
theorem resetSimulation_baseline :
    (∀ (s : State) (g : Graph) (data : ApiResponse), s.graphData = some g →
      ∃ g', (resetSimulation s (Fetch.response data)).graphData = some g' ∧
        g'.links = g.links ∧
        List.Forall₂
          (fun node' node => node'.id = node.id ∧ node'.degree = node.degree ∧
            node'.x = node.x ∧ node'.y = node.y ∧ node'.infected = false)
          g'.nodes g.nodes ∧
        (resetSimulation s (Fetch.response data)).isAutoPlaying = false) ∧
    (∀ (s : State) (g : Graph) (data : ApiResponse), s.graphData = some g →
      viewConsistent s →
      (resetSimulation s (Fetch.response data)).display.timeStep = 0 ∧
      (resetSimulation s (Fetch.response data)).display.infectedCount = 0 ∧
      (resetSimulation s (Fetch.response data)).chartData
        = { timeSteps := [0], infected := [0], healthy := [g.nodes.length] }) ∧
    (∀ (s : State) (g : Graph) (data : ApiResponse), s.graphData = some g →
      ¬ viewConsistent s →
      (resetSimulation s (Fetch.response data)).display = s.display ∧
      (resetSimulation s (Fetch.response data)).chartData = s.chartData) ∧
    viewConsistent steppedStar ∧
    ¬ viewConsistent (selectVizType steppedStar VizType.twoD) ∧
    (resetSimulation (selectVizType steppedStar VizType.twoD)
      (Fetch.response errorResponse)).display.timeStep = 1 ∧
    (resetSimulation (selectVizType steppedStar VizType.twoD)
      (Fetch.response errorResponse)).display.infectedCount = 2 ∧
    (resetSimulation (selectVizType steppedStar VizType.twoD)
      (Fetch.response errorResponse)).chartData
      = { timeSteps := [0, 1], infected := [0, 2], healthy := [5, 3] } := by
  refine ⟨?_, ?_, ?_, by decide, by decide, by decide, by decide, by decide⟩
  · intro s g data hg
    obtain ⟨hb1, hb2, _, _, hb5, hb6⟩ := resetSimulation_begin_frame s
    have hgb : (resetSimulation_begin s).graphData = some g := hb2.trans hg
    unfold resetSimulation
    generalize resetSimulation_begin s = b at hb1 hgb
    by_cases hc : viewConsistent b
    · obtain ⟨u, hu, heq⟩ := resetSimulation_complete_returned b g data hgb hc
      rw [heq]
      obtain ⟨f1, _, _, f4, _⟩ := updateStats_frame u
        { total_nodes := (clearInfected g).nodes.length, infected_count := 0,
          healthy_count := (clearInfected g).nodes.length, time_step := 0 }
      obtain ⟨u1, _⟩ := updateGraph_frame hu
      refine ⟨clearInfected g, ?_, rfl, forall₂_clearInfected g, ?_⟩
      · show (updateStats _ _).graphData = _
        rw [f4, updateGraph_graphData hu]
      · show (updateStats _ _).isAutoPlaying = false
        rw [f1, u1]
        exact hb1
    · rw [resetSimulation_complete_threw b g data hgb hc]
      exact ⟨clearInfected g, rfl, rfl, forall₂_clearInfected g, hb1⟩
  · intro s g data hg hcs
    obtain ⟨_, hb2, _, _, hb5, hb6⟩ := resetSimulation_begin_frame s
    have hgb : (resetSimulation_begin s).graphData = some g := hb2.trans hg
    have hc : viewConsistent (resetSimulation_begin s) := by
      unfold viewConsistent at *
      rw [hb5, hb6]
      exact hcs
    unfold resetSimulation
    generalize resetSimulation_begin s = b at hgb hc
    obtain ⟨u, hu, heq⟩ := resetSimulation_complete_returned b g data hgb hc
    rw [heq]
    obtain ⟨_, _, _, _, f5⟩ := updateStats_frame u
      { total_nodes := (clearInfected g).nodes.length, infected_count := 0,
        healthy_count := (clearInfected g).nodes.length, time_step := 0 }
    refine ⟨?_, ?_, ?_⟩
    · show (updateStats _ _).display.timeStep = 0
      rw [f5]
    · show (updateStats _ _).display.infectedCount = 0
      rw [f5]
    · simp [clearInfected]
  · intro s g data hg hcs
    obtain ⟨_, hb2, hb3, hb4, hb5, hb6⟩ := resetSimulation_begin_frame s
    have hgb : (resetSimulation_begin s).graphData = some g := hb2.trans hg
    have hc : ¬ viewConsistent (resetSimulation_begin s) := by
      unfold viewConsistent at *
      rw [hb5, hb6]
      exact hcs
    unfold resetSimulation
    generalize resetSimulation_begin s = b at hgb hc hb3 hb4
    rw [resetSimulation_complete_threw b g data hgb hc]
    exact ⟨hb4, hb3⟩

/-- Instance of C7 on a scene that matches the view type: the star after a start
and a step, auto-play running; the reset ends on the baseline. -/
theorem resetSimulation_baseline_star :
    (resetSimulation steppedStar (Fetch.response errorResponse)).display.timeStep = 0 ∧
    (resetSimulation steppedStar (Fetch.response errorResponse)).display.infectedCount = 0 ∧
    (resetSimulation steppedStar (Fetch.response errorResponse)).chartData
      = { timeSteps := [0], infected := [0],
          healthy := [(steppedStar.graphData.getD starGraph).nodes.length] } :=
  resetSimulation_baseline.2.1 steppedStar (steppedStar.graphData.getD starGraph) errorResponse
    (by decide) (by decide)

theorem simulationStep_returned_eq (s : State) (data : ApiResponse)
    (hst : data.status = Status.success) (hover : data.step_result.is_outbreak_over = true)
    (hc : s.graphData = none ∨ viewConsistent s) :
    simulationStep s (Fetch.response data)
      = if (updateStats (updateInfectionState s data.infection_state).state
              data.statistics).isAutoPlaying
        then toggleAutoPlay
          (updateStats (updateInfectionState s data.infection_state).state data.statistics)
        else updateStats (updateInfectionState s data.infection_state).state data.statistics := by
  have hr := updateInfectionState_returned data.infection_state hc
  generalize (updateInfectionState s data.infection_state).state = u at hr
  simp only [simulationStep, hst, hover, if_true, hr]

theorem simulationStep_threw_eq (s : State) (g : Graph) (data : ApiResponse)
    (hst : data.status = Status.success) (hg : s.graphData = some g)
    (hc : ¬ viewConsistent s) :
    simulationStep s (Fetch.response data)
      = (updateInfectionState s data.infection_state).state := by
  have hr := updateInfectionState_threw data.infection_state hg hc
  generalize (updateInfectionState s data.infection_state).state = u at hr
  simp only [simulationStep, hst, hr]

theorem update_frame (s : State) (snap : InfectionState) (stats : Statistics) :
    (updateStats (updateInfectionState s snap).state stats).isAutoPlaying = s.isAutoPlaying ∧
    (updateStats (updateInfectionState s snap).state stats).autoPlayInterval
      = s.autoPlayInterval ∧
    (updateStats (updateInfectionState s snap).state stats).timers = s.timers := by
  obtain ⟨a1, a2, a3, _⟩ := updateStats_frame (updateInfectionState s snap).state stats
  obtain ⟨b1, b2, b3, _⟩ := updateInfectionState_frame s snap
  exact ⟨a1.trans b1, a2.trans b2, a3.trans b3⟩

/-- C8: a `simulationStep` whose response has status success and
`is_outbreak_over = true`.  When no graph is loaded or `nodeObjects` holds the
kind of object the current view type works on: if auto-play is on, the step
ends with `isAutoPlaying` false after exactly one timer call, `clearInterval`
of the stored handle, so that the interval that was live is no longer live; if
auto-play is off, it stays off and the timers are untouched.  When a graph is
loaded and `nodeObjects` holds the other kind of object, `updateInfectionState`
(line 178) throws, line 184 is not reached, and the auto-play flag and the
timers stay as they were: on the started star, once line 64 has switched
`currentVizType` to `'2d'` for a request that has not succeeded, auto-play is
still on after the step and interval 1 is still live. -/
theorem simulationStep_outbreak_over :
    (∀ (s : State) (data : ApiResponse), data.status = Status.success →
      data.step_result.is_outbreak_over = true →
      (s.graphData = none ∨ viewConsistent s) →
      (s.isAutoPlaying = true →
        (simulationStep s (Fetch.response data)).isAutoPlaying = false ∧
        (simulationStep s (Fetch.response data)).timers.calls
          = s.timers.calls ++ [TimerCall.clearInterval s.autoPlayInterval] ∧
        (∀ h, s.autoPlayInterval = some h → s.timers.active = [h] →
          (simulationStep s (Fetch.response data)).timers.active = [])) ∧
      (s.isAutoPlaying = false →
        (simulationStep s (Fetch.response data)).isAutoPlaying = false ∧
        (simulationStep s (Fetch.response data)).autoPlayInterval = s.autoPlayInterval ∧
        (simulationStep s (Fetch.response data)).timers = s.timers)) ∧
    (∀ (s : State) (g : Graph) (data : ApiResponse), data.status = Status.success →
      s.graphData = some g → ¬ viewConsistent s →
      (simulationStep s (Fetch.response data)).isAutoPlaying = s.isAutoPlaying ∧
      (simulationStep s (Fetch.response data)).autoPlayInterval = s.autoPlayInterval ∧
      (simulationStep s (Fetch.response data)).timers = s.timers) ∧
    (selectVizType startedStar VizType.twoD).isAutoPlaying = true ∧
    (selectVizType startedStar VizType.twoD).timers.active = [1] ∧
    ¬ viewConsistent (selectVizType startedStar VizType.twoD) ∧
    (simulationStep (selectVizType startedStar VizType.twoD)
      (Fetch.response (successResponse []
        { time_step := 1, total_nodes := 5, infected_count := 1, healthy_count := 4 }
        true))).isAutoPlaying = true ∧
    (simulationStep (selectVizType startedStar VizType.twoD)
      (Fetch.response (successResponse []
        { time_step := 1, total_nodes := 5, infected_count := 1, healthy_count := 4 }
        true))).timers = (selectVizType startedStar VizType.twoD).timers := by
  refine ⟨?_, ?_, by decide, by decide, by decide, by decide, by decide⟩
  · intro s data hst hover hc
    rw [simulationStep_returned_eq s data hst hover hc]
    obtain ⟨f1, f2, f3⟩ := update_frame s data.infection_state data.statistics
    generalize updateStats (updateInfectionState s data.infection_state).state data.statistics
      = s1 at f1 f2 f3
    constructor
    · intro hon
      have h1 : s1.isAutoPlaying = true := f1.trans hon
      rw [if_pos h1]
      refine ⟨?_, ?_, ?_⟩
      · simp [toggleAutoPlay, h1]
      · simp [toggleAutoPlay, h1, Timers.clearInterval, f2, f3]
      · intro h hh hact
        simp [toggleAutoPlay, h1, Timers.clearInterval, f2, f3, hh, hact]
    · intro hoff
      have h1 : s1.isAutoPlaying = false := f1.trans hoff
      rw [h1]
      exact ⟨h1, f2, f3⟩
  · intro s g data hst hg hc
    rw [simulationStep_threw_eq s g data hst hg hc]
    obtain ⟨b1, b2, b3, _⟩ := updateInfectionState_frame s data.infection_state
    exact ⟨b1, b2, b3⟩

/-- Instance of C8 on a scene that matches the view type: the started star,
auto-play running on interval 1; the step that ends the outbreak stops it. -/
theorem simulationStep_outbreak_over_star :
    (simulationStep startedStar (Fetch.response (successResponse []
        { time_step := 1, total_nodes := 5, infected_count := 1, healthy_count := 4 }
        true))).isAutoPlaying = false ∧
    (simulationStep startedStar (Fetch.response (successResponse []
        { time_step := 1, total_nodes := 5, infected_count := 1, healthy_count := 4 }
        true))).timers.calls
      = startedStar.timers.calls ++ [TimerCall.clearInterval startedStar.autoPlayInterval] ∧
    (simulationStep startedStar (Fetch.response (successResponse []
        { time_step := 1, total_nodes := 5, infected_count := 1, healthy_count := 4 }
        true))).timers.active = [] := by
  obtain ⟨h1, h2, h3⟩ := (simulationStep_outbreak_over.1 startedStar (successResponse []
    { time_step := 1, total_nodes := 5, infected_count := 1, healthy_count := 4 } true)
    rfl rfl (by decide)).1 (by decide)
  exact ⟨h1, h2, h3 1 (by decide) (by decide)⟩

theorem timersConsistent_congr {s s' : State} (h1 : s'.isAutoPlaying = s.isAutoPlaying)
    (h2 : s'.autoPlayInterval = s.autoPlayInterval) (h3 : s'.timers = s.timers)
    (h : timersConsistent s) : timersConsistent s' := by
  unfold timersConsistent at *
  rw [h1, h2, h3]
  exact h

theorem timersConsistent_toggleAutoPlay {s : State} (h : timersConsistent s) :
    timersConsistent (toggleAutoPlay s) := by
  obtain ⟨hon, hoff, hcalls⟩ := h
  cases hp : s.isAutoPlaying with
  | false =>
    have hact := hoff hp
    refine ⟨fun _ => ⟨s.timers.next, ?_, ?_⟩, fun hf => ?_, ?_⟩
    · simp [toggleAutoPlay, hp, Timers.setInterval]
    · simp [toggleAutoPlay, hp, Timers.setInterval, hact]
    · simp [toggleAutoPlay, hp] at hf
    · intro h k hmem
      simp only [toggleAutoPlay, hp, Timers.setInterval, Bool.not_false, if_true,
        List.mem_append, List.mem_singleton, TimerCall.setInterval.injEq, hact,
        List.length_nil] at hmem
      rcases hmem with hm | hm
      · exact hcalls h k hm
      · exact hm.2
  | true =>
    obtain ⟨h0, hh, hact⟩ := hon hp
    refine ⟨fun ht => ?_, fun _ => ?_, ?_⟩
    · simp [toggleAutoPlay, hp] at ht
    · simp [toggleAutoPlay, hp, Timers.clearInterval, hh, hact]
    · intro h k hmem
      simp [toggleAutoPlay, hp, Timers.clearInterval] at hmem
      exact hcalls h k hmem

theorem timersConsistent_outcome {s : State} (snap : InfectionState)
    (h : timersConsistent s) : timersConsistent (updateInfectionState s snap).state := by
  obtain ⟨b1, b2, b3, _⟩ := updateInfectionState_frame s snap
  exact timersConsistent_congr b1 b2 b3 h

theorem timersConsistent_updateStats {s : State} (stats : Statistics)
    (h : timersConsistent s) : timersConsistent (updateStats s stats) := by
  obtain ⟨a1, a2, a3, _⟩ := updateStats_frame s stats
  exact timersConsistent_congr a1 a2 a3 h

theorem resetSimulation_complete_frame (s : State) (r : Fetch) :
    (resetSimulation_complete s r).isAutoPlaying = s.isAutoPlaying ∧
    (resetSimulation_complete s r).autoPlayInterval = s.autoPlayInterval ∧
    (resetSimulation_complete s r).timers = s.timers := by
  cases r with
  | failed => exact ⟨rfl, rfl, rfl⟩
  | response data =>
    cases hg : s.graphData with
    | none => simp [resetSimulation_complete, hg]
    | some g =>
      by_cases hc : viewConsistent s
      · obtain ⟨u, hu, heq⟩ := resetSimulation_complete_returned s g data hg hc
        rw [heq]
        obtain ⟨f1, f2, f3, _⟩ := updateStats_frame u
          { total_nodes := (clearInfected g).nodes.length, infected_count := 0,
            healthy_count := (clearInfected g).nodes.length, time_step := 0 }
        obtain ⟨u1, u2, u3, _⟩ := updateGraph_frame hu
        exact ⟨f1.trans u1, f2.trans u2, f3.trans u3⟩
      · rw [resetSimulation_complete_threw s g data hg hc]
        exact ⟨rfl, rfl, rfl⟩

theorem timersConsistent_runCall {s : State} (c : Call) (h : timersConsistent s) :
    timersConsistent (runCall s c) := by
  cases c with
  | toggleAutoPlay => exact timersConsistent_toggleAutoPlay h
  | startSimulation r =>
    cases r with
    | failed => exact h
    | response data =>
      cases hst : data.status with
      | success =>
        have ho := timersConsistent_outcome data.infection_state h
        simp only [runCall, startSimulation, hst]
        cases hu : updateInfectionState s data.infection_state with
        | returned u =>
          rw [hu] at ho
          exact timersConsistent_toggleAutoPlay (timersConsistent_updateStats _ ho)
        | threw u =>
          rw [hu] at ho
          exact ho
      | error => simp only [runCall, startSimulation, hst]; exact h
  | simulationStep r =>
    cases r with
    | failed => exact h
    | response data =>
      cases hst : data.status with
      | success =>
        have ho := timersConsistent_outcome data.infection_state h
        simp only [runCall, simulationStep, hst]
        cases hu : updateInfectionState s data.infection_state with
        | returned u =>
          rw [hu] at ho
          have hu' := timersConsistent_updateStats data.statistics ho
          dsimp only
          split_ifs
          · exact timersConsistent_toggleAutoPlay hu'
          · exact hu'
          · exact hu'
        | threw u =>
          rw [hu] at ho
          exact ho
      | error => simp only [runCall, simulationStep, hst]; exact h
  | infectNode nodeId r =>
    cases r with
    | failed => exact h
    | response data =>
      cases hst : data.status with
      | success =>
        have ho := timersConsistent_outcome data.infection_state h
        simp only [runCall, infectNode, hst]
        cases hu : updateInfectionState s data.infection_state with
        | returned u =>
          rw [hu] at ho
          exact timersConsistent_updateStats _ ho
        | threw u =>
          rw [hu] at ho
          exact ho
      | error => simp only [runCall, infectNode, hst]; exact h
  | resetSimulation r =>
    simp only [runCall, resetSimulation]
    obtain ⟨f1, f2, f3⟩ := resetSimulation_complete_frame (resetSimulation_begin s) r
    refine timersConsistent_congr f1 f2 f3 ?_
    unfold resetSimulation_begin
    split_ifs
    · exact timersConsistent_toggleAutoPlay h
    · exact h
  | resetBegin =>
    simp only [runCall, resetSimulation_begin]
    split_ifs
    · exact timersConsistent_toggleAutoPlay h
    · exact h
  | resetComplete r =>
    obtain ⟨f1, f2, f3⟩ := resetSimulation_complete_frame s r
    exact timersConsistent_congr f1 f2 f3 h

theorem timersConsistent_runCalls {s : State} (calls : List Call) (h : timersConsistent s) :
    timersConsistent (runCalls s calls) := by
  unfold runCalls
  induction calls generalizing s with
  | nil => exact h
  | cons c rest ih =>
    rw [List.foldl_cons]
    exact ih (timersConsistent_runCall c h)

/-- C9: from a state with auto-play off, no live interval and no timer call yet
(such as the initial state), after any sequence of `toggleAutoPlay`,
`startSimulation`, `simulationStep`, `infectNode` and `resetSimulation` events
with any request outcomes (the two halves of `resetSimulation` may even be
separated by other events), at most one interval is live, one is live exactly
when `isAutoPlaying` is true, it is then the one `autoPlayInterval` names, and
every `setInterval` call was made while no interval was live. -/
theorem autoPlay_single_interval (s0 : State) (calls : List Call)
    (h1 : s0.isAutoPlaying = false) (h2 : s0.timers.active = []) (h3 : s0.timers.calls = []) :
    (runCalls s0 calls).timers.active.length ≤ 1 ∧
    ((runCalls s0 calls).timers.active.length = 1 ↔ (runCalls s0 calls).isAutoPlaying = true) ∧
    ((runCalls s0 calls).isAutoPlaying = true →
      ∃ h, (runCalls s0 calls).autoPlayInterval = some h ∧
        (runCalls s0 calls).timers.active = [h]) ∧
    (∀ h k, TimerCall.setInterval h k ∈ (runCalls s0 calls).timers.calls → k = 0) := by
  have h0 : timersConsistent s0 := by
    refine ⟨fun ht => ?_, fun _ => h2, fun h k hm => ?_⟩
    · rw [h1] at ht; cases ht
    · rw [h3] at hm; cases hm
  obtain ⟨hon, hoff, hcalls⟩ := timersConsistent_runCalls calls h0
  generalize runCalls s0 calls = s at hon hoff hcalls
  cases hp : s.isAutoPlaying with
  | false =>
    have := hoff hp
    refine ⟨?_, ?_, ?_, hcalls⟩
    · simp [this]
    · simp [this]
    · intro ht; cases ht
  | true =>
    obtain ⟨h, hh, hact⟩ := hon hp
    refine ⟨?_, ?_, ?_, hcalls⟩
    · simp [hact]
    · simp [hact]
    · intro _; exact ⟨h, hh, hact⟩

/-- Witness for C9: from the initial state, toggle, a successful start, a failed
step, a step that ends the outbreak, a toggle and a reset. -/
theorem autoPlay_single_interval_init :
    (runCalls State.init
      [Call.toggleAutoPlay,
       Call.startSimulation (Fetch.response (successResponse []
         { time_step := 0, total_nodes := 0, infected_count := 0, healthy_count := 0 } false)),
       Call.simulationStep Fetch.failed, Call.toggleAutoPlay,
       Call.simulationStep (Fetch.response (successResponse []
         { time_step := 1, total_nodes := 0, infected_count := 0, healthy_count := 0 } true)),
       Call.toggleAutoPlay,
       Call.resetSimulation (Fetch.response errorResponse)]).timers.active.length ≤ 1 :=
  (autoPlay_single_interval State.init _ rfl rfl rfl).1

/-- C10 (as amended): when the request fails in transport or the service
answers with a non-success status, `startSimulation`, `simulationStep` and
`infectNode` leave the whole state as it was, in particular every node's
`infected` flag, the chart series and the auto-play flag.  When the request of
`resetSimulation` fails in transport, `graphData` and `chartData` are as before
and `isAutoPlaying` is false, auto-play having been stopped before the request
was sent. -/
theorem failed_request_frame (s : State) (nodeId : NodeId) (data : ApiResponse)
    (hst : data.status = Status.error) :
    startSimulation s Fetch.failed = s ∧
    startSimulation s (Fetch.response data) = s ∧
    simulationStep s Fetch.failed = s ∧
    simulationStep s (Fetch.response data) = s ∧
    infectNode s nodeId Fetch.failed = s ∧
    infectNode s nodeId (Fetch.response data) = s ∧
    (resetSimulation s Fetch.failed).graphData = s.graphData ∧
    (resetSimulation s Fetch.failed).chartData = s.chartData ∧
    (resetSimulation s Fetch.failed).isAutoPlaying = false ∧
    (s.isAutoPlaying = false → resetSimulation s Fetch.failed = s) := by
  obtain ⟨hb1, hb2, hb3, _⟩ := resetSimulation_begin_frame s
  refine ⟨rfl, ?_, rfl, ?_, rfl, ?_, hb2, hb3, hb1, ?_⟩
  · simp only [startSimulation, hst]
  · simp only [simulationStep, hst]
  · simp only [infectNode, hst]
  · intro hoff
    simp [resetSimulation, resetSimulation_complete, resetSimulation_begin, hoff]

/-- Witness for C10 (amended): the stepped star and a non-success response. -/
theorem failed_request_frame_star :
    startSimulation steppedStar (Fetch.response errorResponse) = steppedStar ∧
    simulationStep steppedStar (Fetch.response errorResponse) = steppedStar ∧
    infectNode steppedStar 3 (Fetch.response errorResponse) = steppedStar ∧
    (resetSimulation steppedStar Fetch.failed).graphData = steppedStar.graphData ∧
    (resetSimulation steppedStar Fetch.failed).chartData = steppedStar.chartData ∧
    (resetSimulation steppedStar Fetch.failed).isAutoPlaying = false := by
  obtain ⟨_, h2, _, h4, _, h6, h7, h8, h9, _⟩ :=
    failed_request_frame steppedStar 3 errorResponse rfl
  exact ⟨h2, h4, h6, h7, h8, h9⟩

/-- Counterexample to C10 as stated, on the star after a start and a step
(auto-play on, nodes 1 and 2 infected, two chart points): a `resetSimulation`
whose request fails in transport leaves `isAutoPlaying` false, and one whose
response has a non-success status clears the infected flags and resets the
chart to a single point. -/
theorem resetSimulation_failure_changes_state :
    steppedStar.isAutoPlaying = true ∧
    (resetSimulation steppedStar Fetch.failed).isAutoPlaying = false ∧
    errorResponse.status = Status.error ∧
    steppedStar.graphData.map (fun g => g.nodes.map (fun node => node.infected))
      = some [false, true, true, false, false] ∧
    (resetSimulation steppedStar (Fetch.response errorResponse)).graphData.map
        (fun g => g.nodes.map (fun node => node.infected))
      = some [false, false, false, false, false] ∧
    steppedStar.chartData = { timeSteps := [0, 1], infected := [0, 2], healthy := [5, 3] } ∧
    (resetSimulation steppedStar (Fetch.response errorResponse)).chartData
      = { timeSteps := [0], infected := [0], healthy := [5] } := by
  decide

/-! ## Pointer click -/

theorem hovered_setGraphData (s : State) (g : Graph)
    (h : s.hoveredNode = none ∨ s.hovered ≠ none) :
    (setGraphData s g).hovered = s.hovered := by
  cases hh : s.hoveredNode with
  | none => simp [State.hovered, setGraphData, hh]
  | some r =>
    cases r with
    | stale nd => simp [State.hovered, setGraphData, hh, NodeRef.retire]
    | current i =>
      cases hg : s.graphData with
      | none =>
        have hnone : s.hovered = none := by simp [State.hovered, hh, hg]
        rcases h with h | h
        · rw [hh] at h; cases h
        · exact absurd hnone h
      | some g0 =>
        cases hn : g0.nodes.get? i with
        | none =>
          have hnone : s.hovered = none := by
            simp only [State.hovered, hh, hg]
            exact hn
          rcases h with h | h
          · rw [hh] at h; cases h
          · exact absurd hnone h
        | some nd =>
          simp only [State.hovered, setGraphData, hh, hg, Option.map_some', NodeRef.retire, hn]

/-- C11: `onMouseClick` calls `infectNode(hoveredNode.id)` exactly when the
active view is 3D, a node is hovered, that node is not infected and auto-play
is off; the handler itself writes no global, so when the call is not made the
state after the click is the state before it, whatever the service would have
answered.  The hovered node is the node object `hoveredNode` refers to: its id
and its `infected` flag are those of that object, also after `graphData` has
been assigned another graph. -/
theorem onMouseClick_guard (s : State) (nodeId : NodeId) :
    (onMouseClick_request s = some nodeId ↔
      s.currentVizType = VizType.threeD ∧
      (∃ node, s.hovered = some node ∧ node.id = nodeId ∧ node.infected = false) ∧
      s.isAutoPlaying = false) ∧
    (∀ r, onMouseClick s r =
      match onMouseClick_request s with
      | some k => infectNode s k r
      | none => s) ∧
    ((s.currentVizType ≠ VizType.threeD ∨ s.hovered = none ∨
        (∃ node, s.hovered = some node ∧ node.infected = true) ∨ s.isAutoPlaying = true) →
      onMouseClick_request s = none ∧ ∀ r, onMouseClick s r = s) ∧
    (∀ g : Graph, (s.hoveredNode = none ∨ s.hovered ≠ none) →
      (loadGraph3D s g).hovered = s.hovered) := by
  have hnone : ∀ (hreq : onMouseClick_request s = none) (r : Fetch), onMouseClick s r = s := by
    intro hreq r
    simp only [onMouseClick, hreq]
  refine ⟨?_, fun r => rfl, ?_, ?_⟩
  · unfold onMouseClick_request
    cases hh : s.hovered with
    | none => simp
    | some node =>
      simp only [Option.some.injEq, exists_eq_left']
      cases hv : s.currentVizType <;> cases hi : node.infected <;>
        cases hp : s.isAutoPlaying <;> simp
  · intro h
    have hreq : onMouseClick_request s = none := by
      unfold onMouseClick_request
      cases hh : s.hovered with
      | none => rfl
      | some node =>
        rw [hh] at h
        have hc : s.currentVizType ≠ VizType.threeD ∨ node.infected = true ∨
            s.isAutoPlaying = true := by
          rcases h with h | h | ⟨nd, hnd, hinf⟩ | h
          · exact Or.inl h
          · cases h
          · cases hnd
            exact Or.inr (Or.inl hinf)
          · exact Or.inr (Or.inr h)
        simp only [if_pos hc]
    exact ⟨hreq, hnone hreq⟩
  · intro g h
    have h1 : (loadGraph3D s g).hovered
        = (setGraphData { s with currentVizType := VizType.threeD } g).hovered := by
      unfold loadGraph3D renderGraph3D
      split <;> rfl
    rw [h1]
    exact hovered_setGraphData { s with currentVizType := VizType.threeD } g h

/-- Witness for C11: over the healthy node 3 of the star with auto-play stopped
the click requests `infectNode(3)`; with auto-play running it requests nothing
and leaves the state as it is; and once node 3 has been infected and the
network generated again with the pointer still on that sphere, the click
requests nothing although node 3 of the new graph is healthy. -/
theorem onMouseClick_guard_star :
    onMouseClick_request hoveringStar = some 3 ∧
    (onMouseClick_request { startedStar with hoveredNode := some (NodeRef.current 3) } = none ∧
      ∀ r, onMouseClick { startedStar with hoveredNode := some (NodeRef.current 3) } r
        = { startedStar with hoveredNode := some (NodeRef.current 3) }) ∧
    hoveringReloaded.graphData = some starGraph ∧
    (onMouseClick_request hoveringReloaded = none ∧
      ∀ r, onMouseClick hoveringReloaded r = hoveringReloaded) :=
  ⟨(onMouseClick_guard hoveringStar 3).1.mpr
      ⟨by decide, ⟨exampleNode 3, by decide, rfl, rfl⟩, by decide⟩,
   (onMouseClick_guard { startedStar with hoveredNode := some (NodeRef.current 3) } 3).2.2.1
      (Or.inr (Or.inr (Or.inr (by decide)))),
   by decide,
   (onMouseClick_guard hoveringReloaded 3).2.2.1
      (Or.inr (Or.inr (Or.inl ⟨{ exampleNode 3 with infected := true }, by decide, rfl⟩)))⟩

/-! ## 3D layout: divisions -/

theorem springDist_ne_zero {K : Type} [Field K] [DecidableEq K] (sqrt : K → K) (dx dy dz : K) :
    springDist sqrt dx dy dz ≠ 0 := by
  unfold springDist
  split_ifs with h
  · exact one_ne_zero
  · exact h

theorem springForce_eq {K : Type} [Field K] [DecidableEq K] [CharZero K] (sqrt : K → K)
    (source target : Position K) :
    springForce sqrt source target
      = (0.015 * (target.x - source.x), 0.015 * (target.y - source.y),
         0.015 * (target.z - source.z)) := by
  have hd := springDist_ne_zero sqrt (target.x - source.x) (target.y - source.y)
    (target.z - source.z)
  simp only [springForce, Prod.mk.injEq]
  refine ⟨?_, ?_, ?_⟩ <;> field_simp <;> ring

theorem at_eq_some {K : Type} {positions : Positions K} {e : Endpoint} {p : Position K}
    (h : positions.at e = some p) : ∃ n, e = Endpoint.id n ∧ positions n = some p := by
  cases e with
  | id n => exact ⟨n, rfl, h⟩
  | node nd => cases h

theorem modify_id_apply {K : Type} (positions : Positions K) (n k : NodeId)
    (f : Position K → Position K) :
    (positions.modify (Endpoint.id n) f) k = if k = n then (positions k).map f else positions k :=
  rfl

theorem springLink_eq {K : Type} [Field K] [DecidableEq K] (sqrt : K → K)
    (positions : Positions K) (link : Link) (source target : Position K)
    (hs : positions.at (endpointId link.source) = some source)
    (ht : positions.at (endpointId link.target) = some target) :
    springLink sqrt positions link
      = some ((positions.modify (endpointId link.source)
          (fun pos => { pos with
            vx := pos.vx + (springForce sqrt source target).1
            vy := pos.vy + (springForce sqrt source target).2.1
            vz := pos.vz + (springForce sqrt source target).2.2 })).modify
          (endpointId link.target)
          (fun pos => { pos with
            vx := pos.vx - (springForce sqrt source target).1
            vy := pos.vy - (springForce sqrt source target).2.1
            vz := pos.vz - (springForce sqrt source target).2.2 })) := by
  simp only [springLink, hs, ht]

theorem option_map_eq_self {α : Type} (f : α → α) (o : Option α) (h : ∀ a, f a = a) :
    o.map f = o := by
  cases o with
  | none => rfl
  | some a => simp [h]

/-- C12: every divisor of `calculatePositions3D` is non-zero, whatever the
positions: `dist` (a square root of 0 is replaced by 1) and `iterations`.  A
link whose endpoints have an entry at the same position, a self-loop in
particular, has `fx = fy = fz = 0` and leaves every entry of `positions`,
velocity accumulators included, as it was. -/
theorem spring_division_safe {K : Type} [Field K] [DecidableEq K] [CharZero K] :
    (∀ (sqrt : K → K) (dx dy dz : K), springDist sqrt dx dy dz ≠ 0) ∧
    ((iterations : K) ≠ 0) ∧
    (∀ (sqrt : K → K) (positions : Positions K) (link : Link) (source target : Position K),
      positions.at (endpointId link.source) = some source →
      positions.at (endpointId link.target) = some target →
      source.x = target.x → source.y = target.y → source.z = target.z →
      springForce sqrt source target = (0, 0, 0) ∧
      ∃ pulled, springLink sqrt positions link = some pulled ∧ ∀ k, pulled k = positions k) ∧
    (∀ (sqrt : K → K) (positions : Positions K) (link : Link) (source : Position K),
      endpointId link.source = endpointId link.target →
      positions.at (endpointId link.source) = some source →
      ∃ pulled, springLink sqrt positions link = some pulled ∧ ∀ k, pulled k = positions k) := by
  have hco : ∀ (sqrt : K → K) (positions : Positions K) (link : Link) (source target : Position K),
      positions.at (endpointId link.source) = some source →
      positions.at (endpointId link.target) = some target →
      source.x = target.x → source.y = target.y → source.z = target.z →
      springForce sqrt source target = (0, 0, 0) ∧
      ∃ pulled, springLink sqrt positions link = some pulled ∧ ∀ k, pulled k = positions k := by
    intro sqrt positions link source target hs ht hx hy hz
    have hf : springForce sqrt source target = (0, 0, 0) := by
      rw [springForce_eq, hx, hy, hz]
      simp
    refine ⟨hf, _, springLink_eq sqrt positions link source target hs ht, ?_⟩
    obtain ⟨a, ha, _⟩ := at_eq_some hs
    obtain ⟨b, hb, _⟩ := at_eq_some ht
    intro k
    rw [hf, ha, hb, modify_id_apply, modify_id_apply]
    have hz1 : ∀ p : Position K,
        ({ p with vx := p.vx + 0, vy := p.vy + 0, vz := p.vz + 0 } : Position K) = p := by
      intro p; ext <;> simp
    have hz2 : ∀ p : Position K,
        ({ p with vx := p.vx - 0, vy := p.vy - 0, vz := p.vz - 0 } : Position K) = p := by
      intro p; ext <;> simp
    simp only [hz1, hz2, Option.map_id', ite_self]
  refine ⟨springDist_ne_zero, ?_, hco, ?_⟩
  · simp [iterations]
  · intro sqrt positions link source hst hs
    exact (hco sqrt positions link source source hs (hst ▸ hs) rfl rfl rfl).2

/-- Witness for C12: over the rationals, a self-loop on node 0 and a link
between two nodes that sit at the same point. -/
theorem spring_division_safe_coincident :
    (∃ pulled, springLink (K := Rat) (fun q => q) (fun _ => some ⟨1, 2, 3, 0, 0, 0⟩)
        (rawLink 0 0) = some pulled ∧
      ∀ k, pulled k = (fun _ => some (⟨1, 2, 3, 0, 0, 0⟩ : Position Rat)) k) ∧
    (springForce (K := Rat) (fun q => q) ⟨1, 2, 3, 0, 0, 0⟩ ⟨1, 2, 3, 5, 5, 5⟩ = (0, 0, 0)) :=
  ⟨spring_division_safe.2.2.2 (fun q => q) (fun _ => some ⟨1, 2, 3, 0, 0, 0⟩) (rawLink 0 0)
      ⟨1, 2, 3, 0, 0, 0⟩ rfl rfl,
   (spring_division_safe.2.2.1 (fun q => q)
      (fun k => if k = 0 then some ⟨1, 2, 3, 0, 0, 0⟩ else some ⟨1, 2, 3, 5, 5, 5⟩) (rawLink 0 1)
      ⟨1, 2, 3, 0, 0, 0⟩ ⟨1, 2, 3, 5, 5, 5⟩ rfl rfl rfl rfl rfl).1⟩

/-! ## 3D layout: spring forces of one iteration -/

theorem pullOfLink_of_at {K : Type} [Field K] (c : Position K → K) (positions : Positions K)
    (k : NodeId) (link : Link) (source target : Position K)
    (hs : positions.at (endpointId link.source) = some source)
    (ht : positions.at (endpointId link.target) = some target) :
    pullOfLink c positions k link
      = (if endpointId link.source = Endpoint.id k then c target - c source else 0) +
        (if endpointId link.target = Endpoint.id k then c source - c target else 0) := by
  simp only [pullOfLink, hs, ht, Option.map_some']

theorem pull_congr {K : Type} [Field K] (c : Position K → K) (P Q : Positions K)
    (h : ∀ e, (P.at e).map c = (Q.at e).map c) (links : List Link) (k : NodeId) :
    pull c P links k = pull c Q links k := by
  unfold pull
  congr 1
  apply List.map_congr_left
  intro link _
  simp only [pullOfLink, h]

/-- The entry of a node after a link has pulled on it. -/
theorem springLink_apply {K : Type} [Field K] [DecidableEq K] [CharZero K] (sqrt : K → K)
    (positions : Positions K) (link : Link)
    (hs : (positions.at (endpointId link.source)).isSome = true)
    (ht : (positions.at (endpointId link.target)).isSome = true) :
    ∃ pulled, springLink sqrt positions link = some pulled ∧
      ∀ k, pulled k = (positions k).map (fun pos => { pos with
        vx := pos.vx + 0.015 * pullOfLink Position.x positions k link
        vy := pos.vy + 0.015 * pullOfLink Position.y positions k link
        vz := pos.vz + 0.015 * pullOfLink Position.z positions k link }) := by
  obtain ⟨source, hs⟩ := Option.isSome_iff_exists.mp hs
  obtain ⟨target, ht⟩ := Option.isSome_iff_exists.mp ht
  refine ⟨_, springLink_eq sqrt positions link source target hs ht, ?_⟩
  obtain ⟨a, ha, hpa⟩ := at_eq_some hs
  obtain ⟨b, hb, hpb⟩ := at_eq_some ht
  intro k
  rw [pullOfLink_of_at _ _ _ _ _ _ hs ht, pullOfLink_of_at _ _ _ _ _ _ hs ht,
    pullOfLink_of_at _ _ _ _ _ _ hs ht, springForce_eq, ha, hb, modify_id_apply,
    modify_id_apply]
  simp only [Endpoint.id.injEq]
  by_cases hkb : k = b <;> by_cases hka : k = a
  · subst hkb; subst hka
    simp only [if_true, Option.map_map]
    congr 1
    funext pos
    ext <;> simp
  · subst hkb
    have hab : ¬ a = k := fun h => hka h.symm
    simp only [if_true, if_neg hka, if_neg hab]
    congr 1
    funext pos
    ext <;> simp <;> try ring
  · subst hka
    have hba : ¬ b = k := fun h => hkb h.symm
    simp only [if_true, if_neg hkb, if_neg hba]
    congr 1
    funext pos
    ext <;> simp
  · have hab : ¬ a = k := fun h => hka h.symm
    have hba : ¬ b = k := fun h => hkb h.symm
    simp only [if_neg hkb, if_neg hka, if_neg hab, if_neg hba]
    symm
    apply option_map_eq_self
    intro pos
    ext <;> simp

theorem at_map_coord {K : Type} {β : Type} (P Q : Positions K)
    (f : NodeId → Position K → Position K) (c : Position K → β)
    (h : ∀ k, Q k = (P k).map (f k)) (hc : ∀ k pos, c (f k pos) = c pos) (e : Endpoint) :
    (Q.at e).map c = (P.at e).map c := by
  cases e with
  | id n =>
    show (Q n).map c = (P n).map c
    rw [h n, Option.map_map]
    congr 1
    funext pos
    exact hc n pos
  | node nd => rfl

theorem at_isSome {K : Type} (P Q : Positions K) (f : NodeId → Position K → Position K)
    (h : ∀ k, Q k = (P k).map (f k)) (e : Endpoint) :
    (Q.at e).isSome = (P.at e).isSome := by
  cases e with
  | id n =>
    show (Q n).isSome = (P n).isSome
    rw [h n, Option.isSome_map']
  | node nd => rfl

theorem pull_cons {K : Type} [Field K] (c : Position K → K) (P : Positions K) (link : Link)
    (rest : List Link) (k : NodeId) :
    pull c P (link :: rest) k = pullOfLink c P k link + pull c P rest k := by
  simp [pull]

/-- The entries after the loop over the links: every velocity accumulator has
grown by 0.015 times the pull of all links on its node. -/
theorem springForces_apply {K : Type} [Field K] [DecidableEq K] [CharZero K] (sqrt : K → K)
    (links : List Link) (positions : Positions K) (hp : linksPlaced positions links) :
    ∃ pulled, springForces sqrt links positions = some pulled ∧
      ∀ k, pulled k = (positions k).map (fun pos => { pos with
        vx := pos.vx + 0.015 * pull Position.x positions links k
        vy := pos.vy + 0.015 * pull Position.y positions links k
        vz := pos.vz + 0.015 * pull Position.z positions links k }) := by
  induction links generalizing positions with
  | nil =>
    refine ⟨positions, rfl, fun k => ?_⟩
    symm
    apply option_map_eq_self
    intro pos
    ext <;> simp [pull]
  | cons link rest ih =>
    obtain ⟨hs, ht⟩ := hp link (List.mem_cons_self _ _)
    obtain ⟨P1, h1, hP1⟩ := springLink_apply sqrt positions link hs ht
    have hp1 : linksPlaced P1 rest := by
      intro l hl
      obtain ⟨a, b⟩ := hp l (List.mem_cons_of_mem _ hl)
      rw [at_isSome positions P1 _ hP1, at_isSome positions P1 _ hP1]
      exact ⟨a, b⟩
    obtain ⟨R, hR, hRk⟩ := ih P1 hp1
    refine ⟨R, ?_, ?_⟩
    · simp only [springForces, List.foldlM_cons, h1]
      exact hR
    · intro k
      have hx : pull Position.x P1 rest k = pull Position.x positions rest k :=
        pull_congr _ _ _ (at_map_coord positions P1 _ Position.x hP1 (fun _ _ => rfl)) rest k
      have hy : pull Position.y P1 rest k = pull Position.y positions rest k :=
        pull_congr _ _ _ (at_map_coord positions P1 _ Position.y hP1 (fun _ _ => rfl)) rest k
      have hz : pull Position.z P1 rest k = pull Position.z positions rest k :=
        pull_congr _ _ _ (at_map_coord positions P1 _ Position.z hP1 (fun _ _ => rfl)) rest k
      rw [hRk k, hP1 k, Option.map_map, hx, hy, hz, pull_cons, pull_cons, pull_cons]
      congr 1
      funext pos
      ext <;> simp <;> try ring

theorem foldl_modify_apply {K : Type} (f : Position K → Position K) (nodes : List Node)
    (hnd : (nodes.map (fun n => n.id)).Nodup) (positions : Positions K) (k : NodeId) :
    (nodes.foldl (fun acc node => acc.modify (Endpoint.id node.id) f) positions) k
      = (positions k).map (fun pos => if k ∈ nodes.map (fun n => n.id) then f pos else pos) := by
  induction nodes generalizing positions with
  | nil => simp
  | cons nd rest ih =>
    rw [List.map_cons, List.nodup_cons] at hnd
    rw [List.foldl_cons, ih hnd.2, modify_id_apply]
    by_cases hk : k = nd.id
    · subst hk
      simp only [if_true, if_neg hnd.1, List.map_cons, List.mem_cons, true_or, Option.map_map]
      rfl
    · simp only [if_neg hk, List.map_cons, List.mem_cons, hk, false_or, if_false]

/-- C14: in exact arithmetic.  (1) The force of a link is the vector
`0.015 × (target − source)`, of squared length `0.015² × distance²`.  (2) A link
between two different entries adds that vector to the accumulator of its source
and subtracts it from the accumulator of its target, and changes nothing else.
(3) One relaxation iteration, on a graph with unique node ids whose link
endpoints all have an entry, ends with every node's accumulator at `0.015 ×` the
sum over the links of (other endpoint − itself), read from the positions at the
start of the iteration, and has moved the node by `damping ×` that accumulator. -/
theorem relaxStep_spring {K : Type} [Field K] [DecidableEq K] [CharZero K] :
    (∀ (sqrt : K → K) (source target : Position K),
      springForce sqrt source target
        = (0.015 * (target.x - source.x), 0.015 * (target.y - source.y),
           0.015 * (target.z - source.z)) ∧
      (springForce sqrt source target).1 ^ 2 + (springForce sqrt source target).2.1 ^ 2 +
          (springForce sqrt source target).2.2 ^ 2
        = 0.015 ^ 2 * ((target.x - source.x) ^ 2 + (target.y - source.y) ^ 2 +
            (target.z - source.z) ^ 2)) ∧
    (∀ (sqrt : K → K) (positions : Positions K) (link : Link) (a b : NodeId)
        (source target : Position K),
      endpointId link.source = Endpoint.id a → endpointId link.target = Endpoint.id b →
      a ≠ b → positions a = some source → positions b = some target →
      ∃ pulled, springLink sqrt positions link = some pulled ∧
        pulled a = some { source with
          vx := source.vx + 0.015 * (target.x - source.x)
          vy := source.vy + 0.015 * (target.y - source.y)
          vz := source.vz + 0.015 * (target.z - source.z) } ∧
        pulled b = some { target with
          vx := target.vx - 0.015 * (target.x - source.x)
          vy := target.vy - 0.015 * (target.y - source.y)
          vz := target.vz - 0.015 * (target.z - source.z) } ∧
        ∀ k, k ≠ a → k ≠ b → pulled k = positions k) ∧
    (∀ (sqrt : K → K) (data : Graph) (positions : Positions K) (iter : Nat),
      uniqueIds data → linksPlaced positions data.links →
      ∃ moved, relaxStep sqrt data positions iter = some moved ∧
        ∀ node ∈ data.nodes, ∀ pos, positions node.id = some pos →
          ∃ pos', moved node.id = some pos' ∧
            pos'.vx = 0.015 * pull Position.x positions data.links node.id ∧
            pos'.vy = 0.015 * pull Position.y positions data.links node.id ∧
            pos'.vz = 0.015 * pull Position.z positions data.links node.id ∧
            pos'.x = pos.x
              + 0.015 * pull Position.x positions data.links node.id * damping iter ∧
            pos'.y = pos.y
              + 0.015 * pull Position.y positions data.links node.id * damping iter ∧
            pos'.z = pos.z
              + 0.015 * pull Position.z positions data.links node.id * damping iter) := by
  refine ⟨?_, ?_, ?_⟩
  · intro sqrt source target
    rw [springForce_eq]
    exact ⟨rfl, by ring⟩
  · intro sqrt positions link a b source target ha hb hab hpa hpb
    have hs : positions.at (endpointId link.source) = some source := by rw [ha]; exact hpa
    have ht : positions.at (endpointId link.target) = some target := by rw [hb]; exact hpb
    refine ⟨_, springLink_eq sqrt positions link source target hs ht, ?_, ?_, ?_⟩
    · rw [ha, hb, modify_id_apply, modify_id_apply, if_neg hab, if_pos rfl, hpa, springForce_eq]
      rfl
    · rw [ha, hb, modify_id_apply, modify_id_apply, if_pos rfl, if_neg (Ne.symm hab), hpb,
        springForce_eq]
      rfl
    · intro k hka hkb
      rw [ha, hb, modify_id_apply, modify_id_apply, if_neg hkb, if_neg hka]
  · intro sqrt data positions iter hu hp
    have hreset := foldl_modify_apply (K := K)
      (fun pos => { pos with vx := 0, vy := 0, vz := 0 }) data.nodes hu positions
    have hp' : linksPlaced (resetForces data.nodes positions) data.links := by
      intro l hl
      obtain ⟨h1, h2⟩ := hp l hl
      rw [at_isSome positions (resetForces data.nodes positions) _ hreset,
        at_isSome positions (resetForces data.nodes positions) _ hreset]
      exact ⟨h1, h2⟩
    obtain ⟨pulled, hpulled, hpk⟩ := springForces_apply sqrt data.links _ hp'
    refine ⟨applyForces data.nodes (damping iter) pulled, by simp only [relaxStep, hpulled], ?_⟩
    intro node hnode pos hpos
    have hmem : node.id ∈ data.nodes.map (fun n => n.id) := List.mem_map.mpr ⟨node, hnode, rfl⟩
    have hx : pull Position.x (resetForces data.nodes positions) data.links node.id
        = pull Position.x positions data.links node.id :=
      pull_congr _ _ _ (at_map_coord positions _ _ Position.x hreset
        (fun k p => by split_ifs <;> rfl)) _ _
    have hy : pull Position.y (resetForces data.nodes positions) data.links node.id
        = pull Position.y positions data.links node.id :=
      pull_congr _ _ _ (at_map_coord positions _ _ Position.y hreset
        (fun k p => by split_ifs <;> rfl)) _ _
    have hz : pull Position.z (resetForces data.nodes positions) data.links node.id
        = pull Position.z positions data.links node.id :=
      pull_congr _ _ _ (at_map_coord positions _ _ Position.z hreset
        (fun k p => by split_ifs <;> rfl)) _ _
    have happly := foldl_modify_apply (K := K)
      (fun pos => { pos with
        x := pos.x + pos.vx * damping iter, y := pos.y + pos.vy * damping iter,
        z := pos.z + pos.vz * damping iter }) data.nodes hu pulled node.id
    have hr : resetForces data.nodes positions node.id = _ := hreset node.id
    rw [hpk node.id, hr, hpos] at happly
    simp only [Option.map_some', if_pos hmem, hx, hy, hz, zero_add] at happly
    exact ⟨_, happly, rfl, rfl, rfl, rfl, rfl, rfl⟩

/-- Witness for C14: one iteration on the star over the rationals, nodes on a
line. -/
theorem relaxStep_spring_star :
    ∃ moved, relaxStep (fun q : Rat => q) starGraph linePositions 3 = some moved ∧
      ∀ node ∈ starGraph.nodes, ∀ pos, linePositions node.id = some pos →
        ∃ pos', moved node.id = some pos' ∧
          pos'.vx = 0.015 * pull Position.x linePositions starGraph.links node.id ∧
          pos'.vy = 0.015 * pull Position.y linePositions starGraph.links node.id ∧
          pos'.vz = 0.015 * pull Position.z linePositions starGraph.links node.id ∧
          pos'.x = pos.x
            + 0.015 * pull Position.x linePositions starGraph.links node.id * damping 3 ∧
          pos'.y = pos.y
            + 0.015 * pull Position.y linePositions starGraph.links node.id * damping 3 ∧
          pos'.z = pos.z
            + 0.015 * pull Position.z linePositions starGraph.links node.id * damping 3 :=
  relaxStep_spring.2.2 (fun q : Rat => q) starGraph linePositions 3 (by decide) (by decide)

/-! ## 3D layout: damping schedule and seeding -/

/-- C15 (as amended): `calculatePositions3D` runs the relaxation step for
`iter = 0, 1, ..., 11`, twelve times in all, and the damping of iteration `i` is
`0.4 × (1 − i / 12)`: it starts at `0.4`, decreases by `0.4 / 12` with each
iteration, is still `0.4 / 12 = 1 / 30` in the last iteration `i = 11`, is
positive in every iteration, and would be 0 only for `i = 12`. -/
theorem damping_schedule :
    iterations = 12 ∧
    List.range iterations = [0, 1, 2, 3, 4, 5, 6, 7, 8, 9, 10, 11] ∧
    (∀ (sin cos sqrt : ℝ → ℝ) (angles : Nat → ℝ × ℝ) (data : Graph),
      calculatePositions3D sin cos sqrt angles data
        = [0, 1, 2, 3, 4, 5, 6, 7, 8, 9, 10, 11].foldlM (relaxStep sqrt data)
            (seedPositions sin cos angles 0 data.nodes (fun _ => none))) ∧
    (∀ i : Nat, (damping i : ℝ) = 0.4 - (i : ℝ) * (0.4 / 12)) ∧
    (damping 0 : ℝ) = 0.4 ∧
    (damping 11 : ℝ) = 1 / 30 ∧
    (∀ i : Nat, i < iterations → (0 : ℝ) < damping i) ∧
    (∀ i : Nat, (damping i : ℝ) = 0 ↔ i = 12) := by
  have hlin : ∀ i : Nat, (damping i : ℝ) = 0.4 - (i : ℝ) * (0.4 / 12) := by
    intro i
    simp only [damping, iterations]
    norm_num
    ring
  refine ⟨rfl, rfl, fun _ _ _ _ _ => rfl, hlin, ?_, ?_, ?_, ?_⟩
  · rw [hlin]; norm_num
  · rw [hlin]; norm_num
  · intro i hi
    rw [hlin]
    have : (i : ℝ) ≤ 11 := by
      have : i ≤ 11 := by unfold iterations at hi; omega
      exact_mod_cast this
    linarith
  · intro i
    rw [hlin]
    constructor
    · intro h
      have : (i : ℝ) = 12 := by linarith
      exact_mod_cast this
    · intro h
      subst h
      norm_num

/-- Counterexample to C15 as stated: in the last iteration, `iter = 11`, the
damping is `1 / 30`, not 0. -/
theorem damping_last_iteration_nonzero :
    List.getLast? (List.range iterations) = some 11 ∧
    (damping 11 : ℝ) = 1 / 30 ∧ (damping 11 : ℝ) ≠ 0 := by
  have h : (damping 11 : ℝ) = 1 / 30 := by
    simp only [damping, iterations]
    norm_num
  refine ⟨by decide, h, ?_⟩
  rw [h]
  norm_num

theorem seedPositions_of_not_mem {K : Type} [Field K] (sin cos : K → K)
    (angles : Nat → K × K) (nodes : List Node) (k : NodeId)
    (hk : ∀ node ∈ nodes, node.id ≠ k) (start : Nat) (P : Positions K) :
    seedPositions sin cos angles start nodes P k = P k := by
  induction nodes generalizing start P with
  | nil => rfl
  | cons nd rest ih =>
    rw [seedPositions, ih (fun node hn => hk node (List.mem_cons_of_mem _ hn))]
    have hne : k ≠ nd.id := fun h => hk nd (List.mem_cons_self _ _) h.symm
    simp only [if_neg hne]

theorem seedPositions_of_mem {K : Type} [Field K] (sin cos : K → K)
    (angles : Nat → K × K) (nodes : List Node) (node : Node) (hn : node ∈ nodes)
    (start : Nat) (P : Positions K) :
    ∃ j, j < nodes.length ∧
      seedPositions sin cos angles start nodes P node.id
        = some (seedPosition sin cos (angles (start + j)).1 (angles (start + j)).2) := by
  induction nodes generalizing start P node with
  | nil => cases hn
  | cons nd rest ih =>
    rw [seedPositions]
    by_cases hr : ∃ node' ∈ rest, node'.id = node.id
    · obtain ⟨node', hmem, hid⟩ := hr
      obtain ⟨j, hj, hval⟩ := ih node' hmem (start + 1)
        (fun k => if k = nd.id then
          some (seedPosition sin cos (angles start).1 (angles start).2) else P k)
      rw [hid] at hval
      refine ⟨j + 1, by simp only [List.length_cons]; omega, ?_⟩
      rw [hval]
      have : start + 1 + j = start + (j + 1) := by omega
      rw [this]
    · have hk : ∀ node' ∈ rest, node'.id ≠ node.id := fun node' hm hid => hr ⟨node', hm, hid⟩
      have hnd : node = nd := by
        rcases List.mem_cons.mp hn with h | h
        · exact h
        · exact absurd rfl (hk node h)
      rw [seedPositions_of_not_mem sin cos angles rest node.id hk, hnd]
      exact ⟨0, by simp, by simp⟩

theorem seedPositions_of_index {K : Type} [Field K] (sin cos : K → K)
    (angles : Nat → K × K) (nodes : List Node) (hu : (nodes.map (fun n => n.id)).Nodup)
    (j : Nat) (node : Node) (hj : nodes.get? j = some node) (start : Nat) (P : Positions K) :
    seedPositions sin cos angles start nodes P node.id
      = some (seedPosition sin cos (angles (start + j)).1 (angles (start + j)).2) := by
  induction nodes generalizing start P j with
  | nil => cases hj
  | cons nd rest ih =>
    rw [List.map_cons, List.nodup_cons] at hu
    rw [seedPositions]
    cases j with
    | zero =>
      have hnd : nd = node := by simpa using hj
      subst hnd
      have hk : ∀ node' ∈ rest, node'.id ≠ nd.id := by
        intro node' hm hid
        exact hu.1 (hid ▸ List.mem_map.mpr ⟨node', hm, rfl⟩)
      rw [seedPositions_of_not_mem sin cos angles rest nd.id hk]
      simp
    | succ j =>
      have hj' : rest.get? j = some node := by simpa using hj
      rw [ih hu.2 j hj' (start + 1)]
      have : start + 1 + j = start + (j + 1) := by omega
      rw [this]

/-- C16: the position built from any two angles lies on the sphere of radius
120 about the origin, over the reals; and the first loop of
`calculatePositions3D` assigns such a position to every node of `data.nodes`:
the entry stored under the node's id exists, is the position built from the
angles drawn for some node of the list (for the node itself when ids are
unique), lies on that sphere and has zero force accumulators.  Ids of no node
get no entry. -/
theorem seedPosition_on_sphere :
    (∀ theta phi : ℝ,
      (seedPosition Real.sin Real.cos theta phi).x ^ 2 +
        (seedPosition Real.sin Real.cos theta phi).y ^ 2 +
        (seedPosition Real.sin Real.cos theta phi).z ^ 2 = 120 ^ 2) ∧
    (∀ (angles : Nat → ℝ × ℝ) (nodes : List Node) (node : Node), node ∈ nodes →
      ∃ j pos, j < nodes.length ∧
        seedPositions Real.sin Real.cos angles 0 nodes (fun _ => none) node.id = some pos ∧
        pos = seedPosition Real.sin Real.cos (angles j).1 (angles j).2 ∧
        pos.x ^ 2 + pos.y ^ 2 + pos.z ^ 2 = 120 ^ 2 ∧
        pos.vx = 0 ∧ pos.vy = 0 ∧ pos.vz = 0) ∧
    (∀ (angles : Nat → ℝ × ℝ) (nodes : List Node) (j : Nat) (node : Node),
      (nodes.map (fun n => n.id)).Nodup → nodes.get? j = some node →
      seedPositions Real.sin Real.cos angles 0 nodes (fun _ => none) node.id
        = some (seedPosition Real.sin Real.cos (angles j).1 (angles j).2)) ∧
    (∀ (angles : Nat → ℝ × ℝ) (nodes : List Node) (k : NodeId),
      (∀ node ∈ nodes, node.id ≠ k) →
      seedPositions Real.sin Real.cos angles 0 nodes (fun _ => none) k = none) := by
  have hpt : ∀ theta phi : ℝ,
      (seedPosition Real.sin Real.cos theta phi).x ^ 2 +
        (seedPosition Real.sin Real.cos theta phi).y ^ 2 +
        (seedPosition Real.sin Real.cos theta phi).z ^ 2 = 120 ^ 2 := by
    intro theta phi
    have h1 := Real.sin_sq_add_cos_sq theta
    have h2 := Real.sin_sq_add_cos_sq phi
    simp only [seedPosition]
    linear_combination (120 ^ 2 * Real.sin phi ^ 2) * h1 + 120 ^ 2 * h2
  refine ⟨hpt, ?_, ?_, ?_⟩
  · intro angles nodes node hn
    obtain ⟨j, hj, hval⟩ :=
      seedPositions_of_mem Real.sin Real.cos angles nodes node hn 0 (fun _ => none)
    rw [Nat.zero_add] at hval
    exact ⟨j, _, hj, hval, rfl, hpt _ _, rfl, rfl, rfl⟩
  · intro angles nodes j node hu hj
    have hval :=
      seedPositions_of_index Real.sin Real.cos angles nodes hu j node hj 0 (fun _ => none)
    rw [Nat.zero_add] at hval
    exact hval
  · intro angles nodes k hk
    exact seedPositions_of_not_mem Real.sin Real.cos angles nodes k hk 0 (fun _ => none)

/-! ## Chart series -/

theorem le_last_of_pairwise {l : List Nat} {last : Nat} (hs : l.Pairwise (fun a b => a < b))
    (hl : l.getLast? = some last) : ∀ x ∈ l, x ≤ last := by
  obtain ⟨ys, rfl⟩ := List.getLast?_eq_some_iff.mp hl
  intro x hx
  rw [List.pairwise_append] at hs
  rcases List.mem_append.mp hx with h | h
  · exact Nat.le_of_lt (hs.2.2 x h last (List.mem_singleton_self _))
  · rw [List.mem_singleton] at h
    exact Nat.le_of_eq h

theorem updateChartData_live (s : State) (stats : Statistics) (hlive : s.infectionChart = true) :
    updateChartData s stats
      = if s.chartData.timeSteps.length = 0 ∨
            afterLast stats.time_step s.chartData.timeSteps = true then
          { s with chartData :=
              if (s.chartData.timeSteps ++ [stats.time_step]).length > 50 then
                { timeSteps := (s.chartData.timeSteps ++ [stats.time_step]).drop 1
                  infected := (s.chartData.infected ++ [stats.infected_count]).drop 1
                  healthy := (s.chartData.healthy ++ [stats.healthy_count]).drop 1 }
              else
                { timeSteps := s.chartData.timeSteps ++ [stats.time_step]
                  infected := s.chartData.infected ++ [stats.infected_count]
                  healthy := s.chartData.healthy ++ [stats.healthy_count] } }
        else s := by
  simp only [updateChartData, hlive, Bool.not_true, Bool.false_eq_true, if_false]

theorem updateChartData_frame_chart (s : State) (stats : Statistics) :
    (updateChartData s stats).infectionChart = s.infectionChart := by
  unfold updateChartData
  dsimp only
  split_ifs <;> rfl

theorem chartInvariant_updateChartData (s : State) (stats : Statistics)
    (h : chartInvariant s.chartData) : chartInvariant (updateChartData s stats).chartData := by
  cases hlive : s.infectionChart with
  | false => simp only [updateChartData, hlive, Bool.not_false, if_true]; exact h
  | true =>
    rw [updateChartData_live s stats hlive]
    obtain ⟨h1, h2, h3, h4⟩ := h
    split_ifs with hc hlen
    · -- appended, then the oldest point dropped
      have hsorted : (s.chartData.timeSteps ++ [stats.time_step]).Pairwise (fun a b => a < b) := by
        rw [List.pairwise_append]
        refine ⟨h4, List.pairwise_singleton _ _, ?_⟩
        intro a ha b hb
        rw [List.mem_singleton] at hb
        subst hb
        rcases hc with hc | hc
        · rw [List.length_eq_zero] at hc
          rw [hc] at ha
          cases ha
        · unfold afterLast at hc
          cases hl : s.chartData.timeSteps.getLast? with
          | none => rw [hl] at hc; cases hc
          | some last =>
            rw [hl] at hc
            have : last < stats.time_step := by simpa using hc
            exact Nat.lt_of_le_of_lt (le_last_of_pairwise h4 hl a ha) this
      simp only [List.length_append, List.length_singleton] at hlen
      refine ⟨?_, ?_, ?_, hsorted.drop⟩
      · simp only [List.length_drop, List.length_append, List.length_singleton, h1]
      · simp only [List.length_drop, List.length_append, List.length_singleton, h2]
      · simp only [List.length_drop, List.length_append, List.length_singleton]
        omega
    · have hsorted : (s.chartData.timeSteps ++ [stats.time_step]).Pairwise (fun a b => a < b) := by
        rw [List.pairwise_append]
        refine ⟨h4, List.pairwise_singleton _ _, ?_⟩
        intro a ha b hb
        rw [List.mem_singleton] at hb
        subst hb
        rcases hc with hc | hc
        · rw [List.length_eq_zero] at hc
          rw [hc] at ha
          cases ha
        · unfold afterLast at hc
          cases hl : s.chartData.timeSteps.getLast? with
          | none => rw [hl] at hc; cases hc
          | some last =>
            rw [hl] at hc
            have : last < stats.time_step := by simpa using hc
            exact Nat.lt_of_le_of_lt (le_last_of_pairwise h4 hl a ha) this
      simp only [List.length_append, List.length_singleton] at hlen
      refine ⟨?_, ?_, ?_, hsorted⟩
      · simp only [List.length_append, List.length_singleton, h1]
      · simp only [List.length_append, List.length_singleton, h2]
      · simp only [List.length_append, List.length_singleton]
        omega
    · exact ⟨h1, h2, h3, h4⟩

/-- C19: from a `chartData` whose three series have the same length, at most
50, with strictly increasing time steps, any sequence of `updateChartData`
calls keeps all three properties.  With a live chart and a last recorded time
step, a call whose `time_step` is not greater changes nothing, and a call whose
`time_step` is greater appends one point to each series and, if that makes 51
points, drops the first (oldest) point of each; without a chart a call changes
nothing. -/
theorem updateChartData_monotone (s : State) (calls : List Statistics)
    (hinv : chartInvariant s.chartData) :
    chartInvariant (calls.foldl updateChartData s).chartData ∧
    (∀ (t : State) (stats : Statistics), t.infectionChart = false → updateChartData t stats = t) ∧
    (∀ (t : State) (stats : Statistics) (last : Nat), t.infectionChart = true →
      t.chartData.timeSteps.getLast? = some last →
      (stats.time_step ≤ last → updateChartData t stats = t) ∧
      (last < stats.time_step →
        updateChartData t stats = { t with chartData :=
          if t.chartData.timeSteps.length + 1 > 50 then
            { timeSteps := (t.chartData.timeSteps ++ [stats.time_step]).drop 1
              infected := (t.chartData.infected ++ [stats.infected_count]).drop 1
              healthy := (t.chartData.healthy ++ [stats.healthy_count]).drop 1 }
          else
            { timeSteps := t.chartData.timeSteps ++ [stats.time_step]
              infected := t.chartData.infected ++ [stats.infected_count]
              healthy := t.chartData.healthy ++ [stats.healthy_count] } })) := by
  refine ⟨?_, ?_, ?_⟩
  · induction calls generalizing s with
    | nil => exact hinv
    | cons stats rest ih =>
      rw [List.foldl_cons]
      exact ih _ (chartInvariant_updateChartData s stats hinv)
  · intro t stats hoff
    simp only [updateChartData, hoff, Bool.not_false, if_true]
  · intro t stats last hlive hlast
    rw [updateChartData_live t stats hlive]
    have hne : ¬ t.chartData.timeSteps.length = 0 := by
      intro h0
      rw [List.length_eq_zero] at h0
      rw [h0] at hlast
      cases hlast
    constructor
    · intro hle
      have : ¬ (t.chartData.timeSteps.length = 0 ∨
          afterLast stats.time_step t.chartData.timeSteps = true) := by
        rintro (h | h)
        · exact hne h
        · simp only [afterLast, hlast, decide_eq_true_eq] at h
          omega
      rw [if_neg this]
    · intro hlt
      have : t.chartData.timeSteps.length = 0 ∨
          afterLast stats.time_step t.chartData.timeSteps = true := by
        right
        simp only [afterLast, hlast, decide_eq_true_eq]
        exact hlt
      rw [if_pos this]
      simp only [List.length_append, List.length_singleton]

/-- Witness for C19: the chart of the stepped star (two points) after a stale
statistics object, a new one and a repeated one. -/
theorem updateChartData_monotone_star :
    chartInvariant
      ([starStats 1 2, starStats 2 3, starStats 2 4].foldl updateChartData steppedStar).chartData :=
  (updateChartData_monotone steppedStar [starStats 1 2, starStats 2 3, starStats 2 4]
    (by decide)).1

/-! ## Endpoint normalisation and auto-start -/

/-- C17 (as amended): `endpoint.id || endpoint` is the node's id for every
raw id, 0 included, and for every embedded node object whose id is not 0. -/
theorem endpointId_falsy_zero :
    (∀ n : NodeId, endpointId (Endpoint.id n) = Endpoint.id n) ∧
    (∀ node : Node, node.id ≠ 0 → endpointId (Endpoint.node node) = Endpoint.id node.id) := by
  refine ⟨fun n => rfl, ?_⟩
  intro node hne
  simp [endpointId, hne]

/-- Witness for C17 (amended): the raw id 0 and the embedded node 3. -/
theorem endpointId_falsy_zero_three :
    endpointId (Endpoint.id 0) = Endpoint.id 0 ∧
    endpointId (Endpoint.node (exampleNode 3)) = Endpoint.id 3 :=
  ⟨endpointId_falsy_zero.1 0, endpointId_falsy_zero.2 (exampleNode 3) (by decide)⟩

/-- Counterexample to C17 as stated: for the embedded node object with id 0 the
expression is the object itself (`0 || object`), not the id 0. -/
theorem endpointId_embedded_zero :
    (exampleNode 0).id = 0 ∧
    endpointId (Endpoint.node (exampleNode 0)) = Endpoint.node (exampleNode 0) ∧
    endpointId (Endpoint.node (exampleNode 0)) ≠ Endpoint.id (exampleNode 0).id := by
  decide

/-- C18 (what the code does): a successful `startSimulation` whose
continuation reaches line 158 flips `isAutoPlaying`.  Called with auto-play off
it starts an interval; called with auto-play already on, as on the started
star, it ends with `isAutoPlaying` false and no live interval. -/
theorem startSimulation_flips_autoPlay :
    (∀ (s u : State) (snap : InfectionState) (stats : Statistics) (over : Bool),
      updateInfectionState s snap = Outcome.returned u →
      (startSimulation s (Fetch.response (successResponse snap stats over))).isAutoPlaying
        = !s.isAutoPlaying) ∧
    startedStar.isAutoPlaying = true ∧
    startedStar.timers.active = [1] ∧
    (startSimulation startedStar
      (Fetch.response (successResponse [] (starStats 0 1) false))).isAutoPlaying = false ∧
    (startSimulation startedStar
      (Fetch.response (successResponse [] (starStats 0 1) false))).timers.active = [] := by
  refine ⟨?_, by decide, by decide, by decide, by decide⟩
  intro s u snap stats over hu
  obtain ⟨f1, _, _⟩ := update_frame s snap stats
  rw [hu] at f1
  simp only [Outcome.state] at f1
  simp only [startSimulation, successResponse, hu, toggleAutoPlay, f1]
  cases s.isAutoPlaying <;> rfl

/-! ## 2D and 3D highlighting derive the same sets -/

theorem scanLinks_fold_neighborIds (nodeId : NodeId) (eo : List EdgeObj) (links : List Link)
    (acc : Scan) :
    (links.foldl (scanLink nodeId eo) acc).neighborIds
      = acc.neighborIds ++ links.filterMap (neighborOf nodeId) := by
  induction links generalizing acc with
  | nil => simp
  | cons l rest ih =>
    rw [List.foldl_cons, ih]
    cases h : neighborOf nodeId l with
    | none => simp [scanLink, h, List.filterMap_cons]
    | some v => simp [scanLink, h, List.filterMap_cons]

theorem neighborOf_rawLink (sel a b : NodeId) :
    neighborOf sel (rawLink a b)
      = if a = sel then some (Endpoint.id b) else if b = sel then some (Endpoint.id a) else none := by
  simp [neighborOf, rawLink, endpointId]

theorem neighborOf2D_embeddedLink (sel : NodeId) (a b : Node) :
    neighborOf2D sel (embeddedLink a b)
      = if a.id = sel then some (some b.id) else if b.id = sel then some (some a.id) else none := by
  simp [neighborOf2D, embeddedLink, Endpoint.dotId]

theorem incident_rawLink (sel a b : NodeId) :
    incident sel (rawLink a b) ↔ a = sel ∨ b = sel := by
  simp [incident, rawLink]

theorem scanLinks2D_embeds (sel : NodeId) {links2 links3 : List Link}
    (h : embedsLinks links2 links3) (k : Nat) (acc : Highlight2D)
    (hacc : ∀ j ∈ acc.linkedEdges, j < k) :
    (scanLinks2D sel k links2 acc).linkedEdges
        = acc.linkedEdges ++ incidentIndices sel k links3 ∧
    (scanLinks2D sel k links2 acc).neighborIdsList
        = acc.neighborIdsList ++ (links3.filterMap (neighborOf sel)).map Endpoint.asId ∧
    (scanLinks2D sel k links2 acc).neighborIds
        = ((links3.filterMap (neighborOf sel)).map Endpoint.asId).foldl setAdd acc.neighborIds := by
  unfold embedsLinks at h
  induction h generalizing k acc with
  | nil => simp [scanLinks2D, incidentIndices]
  | @cons l2 l3 r2 r3 hl _ ih =>
    obtain ⟨a, b, rfl, rfl⟩ := hl
    rw [scanLinks2D, neighborOf2D_embeddedLink, List.filterMap_cons, neighborOf_rawLink,
      incidentIndices]
    have hfresh : k ∉ acc.linkedEdges := fun hk => Nat.lt_irrefl k (hacc k hk)
    by_cases ha : a.id = sel
    · have hi : incident sel (rawLink a.id b.id) := (incident_rawLink _ _ _).mpr (Or.inl ha)
      simp only [if_pos ha, if_pos hi]
      obtain ⟨h1, h2, h3⟩ := ih (k + 1)
        { neighborIds := setAdd acc.neighborIds (some b.id)
          neighborIdsList := acc.neighborIdsList ++ [some b.id]
          linkedEdges := setAdd acc.linkedEdges k }
        (by
          intro j hj
          simp only [setAdd, if_neg hfresh, List.mem_append, List.mem_singleton] at hj
          rcases hj with hj | hj
          · exact Nat.lt_succ_of_lt (hacc j hj)
          · omega)
      refine ⟨?_, ?_, ?_⟩
      · rw [h1]; simp [setAdd, hfresh]
      · rw [h2]; simp [Endpoint.asId]
      · rw [h3]; simp [Endpoint.asId]
    · by_cases hb : b.id = sel
      · have hi : incident sel (rawLink a.id b.id) := (incident_rawLink _ _ _).mpr (Or.inr hb)
        simp only [if_neg ha, if_pos hb, if_pos hi]
        obtain ⟨h1, h2, h3⟩ := ih (k + 1)
          { neighborIds := setAdd acc.neighborIds (some a.id)
            neighborIdsList := acc.neighborIdsList ++ [some a.id]
            linkedEdges := setAdd acc.linkedEdges k }
          (by
            intro j hj
            simp only [setAdd, if_neg hfresh, List.mem_append, List.mem_singleton] at hj
            rcases hj with hj | hj
            · exact Nat.lt_succ_of_lt (hacc j hj)
            · omega)
        refine ⟨?_, ?_, ?_⟩
        · rw [h1]; simp [setAdd, hfresh]
        · rw [h2]; simp [Endpoint.asId]
        · rw [h3]; simp [Endpoint.asId]
      · have hi : ¬ incident sel (rawLink a.id b.id) := by
          rw [incident_rawLink]; exact fun h => h.elim ha hb
        simp only [if_neg ha, if_neg hb, if_neg hi, List.nil_append]
        exact ih (k + 1) acc (fun j hj => Nat.lt_succ_of_lt (hacc j hj))

theorem incidentIndices_eq_indexOf (nodeId : NodeId) (pre suf : List Link)
    (hnd : (pre ++ suf).Nodup) :
    (suf.filter (fun l => decide (incident nodeId l))).map (fun l => (pre ++ suf).indexOf l)
      = incidentIndices nodeId pre.length suf := by
  induction suf generalizing pre with
  | nil => rfl
  | cons l rest ih =>
    have hl : l ∉ pre := by
      intro hmem
      exact (List.nodup_append.mp hnd).2.2 hmem (List.mem_cons_self _ _)
    have hidx : (pre ++ l :: rest).indexOf l = pre.length := by
      rw [List.indexOf_append_of_not_mem hl]
      simp
    have hnd' : ((pre ++ [l]) ++ rest).Nodup := by simpa using hnd
    have ih' := ih (pre ++ [l]) hnd'
    simp only [List.append_assoc, List.singleton_append, List.length_append,
      List.length_singleton] at ih'
    rw [incidentIndices, List.filter_cons]
    by_cases hi : incident nodeId l
    · simp only [hi, decide_True, if_true, List.map_cons, hidx, ih', List.singleton_append]
    · simp only [hi, decide_False, if_false, List.nil_append, ih', Bool.false_eq_true]

theorem asId_eq_some {v : Endpoint} {d : NodeId} : v.asId = some d ↔ v = Endpoint.id d := by
  cases v with
  | id n => simp [Endpoint.asId]
  | node nd => simp [Endpoint.asId]

theorem embedsLinks_star : embedsLinks embeddedStar.links starGraph.links := by
  unfold embedsLinks
  exact List.Forall₂.cons ⟨exampleNode 0, exampleNode 1, rfl, rfl⟩
    (List.Forall₂.cons ⟨exampleNode 0, exampleNode 2, rfl, rfl⟩
      (List.Forall₂.cons ⟨exampleNode 0, exampleNode 3, rfl, rfl⟩
        (List.Forall₂.cons ⟨exampleNode 0, exampleNode 4, rfl, rfl⟩ List.Forall₂.nil)))

theorem embedsLinks_parallel : embedsLinks embeddedParallel.links parallelGraph.links := by
  unfold embedsLinks
  exact List.Forall₂.cons ⟨exampleNode 0, exampleNode 1, rfl, rfl⟩
    (List.Forall₂.cons ⟨exampleNode 0, exampleNode 1, rfl, rfl⟩ List.Forall₂.nil)

/-- Where the 2D and the 3D function agree: take a 3D scene showing a graph
whose links hold raw ids of its nodes, no two links joining the same pair of
nodes, and a 2D link list holding, position by position, the same links with
embedded node objects.  For every node `n`, `highlightNeighbors2D` and
`highlightNeighbors3D` derive the same neighbour id list, the same set of
incident links (a line of the 3D scene being named by the position of its
link), and the same dimmed nodes and links. -/
theorem highlight2D_matches_3D (s3 : State) (g3 : Graph) (nodes2 : List Node)
    (links2 : List Link) (n : Node)
    (hs : showsGraph s3 g3) (hraw : rawIdLinks g3) (hpar : noParallelLinks g3)
    (hemb : embedsLinks links2 g3.links) :
    ∃ s', highlightNeighbors3D s3 n true = some s' ∧
      (highlightNeighbors2D { nodes := nodes2, links := links2 } n).neighborIdsList
        = (scanLinks n.id (resetHighlight g3 s3).edgeObjects g3.links).neighborIds.map
            Endpoint.asId ∧
      (∀ v ∈ (scanLinks n.id (resetHighlight g3 s3).edgeObjects g3.links).neighborIds,
        ∃ k, v = Endpoint.id k) ∧
      (highlightNeighbors2D { nodes := nodes2, links := links2 } n).linkedEdges
        = s'.highlightedEdges ∧
      (∀ d, dimmedNode2D (highlightNeighbors2D { nodes := nodes2, links := links2 } n) d ↔
        dimmedNode3D n.id s'.highlightedNeighbors d) ∧
      (∀ i, dimmedEdge2D (highlightNeighbors2D { nodes := nodes2, links := links2 } n) i ↔
        dimmedEdge3D s'.highlightedEdges i) := by
  refine ⟨applyHighlight g3 n.id (resetHighlight g3 s3), highlight_true_eq hs.1 n, ?_⟩
  obtain ⟨h1, h2, h3⟩ := scanLinks2D_embeds n.id hemb 0
    { neighborIds := [some n.id], linkedEdges := [], neighborIdsList := [] }
    (fun j hj => by cases hj)
  have hnb : (applyHighlight g3 n.id (resetHighlight g3 s3)).highlightedNeighbors
      = (g3.links.filterMap (neighborOf n.id)).foldl setAdd [] := by
    simp only [applyHighlight, scanLinks]
    rw [scanLinks_fold_neighbors]
  have hids : (scanLinks n.id (resetHighlight g3 s3).edgeObjects g3.links).neighborIds
      = g3.links.filterMap (neighborOf n.id) := by
    simp only [scanLinks]
    rw [scanLinks_fold_neighborIds]
    rfl
  have hed : (applyHighlight g3 n.id (resetHighlight g3 s3)).highlightedEdges
      = incidentIndices n.id 0 g3.links := by
    have := scan_edges_eq hraw hpar n.id ((resetHighlight_edgeKeys g3 s3).trans hs.2.2)
    simp only [applyHighlight]
    rw [this]
    exact incidentIndices_eq_indexOf n.id [] g3.links (links_nodup hpar)
  have hedges : (highlightNeighbors2D { nodes := nodes2, links := links2 } n).linkedEdges
      = (applyHighlight g3 n.id (resetHighlight g3 s3)).highlightedEdges := by
    rw [hed]
    simpa [highlightNeighbors2D] using h1
  refine ⟨?_, ?_, hedges, ?_, ?_⟩
  · rw [hids]
    simpa [highlightNeighbors2D] using h2
  · intro v hv
    rw [hids, mem_neighborIds_iff hraw] at hv
    obtain ⟨l, hl, hc⟩ := hv
    obtain ⟨_, a, ha, _⟩ := endpointId_of_hasPosition (hraw l hl).1
    obtain ⟨_, b, hb, _⟩ := endpointId_of_hasPosition (hraw l hl).2
    rcases hc with ⟨_, h⟩ | ⟨_, h⟩
    · exact ⟨b, h.symm.trans hb⟩
    · exact ⟨a, h.symm.trans ha⟩
  · intro d
    unfold dimmedNode2D dimmedNode3D
    have h3' : (highlightNeighbors2D { nodes := nodes2, links := links2 } n).neighborIds
        = ((g3.links.filterMap (neighborOf n.id)).map Endpoint.asId).foldl setAdd [some n.id] := h3
    rw [h3', hnb, mem_foldl_setAdd, mem_foldl_setAdd]
    simp only [List.mem_singleton, Option.some.injEq, List.mem_map, asId_eq_some,
      exists_eq_right, List.not_mem_nil, false_or, not_or]
  · intro i
    unfold dimmedEdge2D dimmedEdge3D
    rw [hedges]

/-- The star, focused on its centre, in both views. -/
theorem highlight2D_matches_3D_star :
    ∃ s', highlightNeighbors3D (loadGraph3D State.init starGraph) (exampleNode 0) true = some s' ∧
      (highlightNeighbors2D { nodes := embeddedStar.nodes, links := embeddedStar.links }
          (exampleNode 0)).neighborIdsList
        = (scanLinks 0 (resetHighlight starGraph (loadGraph3D State.init starGraph)).edgeObjects
            starGraph.links).neighborIds.map Endpoint.asId ∧
      (∀ v ∈ (scanLinks 0 (resetHighlight starGraph
          (loadGraph3D State.init starGraph)).edgeObjects starGraph.links).neighborIds,
        ∃ k, v = Endpoint.id k) ∧
      (highlightNeighbors2D { nodes := embeddedStar.nodes, links := embeddedStar.links }
          (exampleNode 0)).linkedEdges = s'.highlightedEdges ∧
      (∀ d, dimmedNode2D (highlightNeighbors2D
          { nodes := embeddedStar.nodes, links := embeddedStar.links } (exampleNode 0)) d ↔
        dimmedNode3D 0 s'.highlightedNeighbors d) ∧
      (∀ i, dimmedEdge2D (highlightNeighbors2D
          { nodes := embeddedStar.nodes, links := embeddedStar.links } (exampleNode 0)) i ↔
        dimmedEdge3D s'.highlightedEdges i) :=
  highlight2D_matches_3D (loadGraph3D State.init starGraph) starGraph embeddedStar.nodes
    embeddedStar.links (exampleNode 0) (by decide) (by decide) (by decide) embedsLinks_star

/-- C13: the two functions differ on a link list with two links joining nodes 0
and 1.  Focusing node 0, `highlightNeighbors2D` marks both links as incident
(lines 496, 500); in the 3D view `edgeObjects.find` (lines 679-683) returns the
first line object for both links, so that `edgesToHighlight` holds one line and
the second line, although it joins the focused node to its neighbour, is faded
to opacity `0.08` by the loop that fades "non-connected elements" (lines
695-706): it is dimmed in 3D and not in 2D. -/
theorem highlight2D_differs_on_parallel_links :
    embedsLinks embeddedParallel.links parallelGraph.links ∧
    (highlightNeighbors2D embeddedParallel (exampleNode 0)).linkedEdges = [0, 1] ∧
    ¬ dimmedEdge2D (highlightNeighbors2D embeddedParallel (exampleNode 0)) 1 ∧
    (∃ s', highlightNeighbors3D (loadGraph3D State.init parallelGraph) (exampleNode 0) true
        = some s' ∧
      s'.highlightedEdges = [0] ∧ dimmedEdge3D s'.highlightedEdges 1 ∧
      s'.edgeObjects.map (fun e => (e.ref, e.material.opacity)) = [(0, 95), (1, 8)]) :=
  ⟨embedsLinks_parallel, by decide, by
    unfold dimmedEdge2D
    decide,
   applyHighlight parallelGraph 0
     (resetHighlight parallelGraph (loadGraph3D State.init parallelGraph)),
   by decide, by decide, by
    unfold dimmedEdge3D
    decide, by decide⟩

/-! ## 3D layout: instances -/

/-- Witness for C15 (amended): the damping of iteration 3 is positive. -/
theorem damping_schedule_third : (0 : ℝ) < damping 3 :=
  damping_schedule.2.2.2.2.2.2.1 3 (by decide)

/-- Witness for C16: the only node of the self-loop graph, with angles `θ = 1`
and `φ = 2`, gets an entry, and that entry lies on the sphere. -/
theorem seedPosition_on_sphere_loop :
    ∃ j pos, j < loopGraph.nodes.length ∧
      seedPositions Real.sin Real.cos (fun _ => (1, 2)) 0 loopGraph.nodes (fun _ => none)
        (exampleNode 0).id = some pos ∧
      pos = seedPosition Real.sin Real.cos
        ((fun _ => (1, 2) : Nat → ℝ × ℝ) j).1 ((fun _ => (1, 2) : Nat → ℝ × ℝ) j).2 ∧
      pos.x ^ 2 + pos.y ^ 2 + pos.z ^ 2 = 120 ^ 2 ∧
      pos.vx = 0 ∧ pos.vy = 0 ∧ pos.vz = 0 :=
  seedPosition_on_sphere.2.1 (fun _ => (1, 2)) loopGraph.nodes (exampleNode 0)
    (by simp [loopGraph])

end EpidemicViewer
